import Mathlib

/-!
# Growth (runv / runv-lazy / hyper): persistence codec, lazy state machine, QMP sessions

A shallow embedding of the parts of the repository that the specification
talks about, followed by the theorems that settle each numbered claim.

Conventions of the embedding

* A Go function returning `(value, error)` becomes a function into `Except String _`;
  where the Go code can also panic (nil dereference, index out of range) the
  result type is `Outcome`, which has a third alternative.
* A Go `map[K]V` is an association list `List (K × V)`; `mapGet` and `mapSet`
  are lookup and assignment, and `range` visits the entries in list order
  (any order Go may pick is the order of some list).
* A Go channel is the FIFO list of the values sent on it.
* A Go interface value (`VmEvent`, `interface{}`) is an inductive type with a
  `nil` alternative.
* A closure is represented by the values it captures (`Respond`).
* Go `int` values are only copied, compared and printed here, so they are `Int`.
-/

namespace Growth

/-! ## Go runtime helpers -/

/-- Result of a Go call that returns `(value, error)` and may panic. -/
inductive Outcome (α : Type) where
  | ok (val : α)
  | err (msg : String)
  | panic (msg : String)
deriving DecidableEq, Repr

/-- True when the call panicked. -/
def Outcome.isPanic {α : Type} : Outcome α → Bool
  | .panic _ => true
  | _ => false

/-- Lookup `m[k]` with the comma-ok result folded into an `Option`. -/
def mapGet {κ ν : Type} [DecidableEq κ] : List (κ × ν) → κ → Option ν
  | [], _ => none
  | (k', v) :: rest, k => if k' = k then some v else mapGet rest k

/-- Assignment `m[k] = v`. -/
def mapSet {κ ν : Type} [DecidableEq κ] : List (κ × ν) → κ → ν → List (κ × ν)
  | [], k, v => [(k, v)]
  | (k', v') :: rest, k, v =>
    if k' = k then (k, v) :: rest else (k', v') :: mapSet rest k v

/-- Go `strconv.Itoa`. -/
def Itoa (n : Int) : String := toString n

/-- A value of type `interface{}` as stored in the driver map. -/
inductive GoValue where
  | nil
  | str (s : String)
  | int (n : Int)
  | float64 (v : ℚ)
  | bool (b : Bool)
deriving DecidableEq, Repr

/-! ## hypervisor events (the `VmEvent` interface) -/

/-- Event codes returned by `VmEvent.Event()`. -/
inductive EventCode where
  | EVENT_VM_EXIT
  | ERROR_INTERRUPTED
  | COMMAND_SHUTDOWN
  | COMMAND_RELEASE
  | COMMAND_EXEC
  | COMMAND_ATTACH
  | COMMAND_WINDOWSIZE
  | COMMAND_RUN_POD
  | COMMAND_REPLACE_POD
  | COMMAND_LISTEN_POD
  | EVENT_BLOCK_INSERTED
  | EVENT_INTERFACE_ADD
  | ERROR_QMP_FAIL
  | ERROR_VM_START_FAILED
  | OTHER (code : Nat)
deriving DecidableEq, Repr

structure UserContainer where
  Name : String
  Image : String
deriving DecidableEq, Repr

/-- The user-level pod specification `pod.UserPod` (only the fields read here). -/
structure UserPod where
  Name : String
  Containers : List UserContainer
deriving DecidableEq, Repr

/-- Runtime information of one container, `hypervisor.ContainerInfo`. -/
structure ContainerInfo where
  Id : String
deriving DecidableEq, Repr

/-- Runtime information of one volume, `hypervisor.VolumeInfo`. -/
structure VolumeInfo where
  Name : String
  Filepath : String
  Fstype : String
  Format : String
deriving DecidableEq, Repr

structure TtyStreams where
  ClientTag : String
deriving DecidableEq, Repr

structure AttachCommand where
  Container : String
  Streams : TtyStreams
deriving DecidableEq, Repr

structure ExecCommand where
  Container : String
  Command : List String
deriving DecidableEq, Repr

structure WindowSize where
  Row : Nat
  Column : Nat
deriving DecidableEq, Repr

structure WindowSizeCommand where
  ClientTag : String
  Size : WindowSize
deriving DecidableEq, Repr

structure RunPodCommand where
  Spec : UserPod
  Containers : List ContainerInfo
  Volumes : List VolumeInfo
deriving DecidableEq, Repr

structure ListenPodCommand where
  Spec : UserPod
  Containers : List ContainerInfo
  Volumes : List VolumeInfo
  Ip : String
  Port : String
deriving DecidableEq, Repr

/-- Values of the interface type `hypervisor.VmEvent`, `nil` included. -/
inductive VmEvent where
  | nil
  | VmExit
  | Interrupted (reason : String)
  | ShutdownCommand
  | ReleaseVMCommand
  | Exec (cmd : ExecCommand)
  | Attach (cmd : AttachCommand)
  | WindowSizeCmd (cmd : WindowSizeCommand)
  | RunPod (cmd : RunPodCommand)
  | ReplacePod (cmd : RunPodCommand)
  | ListenPod (cmd : ListenPodCommand)
  | BlockdevInsertedEvent (Name SourceType DeviceName : String) (ScsiId : Int)
  | NetDevInsertedEvent (Index : Int) (DeviceName : String) (Address : Int)
  | DeviceFailed (Session : VmEvent)
  | VmStartFailEvent (Message : String)
  | Other (code : Nat) (tag : String)
deriving DecidableEq, Repr

/-- The method `Event()` of each event type. -/
def VmEvent.Event : VmEvent → EventCode
  | .nil => .OTHER 0
  | .VmExit => .EVENT_VM_EXIT
  | .Interrupted _ => .ERROR_INTERRUPTED
  | .ShutdownCommand => .COMMAND_SHUTDOWN
  | .ReleaseVMCommand => .COMMAND_RELEASE
  | .Exec _ => .COMMAND_EXEC
  | .Attach _ => .COMMAND_ATTACH
  | .WindowSizeCmd _ => .COMMAND_WINDOWSIZE
  | .RunPod _ => .COMMAND_RUN_POD
  | .ReplacePod _ => .COMMAND_REPLACE_POD
  | .ListenPod _ => .COMMAND_LISTEN_POD
  | .BlockdevInsertedEvent _ _ _ _ => .EVENT_BLOCK_INSERTED
  | .NetDevInsertedEvent _ _ _ => .EVENT_INTERFACE_ADD
  | .DeviceFailed _ => .ERROR_QMP_FAIL
  | .VmStartFailEvent _ => .ERROR_VM_START_FAILED
  | .Other code _ => .OTHER code

/-! ## qemu driver: sessions and the driver context -/

/-- A QMP command: `Execute`, `Arguments` (a `map[string]interface{}`) and
whether ancillary data (`Scm`) is attached, with the descriptor it carries. -/
structure QmpCommand where
  Execute : String
  Arguments : List (String × GoValue)
  Scm : Option Nat
deriving DecidableEq, Repr

/-- The closure built by `defaultRespond(ctx, callback)`: it captures `callback`. -/
structure Respond where
  callback : VmEvent
deriving DecidableEq, Repr

structure QmpSession where
  commands : List QmpCommand
  respond : Respond
deriving DecidableEq, Repr

structure Process where
  Pid : Int
deriving DecidableEq, Repr

structure QemuDriver where
  executable : String
deriving DecidableEq, Repr

structure qemuNicConfig where
  fd : Nat
  deviceName : String
  macAddr : String
  pciAddr : Int
deriving DecidableEq, Repr

structure qemuImageConfig where
  deviceName : String
  sourceType : String
  format : String
  scsiId : Int
deriving DecidableEq, Repr

/-- The driver context `QemuContext`; the channels hold what was sent on them. -/
structure QemuContext where
  driver : QemuDriver
  qmp : List QmpSession
  waitQmp : List Int
  wdt : List String
  qmpSockName : String
  process : Option Process
  interfaces : List qemuNicConfig
  images : List qemuImageConfig
  callbacks : List VmEvent
deriving DecidableEq, Repr

/-- Go `os.FindProcess` on Unix: always succeeds and returns a handle for the pid. -/
def osFindProcess (pid : Int) : Except String Process := .ok ⟨pid⟩

/-- The method `QemuDriver.LoadContext` (qemu.go:76). -/
def QemuDriver.LoadContext (qd : QemuDriver) (persisted : List (String × GoValue)) :
    Except String QemuContext :=
  if mapGet persisted "hypervisor" ≠ some (.str "qemu") then
    .error "wrong driver type in persist info"
  else
    match mapGet persisted "qmpSock" with
    | none => .error "cannot read the qmp socket info from persist info"
    | some (.str sock) =>
      match mapGet persisted "pid" with
      | none => .error "cannot read the pid info from persist info"
      | some (.int p) =>
        match osFindProcess p with
        | .error e => .error e
        | .ok proc =>
          .ok { driver := qd, qmp := [], wdt := [], waitQmp := [], qmpSockName := sock,
                process := some proc, interfaces := [], images := [], callbacks := [] }
      | some _ => .error "wrong pid field type in persist info"
    | some _ => .error "wrong sock name type in persist info"

/-- The method `QemuContext.Dump` (qemu.go:132). -/
def QemuContext.Dump (qc : QemuContext) : Except String (List (String × GoValue)) :=
  match qc.process with
  | none => .error "can not serialize qemu context: no process running"
  | some proc =>
    .ok [("hypervisor", .str "qemu"), ("qmpSock", .str qc.qmpSockName), ("pid", .int proc.Pid)]

/-! ## hypervisor: the VM context and the persisted record (persistence.go) -/

structure BlockDescriptor where
  Name : String
  Filename : String
  Format : String
  Fstype : String
  DeviceName : String
  ScsiId : Int
  Options : Option (List (String × String))
deriving DecidableEq, Repr

structure imageInfo where
  info : BlockDescriptor
  pos : Int
deriving DecidableEq, Repr

structure volumeInfo where
  info : BlockDescriptor
  pos : List (Int × String)
  readOnly : List (Int × Bool)
deriving DecidableEq, Repr

structure InterfaceCreated where
  Index : Int
  PCIAddr : Int
  DeviceName : String
  IpAddr : String
  Fd : Nat
  HostDevice : String
  MacAddr : String
  Bridge : String
deriving DecidableEq, Repr

structure deviceMap where
  imageMap : List (String × imageInfo)
  volumeMap : List (String × volumeInfo)
  networkMap : List (Int × InterfaceCreated)
deriving DecidableEq, Repr

structure VmVolumeDescriptor where
  Device : String
  Mount : String
  ReadOnly : Bool
deriving DecidableEq, Repr

structure VmFsmapDescriptor where
  Source : String
  Path : String
  ReadOnly : Bool
deriving DecidableEq, Repr

structure VmContainer where
  Id : String
  Tty : Nat
  Stderr : Nat
  Volumes : List VmVolumeDescriptor
  Fsmap : List VmFsmapDescriptor
deriving DecidableEq, Repr

structure VmPod where
  Hostname : String
  Containers : List VmContainer
deriving DecidableEq, Repr

structure VmHwStatus where
  PciAddr : Int
  ScsiId : Int
  AttachId : Nat
deriving DecidableEq, Repr

/-- What `newAttachments(idx, persist)` is called with. -/
structure ttyAttachments where
  container : Int
  persistent : Bool
deriving DecidableEq, Repr

/-- Handlers a context can `Become`. -/
inductive StateHandler where
  | statePreparing
  | stateStarting
  | stateRunning
deriving DecidableEq, Repr

/-- The pending device sets `ctx.progress.adding`. -/
structure pendingDevices where
  networks : List Int
  blockdevs : List String
deriving DecidableEq, Repr

/-- The boot configuration `BootConfig`, as `QemuContext.arguments` reads it. -/
structure BootConfig where
  CPU : Int
  Memory : Int
  Kernel : String
  Initrd : String
  Bios : String
  Cbfs : String
deriving DecidableEq, Repr

/-- The per-VM context `VmContext` (the fields the embedded code touches). -/
structure VmContext where
  Id : String
  Boot : Option BootConfig
  ConsoleSockName : String
  HyperSockName : String
  TtySockName : String
  ShareDir : String
  DCtx : QemuContext
  Hub : List VmEvent
  userSpec : Option UserPod
  vmSpec : Option VmPod
  pciAddr : Int
  scsiId : Int
  attachId : Nat
  devices : deviceMap
  ttys : List (Nat × ttyAttachments)
  pendingTtys : List AttachCommand
  adding : pendingDevices
  current : Option StateHandler
  stateName : String
deriving DecidableEq, Repr

structure PersistVolumeInfo where
  Name : String
  Filename : String
  Format : String
  Fstype : String
  DeviceName : String
  ScsiId : Int
  Containers : List Int
  MontPoints : List String
deriving DecidableEq, Repr

structure PersistNetworkInfo where
  Index : Int
  PciAddr : Int
  DeviceName : String
  IpAddr : String
deriving DecidableEq, Repr

/-- The persisted record. Pointer fields and pointer elements may be nil (`none`),
as they can be after decoding a record. -/
structure PersistInfo where
  Id : String
  DriverInfo : List (String × GoValue)
  UserSpec : Option UserPod
  VmSpec : Option VmPod
  HwStat : Option VmHwStatus
  VolumeList : List (Option PersistVolumeInfo)
  NetworkList : List (Option PersistNetworkInfo)
deriving DecidableEq, Repr

/-- The method `BlockDescriptor.dump` (persistence.go:106); the two slices are left nil. -/
def BlockDescriptor.dump (blk : BlockDescriptor) : PersistVolumeInfo :=
  { Name := blk.Name, Filename := blk.Filename, Format := blk.Format, Fstype := blk.Fstype,
    DeviceName := blk.DeviceName, ScsiId := blk.ScsiId, Containers := [], MontPoints := [] }

/-- The method `PersistVolumeInfo.blockInfo` (persistence.go:117). -/
def PersistVolumeInfo.blockInfo (vol : PersistVolumeInfo) : BlockDescriptor :=
  { Name := vol.Name, Filename := vol.Filename, Format := vol.Format, Fstype := vol.Fstype,
    DeviceName := vol.DeviceName, ScsiId := vol.ScsiId, Options := none }

/-- The method `VmContext.dumpHwInfo` (persistence.go:92). -/
def VmContext.dumpHwInfo (ctx : VmContext) : VmHwStatus :=
  { PciAddr := ctx.pciAddr, ScsiId := ctx.scsiId, AttachId := ctx.attachId }

/-- The method `VmContext.loadHwStatus` (persistence.go:100); a nil `HwStat` panics. -/
def VmContext.loadHwStatus (ctx : VmContext) (pinfo : PersistInfo) : Outcome VmContext :=
  match pinfo.HwStat with
  | none => .panic "nil pointer dereference"
  | some hw => .ok { ctx with pciAddr := hw.PciAddr, scsiId := hw.ScsiId, attachId := hw.AttachId }

/-- The method `VmContainer.volLookup` (persistence.go:147). -/
def VmContainer.volLookup (cr : VmContainer) (mpoint : String) : Option VmVolumeDescriptor :=
  cr.Volumes.find? (fun vol => vol.Mount = mpoint)

/-- The method `VmContainer.mapLookup` (persistence.go:138). -/
def VmContainer.mapLookup (cr : VmContainer) (mpoint : String) : Option VmFsmapDescriptor :=
  cr.Fsmap.find? (fun fs => fs.Path = mpoint)

/-- The method `VmContainer.roLookup` (persistence.go:128). -/
def VmContainer.roLookup (cr : VmContainer) (mpoint : String) : Bool :=
  match cr.volLookup mpoint with
  | some v => v.ReadOnly
  | none =>
    match cr.mapLookup mpoint with
    | some m => m.ReadOnly
    | none => false

/-- Slice indexing `xs[i]` with a Go `int` index: `none` stands for the
index-out-of-range panic. -/
def sliceAt {α : Type} (xs : List α) (i : Int) : Option α :=
  if i < 0 then none else xs.get? i.toNat

/-- One round of `for _, x := range items { arr[vid] = f(x); vid++ }`. -/
def fillStep {α β : Type} (f : β → α) (st : List α × Nat) (x : β) : List α × Nat :=
  (st.1.set st.2 (f x), st.2 + 1)

/-- The loop `for _, x := range items { arr[vid] = f(x); vid++ }`: returns the
slice and the counter after the loop. -/
def fillSlots {α β : Type} (f : β → α) (items : List β) (arr : List α) (vid : Nat) :
    List α × Nat :=
  items.foldl (fillStep f) (arr, vid)

/-- The entry written for one image (persistence.go:58-60). -/
def dumpImage (image : imageInfo) : PersistVolumeInfo :=
  { image.info.dump with Containers := [image.pos], MontPoints := ["/"] }

/-- The entry written for one shared volume (persistence.go:65-74): both slices
are made with `len(vol.pos)` zero values and filled while ranging over `vol.pos`. -/
def dumpVolume (vol : volumeInfo) : PersistVolumeInfo :=
  let mps := vol.pos.length
  { vol.info.dump with
    Containers := (fillSlots (fun e : Int × String => e.1) vol.pos (List.replicate mps 0) 0).1,
    MontPoints := (fillSlots (fun e : Int × String => e.2) vol.pos (List.replicate mps "") 0).1 }

/-- The entry written for one interface (persistence.go:80-85). -/
def dumpNic (nic : InterfaceCreated) : PersistNetworkInfo :=
  { Index := nic.Index, PciAddr := nic.PCIAddr, DeviceName := nic.DeviceName,
    IpAddr := nic.IpAddr }

/-- The method `VmContext.dump` (persistence.go:40). -/
def VmContext.dump (ctx : VmContext) : Except String PersistInfo :=
  match ctx.DCtx.Dump with
  | .error e => .error e
  | .ok dr =>
    let vl0 : List (Option PersistVolumeInfo) :=
      List.replicate (ctx.devices.imageMap.length + ctx.devices.volumeMap.length) none
    let nl0 : List (Option PersistNetworkInfo) :=
      List.replicate ctx.devices.networkMap.length none
    let s1 := fillSlots (fun e : String × imageInfo => some (dumpImage e.2))
      ctx.devices.imageMap vl0 0
    let s2 := fillSlots (fun e : String × volumeInfo => some (dumpVolume e.2))
      ctx.devices.volumeMap s1.1 s1.2
    let n1 := fillSlots (fun e : Int × InterfaceCreated => some (dumpNic e.2))
      ctx.devices.networkMap nl0 0
    .ok { Id := ctx.Id, DriverInfo := dr, UserSpec := ctx.userSpec, VmSpec := ctx.vmSpec,
          HwStat := some ctx.dumpHwInfo, VolumeList := s2.1, NetworkList := n1.1 }

/-- The tty loop of `vmContext` (persistence.go:186-191). -/
def restoreTtys (containers : List VmContainer) (ttys : List (Nat × ttyAttachments)) :
    List (Nat × ttyAttachments) :=
  (containers.enum.foldl
    (fun (acc : List (Nat × ttyAttachments)) (e : Nat × VmContainer) =>
      let acc1 := mapSet acc e.2.Tty ⟨(e.1 : Int), true⟩
      if e.2.Stderr > 0 then mapSet acc1 e.2.Stderr ⟨(e.1 : Int), true⟩ else acc1)
    ttys)

/-- The inner loop of the volume branch (persistence.go:210-214): fills `v.pos`
and `v.readOnly`; `none` is the index-out-of-range panic of
`ctx.vmSpec.Containers[idx]`. The two slices have equal length here. -/
def restoreVolumePos (spec : VmPod) : List Int → List String → volumeInfo → Option volumeInfo
  | idx :: cs, mp :: mps, v =>
    match sliceAt spec.Containers idx with
    | none => none
    | some cr =>
      restoreVolumePos spec cs mps
        { v with pos := mapSet v.pos idx mp, readOnly := mapSet v.readOnly idx (cr.roLookup mp) }
  | _, _, v => some v

/-- The error of a record whose volume entry has mismatching slices. -/
def corruptMsg : String := "persistent data corrupt, volume info mismatch"

/-- The volume loop of `vmContext` (persistence.go:193-216). In the volume branch
the value `v` is built and then dropped: the source never stores it. -/
def restoreVolumes (spec : VmPod) :
    List (Option PersistVolumeInfo) → VmContext → Outcome VmContext
  | [], ctx => .ok ctx
  | none :: _, _ => .panic "nil pointer dereference"
  | some vol :: rest, ctx =>
    let binfo := vol.blockInfo
    if vol.Containers.length ≠ vol.MontPoints.length then
      .err corruptMsg
    else if vol.MontPoints = ["/"] then
      match vol.Containers with
      | c0 :: _ =>
        let img : imageInfo := { info := binfo, pos := c0 }
        restoreVolumes spec rest
          { ctx with devices := { ctx.devices with
              imageMap := mapSet ctx.devices.imageMap vol.Name img } }
      | [] => .panic "index out of range"
    else
      match restoreVolumePos spec vol.Containers vol.MontPoints
          { info := binfo, pos := [], readOnly := [] } with
      | none => .panic "index out of range"
      | some _ => restoreVolumes spec rest ctx

/-- The network loop of `vmContext` (persistence.go:218-225). -/
def restoreNetworks : List (Option PersistNetworkInfo) → VmContext → Outcome VmContext
  | [], ctx => .ok ctx
  | none :: _, _ => .panic "nil pointer dereference"
  | some nic :: rest, ctx =>
    restoreNetworks rest
      { ctx with devices := { ctx.devices with
          networkMap := mapSet ctx.devices.networkMap nic.Index
            { Index := nic.Index, PCIAddr := nic.PciAddr, DeviceName := nic.DeviceName,
              IpAddr := nic.IpAddr, Fd := 0, HostDevice := "", MacAddr := "", Bridge := "" } } }

/-- The hypervisor driver `HDriver` as the restore path sees it. -/
structure HypervisorDriver where
  LoadContext : List (String × GoValue) → Except String QemuContext

/-- The qemu driver as a `HypervisorDriver`. -/
def QemuDriver.toDriver (qd : QemuDriver) : HypervisorDriver :=
  { LoadContext := qd.LoadContext }

/-- The method `PersistInfo.vmContext` (persistence.go:166). `HDriver` is the
package-level driver and `InitContext` the context constructor, which is not
part of the embedded files: it is given the record id and the driver context. -/
def PersistInfo.vmContext (HDriver : HypervisorDriver)
    (InitContext : String → QemuContext → Except String VmContext)
    (pinfo : PersistInfo) : Outcome VmContext :=
  match HDriver.LoadContext pinfo.DriverInfo with
  | .error e => .err e
  | .ok dc =>
    match InitContext pinfo.Id dc with
    | .error e => .err e
    | .ok ctx0 =>
      let ctx1 := { ctx0 with vmSpec := pinfo.VmSpec, userSpec := pinfo.UserSpec }
      match ctx1.loadHwStatus pinfo with
      | .panic m => .panic m
      | .err e => .err e
      | .ok ctx2 =>
        match ctx2.vmSpec with
        | none => .panic "nil pointer dereference"
        | some spec =>
          let ctx3 := { ctx2 with ttys := restoreTtys spec.Containers ctx2.ttys }
          match restoreVolumes spec pinfo.VolumeList ctx3 with
          | .panic m => .panic m
          | .err e => .err e
          | .ok ctx4 => restoreNetworks pinfo.NetworkList ctx4

/-! ## qemu driver: QMP sessions (runv-lazy qmp_wrapper.go) -/

/-- The function `defaultRespond(ctx, callback)` (qmp_wrapper.go:24): the closure
it returns, which captures `callback`. -/
def defaultRespond (callback : VmEvent) : Respond := ⟨callback⟩

/-- Calling the closure returned by `defaultRespond` with `err` (`none` is a nil
error); `hub` is what was sent on `ctx.Hub` so far. -/
def Respond.call (r : Respond) (err : Option String) (hub : List VmEvent) : List VmEvent :=
  match err with
  | none => if r.callback ≠ .nil then hub ++ [r.callback] else hub
  | some _ => hub ++ [.DeviceFailed r.callback]

/-- One round of `DiskId2Name`, with `fuel` bounding the recursion depth. -/
def DiskId2NameAux : Nat → Nat → String
  | 0, _ => ""
  | fuel + 1, id =>
    let ch := String.singleton (Char.ofNat (97 + id % 26))
    if id < 26 then ch else DiskId2NameAux fuel (id / 26 - 1) ++ ch

/-- Modelled from the spec: `utils.DiskId2Name` is not among the embedded files.
The guest device name is derived from the SCSI id by the standard base-26 letter
suffix scheme: 0 gives a, 1 gives b, 25 gives z, 26 gives aa. -/
def DiskId2Name (id : Nat) : String := DiskId2NameAux (id + 1) id

/-- The function `scsiId2Name` (qmp_wrapper.go:20). -/
def scsiId2Name (id : Int) : String := "sd" ++ DiskId2Name id.toNat

/-- The function `newDiskAddSession` (qmp_wrapper.go:38): the driver context after
the session was sent on `qc.qmp`. -/
def newDiskAddSession (qc : QemuContext) (name sourceType filename format : String)
    (id : Int) : QemuContext :=
  let command0 : QmpCommand :=
    { Execute := "human-monitor-command",
      Arguments := [("command-line", .str ("drive_add dummy file=" ++
        filename ++ ",if=none,id=" ++ "drive" ++ Itoa id ++ ",format=" ++ format ++
        ",cache=writeback"))],
      Scm := none }
  let command1 : QmpCommand :=
    { Execute := "device_add",
      Arguments := [("driver", .str "scsi-hd"), ("bus", .str "scsi0.0"),
        ("scsi-id", .str (Itoa id)), ("drive", .str ("drive" ++ Itoa id)),
        ("id", .str ("scsi-disk" ++ Itoa id))],
      Scm := none }
  let devName := scsiId2Name id
  let session : QmpSession :=
    { commands := [command0, command1],
      respond := defaultRespond (.BlockdevInsertedEvent name sourceType devName id) }
  { qc with qmp := qc.qmp ++ [session] }

/-- The function `newDiskDelSession` (qmp_wrapper.go:66). The source assigns
`commands[1]` (device_del) and then `commands[0]` (drive_del). -/
def newDiskDelSession (qc : QemuContext) (id : Int) (callback : VmEvent) : QemuContext :=
  let command1 : QmpCommand :=
    { Execute := "device_del",
      Arguments := [("id", .str ("scsi-disk" ++ Itoa id))],
      Scm := none }
  let command0 : QmpCommand :=
    { Execute := "human-monitor-command",
      Arguments := [("command-line", .str ("drive_del drive" ++ Itoa id))],
      Scm := none }
  let session : QmpSession :=
    { commands := [command0, command1], respond := defaultRespond callback }
  { qc with qmp := qc.qmp ++ [session] }

/-- Go `fmt.Sprintf` with the verb `%x` on an `int`: lower-case hexadecimal, with a
minus sign for a negative value. -/
def fmtHex (n : Int) : String :=
  if n < 0 then "-" ++ String.mk (Nat.toDigits 16 n.natAbs)
  else String.mk (Nat.toDigits 16 n.toNat)

/-- The function `qmpQemuQuit` (qmp_wrapper.go:13): a session with the single
command quit and a nil callback. -/
def qmpQemuQuit (qc : QemuContext) : QemuContext :=
  let session : QmpSession :=
    { commands := [{ Execute := "quit", Arguments := [], Scm := none }],
      respond := defaultRespond .nil }
  { qc with qmp := qc.qmp ++ [session] }

/-- The function `newNetworkAddSession` (qmp_wrapper.go:86). -/
def newNetworkAddSession (qc : QemuContext) (fd : Nat) (device mac : String)
    (index addr : Int) : QemuContext :=
  let busAddr := "0x" ++ fmtHex addr
  let command0 : QmpCommand :=
    { Execute := "getfd",
      Arguments := [("fdname", .str ("fd" ++ device))],
      Scm := some fd }
  let command1 : QmpCommand :=
    { Execute := "netdev_add",
      Arguments := [("type", .str "tap"), ("id", .str device), ("fd", .str ("fd" ++ device))],
      Scm := none }
  let command2 : QmpCommand :=
    { Execute := "device_add",
      Arguments := [("driver", .str "virtio-net-pci"), ("netdev", .str device),
        ("mac", .str mac), ("bus", .str "pci.0"), ("addr", .str busAddr),
        ("id", .str device)],
      Scm := none }
  let session : QmpSession :=
    { commands := [command0, command1, command2],
      respond := defaultRespond (.NetDevInsertedEvent index device addr) }
  { qc with qmp := qc.qmp ++ [session] }

/-- The function `newNetworkDelSession` (qmp_wrapper.go:126). -/
def newNetworkDelSession (qc : QemuContext) (device : String) (callback : VmEvent) :
    QemuContext :=
  let command0 : QmpCommand :=
    { Execute := "device_del", Arguments := [("id", .str device)], Scm := none }
  let command1 : QmpCommand :=
    { Execute := "netdev_del", Arguments := [("id", .str device)], Scm := none }
  let session : QmpSession :=
    { commands := [command0, command1], respond := defaultRespond callback }
  { qc with qmp := qc.qmp ++ [session] }

/-! ## qemu driver: lazy attachment (runv qemu.go) -/

structure HostNicInfo where
  Fd : Nat
  Device : String
  Mac : String
  Bridge : String
  Gateway : String
deriving DecidableEq, Repr

structure GuestNicInfo where
  Device : String
  Ipaddr : String
  Index : Int
  Busaddr : Int
deriving DecidableEq, Repr

/-- The method `QemuContext.LazyAddNic` (qemu.go:307). -/
def QemuContext.LazyAddNic (qc : QemuContext) (host : HostNicInfo) (guest : GuestNicInfo) :
    QemuContext :=
  let callback := VmEvent.NetDevInsertedEvent guest.Index guest.Device guest.Busaddr
  let info : qemuNicConfig :=
    { fd := host.Fd, deviceName := guest.Device, macAddr := host.Mac, pciAddr := guest.Busaddr }
  { qc with callbacks := qc.callbacks ++ [callback], interfaces := qc.interfaces ++ [info] }

/-- The method `QemuContext.LazyAddDisk` (qemu.go:324). -/
def QemuContext.LazyAddDisk (qc : QemuContext) (name sourceType filename format : String)
    (id : Int) : QemuContext :=
  let devName := scsiId2Name id
  let callback := VmEvent.BlockdevInsertedEvent name sourceType devName id
  let image : qemuImageConfig :=
    { deviceName := filename, sourceType := sourceType, format := format, scsiId := id }
  { qc with callbacks := qc.callbacks ++ [callback], images := qc.images ++ [image] }

/-! ## hypervisor: the lazy state machine (lazy.go) -/

/-- Calls made on collaborators whose bodies are not among the embedded files
(reports to the client, tty handling, timers) and the driver calls that start the
hypervisor; the machine records them in order. -/
inductive Call where
  | reportVmShutdown
  | reportBadRequest (cause : String)
  | reportVmFault (cause : String)
  | execCmd (cmd : ExecCommand)
  | attachCmd (cmd : AttachCommand)
  | setWindowSize (tag : String) (size : WindowSize)
  | InitDeviceContext (spec : UserPod) (containers : List ContainerInfo)
      (volumes : List VolumeInfo)
  | attachTty2Container (idx : Int) (cmd : AttachCommand)
  | allocateInterface (index : Int) (addr : Int) (name : String)
  | interfaceCreated (nic : InterfaceCreated)
  | startSocks
  | LazyLaunch
  | setTimeout (seconds : Nat)
  | Listen (ip port : String)
  | startSocksInListen
  | unexpectedEventHandler (ev : VmEvent) (state : String)
deriving DecidableEq, Repr

/-- What the methods of `VmContext` that are not among the embedded files do to
the context and what they return. -/
structure Helpers where
  execCmd : VmContext → ExecCommand → VmContext
  attachCmd : VmContext → AttachCommand → VmContext
  setWindowSize : VmContext → String → WindowSize → VmContext
  InitDeviceContext : VmContext → UserPod → List ContainerInfo → List VolumeInfo → VmContext
  Lookup : VmContext → String → Int
  attachTty2Container : VmContext → Int → AttachCommand → VmContext
  allocateInterface : VmContext → Int → Int → String → Except String InterfaceCreated
  interfaceCreated : VmContext → InterfaceCreated → VmContext

/-- The context together with the calls recorded so far. -/
structure Machine where
  ctx : VmContext
  calls : List Call
deriving DecidableEq, Repr

/-- Record one call. -/
def Machine.call (m : Machine) (c : Call) : Machine := { m with calls := m.calls ++ [c] }

/-- Modelled from the spec: `Become` is not among the embedded files. It installs
the handler of the next state (nil for the terminal state) and its name. -/
def Machine.Become (m : Machine) (handler : Option StateHandler) (name : String) : Machine :=
  { m with ctx := { m.ctx with current := handler, stateName := name } }

/-- Modelled from the spec: `nextPciAddr` is not among the embedded files. PCI
addresses are assigned monotonically from a per-VM counter: the call returns the
counter and advances it. -/
def VmContext.nextPciAddr (ctx : VmContext) : Int × VmContext :=
  (ctx.pciAddr, { ctx with pciAddr := ctx.pciAddr + 1 })

/-- Modelled from the spec: `nextScsiId` is not among the embedded files. SCSI ids
are assigned monotonically from a per-VM counter: the call returns the counter and
advances it. -/
def VmContext.nextScsiId (ctx : VmContext) : Int × VmContext :=
  (ctx.scsiId, { ctx with scsiId := ctx.scsiId + 1 })

/-- The function `networkConfigure` (lazy.go:168). -/
def networkConfigure (info : InterfaceCreated) : HostNicInfo × GuestNicInfo :=
  ({ Fd := info.Fd, Device := info.HostDevice, Mac := info.MacAddr, Bridge := info.Bridge,
     Gateway := info.Bridge },
   { Device := info.DeviceName, Ipaddr := info.IpAddr, Index := info.Index,
     Busaddr := info.PCIAddr })

/-- The loop of `lazyAllocateNetworks` (lazy.go:183) over the keys of
`ctx.progress.adding.networks`; the error, if any, is returned with the machine. -/
def lazyAllocateNetworksLoop (H : Helpers) : List Int → Machine → Option String × Machine
  | [], m => (none, m)
  | i :: rest, m =>
    let name := "eth" ++ Itoa i
    let (addr, ctx1) := m.ctx.nextPciAddr
    let m1 : Machine := { m with ctx := ctx1 }
    let m2 := m1.call (.allocateInterface i addr name)
    match H.allocateInterface ctx1 i addr name with
    | .error e => (some e, m2)
    | .ok nic =>
      let m3 := ({ m2 with ctx := H.interfaceCreated m2.ctx nic } : Machine).call
        (.interfaceCreated nic)
      let hg := networkConfigure nic
      lazyAllocateNetworksLoop H rest
        { m3 with ctx := { m3.ctx with DCtx := m3.ctx.DCtx.LazyAddNic hg.1 hg.2 } }

/-- The method `VmContext.lazyAllocateNetworks` (lazy.go:183). -/
def lazyAllocateNetworks (H : Helpers) (m : Machine) : Option String × Machine :=
  lazyAllocateNetworksLoop H m.ctx.adding.networks m

/-- The loop of `lazyAddBlockDevices` (lazy.go:199) over the keys of
`ctx.progress.adding.blockdevs`. -/
def lazyAddBlockDevicesLoop : List String → VmContext → VmContext
  | [], ctx => ctx
  | blk :: rest, ctx =>
    match mapGet ctx.devices.volumeMap blk with
    | some info =>
      let (sid, ctx1) := ctx.nextScsiId
      let dc := ctx1.DCtx.LazyAddDisk info.info.Name "volume" info.info.Filename
        info.info.Format sid
      lazyAddBlockDevicesLoop rest { ctx1 with DCtx := dc }
    | none =>
      match mapGet ctx.devices.imageMap blk with
      | some info =>
        let (sid, ctx1) := ctx.nextScsiId
        let dc := ctx1.DCtx.LazyAddDisk info.info.Name "image" info.info.Filename
          info.info.Format sid
        lazyAddBlockDevicesLoop rest { ctx1 with DCtx := dc }
      | none => lazyAddBlockDevicesLoop rest ctx

/-- The method `VmContext.lazyAddBlockDevices` (lazy.go:199). -/
def lazyAddBlockDevices (m : Machine) : Machine :=
  { m with ctx := lazyAddBlockDevicesLoop m.ctx.adding.blockdevs m.ctx }

/-- The loop over the queued attach requests (lazy.go:104-113 and 145-154). -/
def attachPendings (H : Helpers) : List AttachCommand → Machine → Machine
  | [], m => m
  | acmd :: rest, m =>
    let idx := H.Lookup m.ctx acmd.Container
    if idx ≥ 0 then
      attachPendings H rest
        (({ m with ctx := H.attachTty2Container m.ctx idx acmd } : Machine).call
          (.attachTty2Container idx acmd))
    else
      attachPendings H rest
        { m with ctx := { m.ctx with pendingTtys := m.ctx.pendingTtys ++ [acmd] } }

/-- The common body of `lazyPrepareDevice` and `lazyPrepareDeviceForListen`
(lazy.go:88 and 129): the two functions have the same statements and differ only
in the type of the command. -/
def lazyPrepare (H : Helpers) (m : Machine) (spec : UserPod)
    (containers : List ContainerInfo) (volumes : List VolumeInfo) : Bool × Machine :=
  if spec.Containers.length ≠ containers.length then
    (false, m.call (.reportBadRequest "Spec and Container Info mismatch"))
  else
    let m1 := ({ m with ctx := H.InitDeviceContext m.ctx spec containers volumes } : Machine).call
      (.InitDeviceContext spec containers volumes)
    let pendings := m1.ctx.pendingTtys
    let m2 : Machine := { m1 with ctx := { m1.ctx with pendingTtys := [] } }
    let m3 := attachPendings H pendings m2
    match lazyAllocateNetworks H m3 with
    | (some e, m4) => (false, m4.call (.reportVmFault e))
    | (none, m4) => (true, lazyAddBlockDevices m4)

/-- The method `VmContext.lazyPrepareDevice` (lazy.go:88). -/
def lazyPrepareDevice (H : Helpers) (m : Machine) (cmd : RunPodCommand) : Bool × Machine :=
  lazyPrepare H m cmd.Spec cmd.Containers cmd.Volumes

/-- The method `VmContext.lazyPrepareDeviceForListen` (lazy.go:129). -/
def lazyPrepareDeviceForListen (H : Helpers) (m : Machine) (cmd : ListenPodCommand) :
    Bool × Machine :=
  lazyPrepare H m cmd.Spec cmd.Containers cmd.Volumes

/-- The run-pod and replace-pod case of `statePreparing` (lazy.go:62-72). -/
def statePreparingRunPod (H : Helpers) (m : Machine) (cmd : RunPodCommand) : Machine :=
  match lazyPrepareDevice H m cmd with
  | (true, m1) =>
    ((((m1.call .startSocks).call .LazyLaunch).call (.setTimeout 60)).Become
      (some .stateStarting) "STARTING")
  | (false, m1) => m1.Become none "None"

/-- The state handler `statePreparing` (lazy.go:47). -/
def statePreparing (H : Helpers) (m : Machine) (ev : VmEvent) : Machine :=
  match ev with
  | .VmExit => m
  | .Interrupted _ => m
  | .ShutdownCommand => (m.call .reportVmShutdown).Become none "NONE"
  | .ReleaseVMCommand => (m.call .reportVmShutdown).Become none "NONE"
  | .Exec cmd => ({ m with ctx := H.execCmd m.ctx cmd } : Machine).call (.execCmd cmd)
  | .Attach cmd => ({ m with ctx := H.attachCmd m.ctx cmd } : Machine).call (.attachCmd cmd)
  | .WindowSizeCmd cmd =>
    ({ m with ctx := H.setWindowSize m.ctx cmd.ClientTag cmd.Size } : Machine).call
      (.setWindowSize cmd.ClientTag cmd.Size)
  | .RunPod cmd => statePreparingRunPod H m cmd
  | .ReplacePod cmd => statePreparingRunPod H m cmd
  | .ListenPod cmd =>
    match lazyPrepareDeviceForListen H m cmd with
    | (true, m1) =>
      (((m1.call (.Listen cmd.Ip cmd.Port)).call .startSocksInListen).Become
        (some .stateRunning) "RUNNING")
    | (false, m1) => m1.Become none "None"
  | ev => m.call (.unexpectedEventHandler ev "pod initiating")

/-- The statements of `lazyPrepareDevice` between the count check and the network
allocation (lazy.go:95-113): the device context is initialised and the queued
attach requests are replayed. -/
def initDevices (H : Helpers) (m : Machine) (spec : UserPod)
    (containers : List ContainerInfo) (volumes : List VolumeInfo) : Machine :=
  let m1 := ({ m with ctx := H.InitDeviceContext m.ctx spec containers volumes } : Machine).call
    (.InitDeviceContext spec containers volumes)
  attachPendings H m1.ctx.pendingTtys { m1 with ctx := { m1.ctx with pendingTtys := [] } }

/-- Whether a pending block device name is found in `volumeMap` or in `imageMap`
(the two lookups of lazy.go:201 and 204). -/
def isPendingDisk (devices : deviceMap) (blk : String) : Bool :=
  (mapGet devices.volumeMap blk).isSome || (mapGet devices.imageMap blk).isSome

/-- The `allocateInterface` calls expected for the interfaces `l` when the PCI
counter stands at `p`: interface `i` is named eth`i` and gets the next address. -/
def expectedAllocCalls (p : Int) : List Int → List Call
  | [] => []
  | i :: rest => .allocateInterface i p ("eth" ++ Itoa i) :: expectedAllocCalls (p + 1) rest

/-- Whether a call is an `allocateInterface` call. -/
def Call.isAllocate : Call → Bool
  | .allocateInterface _ _ _ => true
  | _ => false

/-! ## network: the IP allocator (runv-lazy ipallocator.go) -/

/-- Assignment `delete(m, k)`. -/
def mapDelete {κ ν : Type} [DecidableEq κ] : List (κ × ν) → κ → List (κ × ν)
  | [], _ => []
  | (k', v) :: rest, k => if k' = k then mapDelete rest k else (k', v) :: mapDelete rest k

/-- A Go `net.IPNet`: the address and the mask, as byte slices. A `net.IP` is
the list of its bytes, the nil slice being the empty list. -/
structure IPNet where
  IP : List Nat
  Mask : List Nat
deriving DecidableEq, Repr

/-- The functions of package `net` that render an address and a network as text
(`IP.String` and `IPNet.String`); the allocator only uses them as map keys. -/
structure NetLib where
  ipString : List Nat → String
  netString : IPNet → String

/-- Go `net`: the prefix of an IPv4 address in its 16-byte form. -/
def v4InV6Prefix : List Nat := List.replicate 10 0 ++ [255, 255]

/-- Go `IP.To4`: the 4-byte form of an IPv4 address, nil for anything else. -/
def To4 (ip : List Nat) : List Nat :=
  if ip.length = 4 then ip
  else if ip.length = 16 ∧ ip.take 12 = v4InV6Prefix then ip.drop 12
  else []

/-- Go `IP.To16`: the 16-byte form of an address, nil if its length is not 4 or 16. -/
def To16 (ip : List Nat) : List Nat :=
  if ip.length = 4 then v4InV6Prefix ++ ip
  else if ip.length = 16 then ip
  else []

/-- Go `IP.Mask`. -/
def maskIP (ip mask : List Nat) : List Nat :=
  let mask1 :=
    if mask.length = 16 ∧ ip.length = 4 ∧ (mask.take 12).all (fun b => b = 255) then
      mask.drop 12
    else mask
  let ip1 :=
    if mask1.length = 4 ∧ ip.length = 16 ∧ ip.take 12 = v4InV6Prefix then ip.drop 12 else ip
  if ip1.length ≠ mask1.length then [] else List.zipWith (fun a b => a &&& b) ip1 mask1

/-- Go `big.Int.SetBytes`: the big-endian value of a byte slice. -/
def setBytes (bytes : List Nat) : Int :=
  ((bytes.foldl (fun acc b => acc * 256 + b) 0 : Nat) : Int)

/-- The digits of `Bytes`, most significant first, with `fuel` bounding the length. -/
def bigBytesAux : Nat → Nat → List Nat → List Nat
  | 0, _, acc => acc
  | fuel + 1, n, acc => if n = 0 then acc else bigBytesAux fuel (n / 256) (n % 256 :: acc)

/-- Go `big.Int.Bytes`: the big-endian bytes of the absolute value, without
leading zero bytes (empty for zero). -/
def bigBytes (v : Int) : List Nat := bigBytesAux v.natAbs v.natAbs []

/-- The function `ipToBigInt` (ipallocator.go:167); `none` is the nil result. -/
def ipToBigInt (ip : List Nat) : Option Int :=
  if To4 ip ≠ [] then some (setBytes (To4 ip))
  else if To16 ip ≠ [] then some (setBytes (To16 ip))
  else none

/-- The function `bigIntToIP` (ipallocator.go:180). -/
def bigIntToIP (v : Int) : List Nat := bigBytes v

/-- The function `NetworkRange` (ipallocator.go:32): the first and the last address
of the network; `none` is the index-out-of-range panic of `network.Mask[i]`. -/
def NetworkRange (network : IPNet) : Option (List Nat × List Nat) :=
  let netIP := if To4 network.IP ≠ [] then To4 network.IP else To16 network.IP
  if netIP = [] then some ([], [])
  else if network.Mask.length < netIP.length then none
  else
    some (maskIP netIP network.Mask,
      List.zipWith (fun a m => a ||| (255 - m)) netIP network.Mask)

/-- The set of allocated addresses of one network (`allocatedMap`). -/
structure allocatedMap where
  p : List (String × Unit)
  last : Int
  begin : Int
  «end» : Int
deriving DecidableEq, Repr

/-- The function `newAllocatedMap` (ipallocator.go:18); `none` is a panic
(of `NetworkRange`, or of the arithmetic on a nil `ipToBigInt` result). -/
def newAllocatedMap (network : IPNet) : Option allocatedMap :=
  match NetworkRange network with
  | none => none
  | some (firstIP, lastIP) =>
    match ipToBigInt firstIP, ipToBigInt lastIP with
    | some f, some l =>
      let begin := f + 1
      let e := l - 1
      some { p := [], begin := begin, «end» := e, last := begin - 1 }
    | _, _ => none

def ErrNoAvailableIPs : String := "no available ip addresses on network"

def ErrIPAlreadyAllocated : String := "ip already allocated"

def ErrIPOutOfRange : String := "requested ip is out of range"

/-- The loop of `getNextIP` (ipallocator.go:151-162) with `n` rounds left and `pos`
the position reached: the first free position found, if any. -/
def getNextIPLoop (L : NetLib) (allocated : allocatedMap) : Nat → Int → Option Int
  | 0, _ => none
  | n + 1, pos =>
    let pos1 := pos + 1
    let pos2 := if pos1 > allocated.end then allocated.begin else pos1
    match mapGet allocated.p (L.ipString (bigIntToIP pos2)) with
    | some _ => getNextIPLoop L allocated n pos2
    | none => some pos2

/-- The method `allocatedMap.getNextIP` (ipallocator.go:148): the loop runs while
`i <= end - begin`, starting at `i = 0`. -/
def allocatedMap.getNextIP (L : NetLib) (allocated : allocatedMap) :
    Except String (List Nat) × allocatedMap :=
  let allRange := allocated.end - allocated.begin
  match getNextIPLoop L allocated (allRange + 1).toNat allocated.last with
  | some pos =>
    (.ok (bigIntToIP pos),
      { allocated with
        p := mapSet allocated.p (L.ipString (bigIntToIP pos)) (),
        last := pos })
  | none => (.error ErrNoAvailableIPs, allocated)

/-- The method `allocatedMap.checkIP` (ipallocator.go:129); a nil `ipToBigInt`
result panics in `Cmp`. -/
def allocatedMap.checkIP (L : NetLib) (allocated : allocatedMap) (ip : List Nat) :
    Outcome (List Nat) × allocatedMap :=
  match mapGet allocated.p (L.ipString ip) with
  | some _ => (.err ErrIPAlreadyAllocated, allocated)
  | none =>
    match ipToBigInt ip with
    | none => (.panic "nil pointer dereference", allocated)
    | some pos =>
      if pos < allocated.begin ∨ pos > allocated.end then (.err ErrIPOutOfRange, allocated)
      else (.ok ip, { allocated with p := mapSet allocated.p (L.ipString ip) () })

/-- The allocator `IPAllocator`: one allocated set per network key. -/
structure IPAllocator where
  allocatedIPs : List (String × allocatedMap)
deriving DecidableEq, Repr

/-- The method `IPAllocator.RequestIP` (ipallocator.go:100); the nil address is `[]`. -/
def IPAllocator.RequestIP (L : NetLib) (a : IPAllocator) (network : IPNet) (ip : List Nat) :
    Outcome (List Nat) × IPAllocator :=
  let key := L.netString network
  let found : Option (allocatedMap × IPAllocator) :=
    match mapGet a.allocatedIPs key with
    | some allocated => some (allocated, a)
    | none =>
      match newAllocatedMap network with
      | none => none
      | some allocated => some (allocated, { allocatedIPs := mapSet a.allocatedIPs key allocated })
  match found with
  | none => (.panic "nil pointer dereference", a)
  | some (allocated, a1) =>
    if ip = [] then
      match allocated.getNextIP L with
      | (.ok r, allocated1) => (.ok r, { allocatedIPs := mapSet a1.allocatedIPs key allocated1 })
      | (.error e, allocated1) =>
        (.err e, { allocatedIPs := mapSet a1.allocatedIPs key allocated1 })
    else
      match allocated.checkIP L ip with
      | (r, allocated1) => (r, { allocatedIPs := mapSet a1.allocatedIPs key allocated1 })

/-- The method `IPAllocator.ReleaseIP` (ipallocator.go:119); it always returns nil. -/
def IPAllocator.ReleaseIP (L : NetLib) (a : IPAllocator) (network : IPNet) (ip : List Nat) :
    IPAllocator :=
  match mapGet a.allocatedIPs (L.netString network) with
  | some allocated =>
    { allocatedIPs := mapSet a.allocatedIPs (L.netString network)
        { allocated with p := mapDelete allocated.p (L.ipString ip) } }
  | none => a

/-- The first and last address of a network as integers, when both exist. -/
def networkBounds (network : IPNet) : Option (Int × Int) :=
  match NetworkRange network with
  | some (firstIP, lastIP) =>
    match ipToBigInt firstIP, ipToBigInt lastIP with
    | some f, some l => some (f, l)
    | _, _ => none
  | none => none

/-! ## qemu driver: inbound QMP messages -/

/-- A decoded JSON value. -/
inductive Json where
  | null
  | bool (b : Bool)
  | num (n : Int)
  | str (s : String)
  | arr (items : List Json)
  | obj (fields : List (String × Json))

/-- The kinds of inbound message named by the driver test. -/
inductive QmpMessageType where
  | QMP_RESULT
  | QMP_ERROR
  | QMP_EVENT
deriving DecidableEq, Repr

/-- A decoded inbound message: a result with its return payload, an error with its
description, or an event with its tag and the whole message. -/
inductive QmpMessage where
  | QmpResult (ret : Json)
  | QmpError (cause : Json)
  | QmpEvent (tag : String) (message : List (String × Json))

/-- The method `MessageType()` of the three message types. -/
def QmpMessage.MessageType : QmpMessage → QmpMessageType
  | .QmpResult _ => .QMP_RESULT
  | .QmpError _ => .QMP_ERROR
  | .QmpEvent _ _ => .QMP_EVENT

/-- Modelled from the spec: the decoder of `QmpResponse` is not among the embedded
files (only its test is). An inbound message is decoded into exactly one of three
kinds: a Result when it has a `return` field (whatever the payload: an empty
object, a string), an Error when it has an `error` field, an Event when it has an
`event` field holding the notification tag; a message with no recognizable field is
a decode error. The message is taken after JSON parsing. -/
def decodeQmpResponse (msg : Json) : Except String QmpMessage :=
  match msg with
  | .obj fields =>
    match mapGet fields "return" with
    | some r => .ok (.QmpResult r)
    | none =>
      match mapGet fields "error" with
      | some e => .ok (.QmpError e)
      | none =>
        match mapGet fields "event" with
        | some (.str tag) => .ok (.QmpEvent tag fields)
        | _ => .error "no recognizable field"
  | _ => .error "not an object"

/-! ## hyper daemon: migration (migrate.go, daemon.go) -/

/-- A VM handle `hypervisor.Vm`. -/
structure Vm where
  Id : String
deriving DecidableEq, Repr

/-- A pod of the daemon: its id, its VM (nil before the VM is started) and the ids
of the containers of `status.Containers`. -/
structure Pod where
  id : String
  vm : Option Vm
  containerIds : List String
deriving DecidableEq, Repr

/-- One TCP connection made by `sendMata` and closed: the address dialled and the
bytes written on it. A Go string or byte slice is a `String`, one character per
byte. -/
structure Conn where
  addr : String
  data : String
deriving DecidableEq, Repr

/-- Calls made by the daemon on collaborators whose bodies are not among the
embedded files (the docker client, the pod and VM methods), in order. -/
inductive DaemonCall where
  | vmMigratePod (vmId ip port : String)
  | CleanPod (podId : String)
  | GetContainerInfo (cId : String)
  | SendCmdRestore (name image cid : String)
  | CreatePod (podId podArgs : String)
  | GetVM (podId vmId : String)
  | Prepare (podId : String)
  | startLogging (podId : String)
  | AttachTtys (podId : String)
  | vmListenPod (vmId ip port : String)
  | KillVM (podId : String)
  | stopLogger (podId : String)
deriving DecidableEq, Repr

/-- The daemon: pod registry, VM registry, the key-value store, the connections made
so far and the calls recorded so far. -/
structure Daemon where
  PodList : List (String × Pod)
  VmList : List (String × Vm)
  db : List (String × String)
  conns : List Conn
  calls : List DaemonCall
deriving DecidableEq, Repr

/-- What the missing collaborators return: the constant `types.E_VM_SHUTDOWN`, the
network (`net.Dial`, and `conn.Write` given the earlier connections, the bytes
already written on this one and the slice offered), the VM migration, the pod
cleanup, the pod parser, the docker client and the pod methods used by `Listen`. -/
structure DaemonEnv where
  E_VM_SHUTDOWN : Int
  dial : List Conn → String → Option String
  write : List Conn → String → String → Nat × Option String
  vmMigratePod : Vm → String → String → Bool
  CleanPod : Daemon → String → Int × String × Daemon
  ProcessPodBytes : String → String → Option UserPod
  GetContainerInfo : String → Bool
  SendCmdRestore : String → String → String → Option String
  CreatePod : Daemon → String → String → Bool → Except String Pod
  GetVM : Daemon → Pod → String → Bool → Int → Except String Vm
  Prepare : Daemon → Pod → Option String
  startLogging : Daemon → Pod → Option String
  AttachTtys : Daemon → Pod → Option String

/-- Record one call. -/
def Daemon.call (d : Daemon) (c : DaemonCall) : Daemon := { d with calls := d.calls ++ [c] }

/-- The loop of `sendMata` (migrate.go:239-246): `written` is what the connection
received so far and `rest` is `arg[send:]`. `none` means the loop never ends (a
write of zero bytes without an error is repeated for ever); `fuel` is at least the
length of `rest`. -/
def sendLoop (E : DaemonEnv) (conns : List Conn) :
    Nat → String → List Char → Option (Option String × String)
  | _, written, [] => some (none, written)
  | 0, _, _ :: _ => none
  | fuel + 1, written, c :: cs =>
    match E.write conns written (String.mk (c :: cs)) with
    | (n, some e) => some (some e, written ++ String.mk ((c :: cs).take n))
    | (n, none) =>
      if n = 0 then none
      else sendLoop E conns fuel (written ++ String.mk ((c :: cs).take n)) ((c :: cs).drop n)

/-- The function `sendMata` (migrate.go:230): the error returned and the connections
after the call; the connection is closed on return. -/
def sendMata (E : DaemonEnv) (conns : List Conn) (arg ip port : String) :
    Option (Option String × List Conn) :=
  let addr := ip ++ ":" ++ port
  match E.dial conns addr with
  | some e => some (some e, conns)
  | none =>
    match sendLoop E conns arg.data.length "" arg.data with
    | none => none
    | some (err, written) => some (err, conns ++ [⟨addr, written⟩])

/-- The method `Daemon.GetPodByName` (daemon.go:357): the value and whether `Get`
failed. -/
def Daemon.GetPodByName (d : Daemon) (podName : String) : String × Bool :=
  match mapGet d.db ("pod-" ++ podName) with
  | some data => (data, false)
  | none => ("", true)

/-- The method `Daemon.DeleteVmData` (daemon.go:648). -/
def Daemon.DeleteVmData (d : Daemon) (vmId : String) : Daemon :=
  { d with db := mapDelete d.db ("vmdata-" ++ vmId) }

/-- The method `Daemon.DeleteVmByPod` (daemon.go:495); when `Get` fails nothing is
deleted. -/
def Daemon.DeleteVmByPod (d : Daemon) (podId : String) : Daemon :=
  match mapGet d.db ("vm-" ++ podId) with
  | none => d
  | some vmId => ({ d with db := mapDelete d.db ("vm-" ++ podId) } : Daemon).DeleteVmData vmId

/-- The method `Daemon.RemoveVm` (daemon.go:613). -/
def Daemon.RemoveVm (d : Daemon) (vmId : String) : Daemon :=
  { d with VmList := mapDelete d.VmList vmId }

/-- The method `Daemon.MigratePod` (migrate.go:183): the code, the cause and the
error returned, and the daemon afterwards; `none` when a `sendMata` never returns. -/
def Daemon.MigratePod (E : DaemonEnv) (d : Daemon) (podId ip port : String) :
    Option ((Int × String × Option String) × Daemon) :=
  match mapGet d.PodList podId with
  | none => some ((-1, "", some ("Can not find pod(" ++ podId ++ ")")), d)
  | some pod =>
    let podArgs := (d.GetPodByName podId).1
    let cIds := (mapGet d.db ("pod-container-" ++ podId)).getD ""
    match sendMata E d.conns podId ip port with
    | none => none
    | some (_, conns1) =>
      match sendMata E conns1 podArgs ip port with
      | none => none
      | some (_, conns2) =>
        match sendMata E conns2 cIds ip port with
        | none => none
        | some (_, conns3) =>
          let d1 : Daemon := { d with conns := conns3 }
          match pod.vm with
          | none => some ((E.E_VM_SHUTDOWN, "", none), d1)
          | some vm =>
            let d2 := d1.call (.vmMigratePod vm.Id ip port)
            if E.vmMigratePod vm ip port then
              let d3 := (d2.DeleteVmByPod podId).RemoveVm vm.Id
              let r := E.CleanPod (d3.call (.CleanPod podId)) podId
              some ((r.1, r.2.1, none), r.2.2)
            else some ((0, "", none), d2)

/-- The method `Daemon.WritePodToDB` (daemon.go:310). -/
def Daemon.WritePodToDB (d : Daemon) (podName podData : String) : Daemon :=
  match mapGet d.db ("pod-" ++ podName) with
  | none => { d with db := mapSet d.db ("pod-" ++ podName) podData }
  | some _ =>
    { d with db := mapSet (mapDelete d.db ("pod-" ++ podName)) ("pod-" ++ podName) podData }

/-- The method `Daemon.DeletePodFromDB` (daemon.go:366). -/
def Daemon.DeletePodFromDB (d : Daemon) (podName : String) : Daemon :=
  { d with db := mapDelete d.db ("pod-" ++ podName) }

/-- The method `Daemon.RemovePod` (daemon.go:604). -/
def Daemon.RemovePod (d : Daemon) (podId : String) : Daemon :=
  { d with PodList := mapDelete d.PodList podId }

/-- The method `Daemon.WritePodAndContainers` (daemon.go:422). -/
def Daemon.WritePodAndContainers (d : Daemon) (podId : String) : Option String × Daemon :=
  match mapGet d.PodList podId with
  | none => (some ("Cannot find Pod " ++ podId ++ " to write"), d)
  | some p =>
    let value := p.containerIds.foldl
      (fun value cid => if value = "" then cid else value ++ ":" ++ cid) ""
    (none, { d with db := mapSet d.db ("pod-container-" ++ podId) value })

/-- The method `Daemon.AddPod` (daemon.go:576), with its two deferred rollbacks. -/
def Daemon.AddPod (d : Daemon) (pod : Pod) (podArgs : String) : Option String × Daemon :=
  let d1 := d.WritePodToDB pod.id podArgs
  let d2 : Daemon := { d1 with PodList := mapSet d1.PodList pod.id pod }
  match d2.WritePodAndContainers pod.id with
  | (some e, d3) => (some e, (d3.RemovePod pod.id).DeletePodFromDB pod.id)
  | (none, d3) => (none, d3)

/-- The method `Daemon.GetPod` (daemon.go:331). -/
def Daemon.GetPod (E : DaemonEnv) (d : Daemon) (podId podArgs : String) (autoremove : Bool) :
    Except String Pod × Daemon :=
  if podArgs = "" then
    match mapGet d.PodList podId with
    | none => (.error ("Can not find the POD instance of " ++ podId), d)
    | some pod => (.ok pod, d)
  else
    let d1 := d.call (.CreatePod podId podArgs)
    match E.CreatePod d1 podId podArgs autoremove with
    | .error e => (.error e, d1)
    | .ok pod =>
      match d1.AddPod pod podArgs with
      | (some e, d2) => (.error e, d2)
      | (none, d2) => (.ok pod, d2)

/-- The method `Daemon.UpdateVmData` (daemon.go:617). -/
def Daemon.UpdateVmData (d : Daemon) (vmId data : String) : Daemon :=
  match mapGet d.db ("vmdata-" ++ vmId) with
  | some _ =>
    { d with db := mapSet (mapDelete d.db ("vmdata-" ++ vmId)) ("vmdata-" ++ vmId) data }
  | none => { d with db := mapSet d.db ("vmdata-" ++ vmId) data }

/-- The method `Daemon.UpdateVmByPod` (daemon.go:472). -/
def Daemon.UpdateVmByPod (d : Daemon) (podId vmId : String) : Daemon :=
  match mapGet d.db ("vm-" ++ podId) with
  | some _ => { d with db := mapSet (mapDelete d.db ("vm-" ++ podId)) ("vm-" ++ podId) vmId }
  | none => { d with db := mapSet d.db ("vm-" ++ podId) vmId }

/-- The method `Pod.Listen` (migrate.go:251) with its two deferred cleanups, which
run in reverse order when the function returns an error. -/
def Pod.Listen (E : DaemonEnv) (p : Pod) (d : Daemon) (ip port vmId : String)
    (lazyMode : Bool) (keep : Int) : Option String × Daemon :=
  let d1 := d.call (.GetVM p.id vmId)
  match E.GetVM d1 p vmId lazyMode keep with
  | .error e => (some e, d1)
  | .ok vm =>
    let p1 : Pod := { p with vm := some vm }
    let d2 : Daemon := { d1 with PodList := mapSet d1.PodList p.id p1 }
    let kill (dd : Daemon) : Daemon := if vmId = "" then dd.call (.KillVM p.id) else dd
    let d3 := d2.call (.Prepare p.id)
    match E.Prepare d3 p1 with
    | some e => (some e, kill d3)
    | none =>
      let d4 := d3.call (.startLogging p.id)
      match E.startLogging d4 p1 with
      | some e => (some e, kill (d4.call (.stopLogger p.id)))
      | none =>
        let d5 := d4.call (.AttachTtys p.id)
        match E.AttachTtys d5 p1 with
        | some e => (some e, kill (d5.call (.stopLogger p.id)))
        | none =>
          let d6 := d5.call (.vmListenPod vm.Id ip port)
          (none, (d6.UpdateVmData vm.Id "").UpdateVmByPod p.id vm.Id)

/-- The method `Daemon.ListenPod` (migrate.go:103) from the point where the three
metadata blobs `pId`, `pArgs` and `cId` have been received on the listener. The
result is the code, the cause and the error returned; a nil pod specification or
one without containers panics at `spec.Containers[0]`. -/
def Daemon.ListenPod (E : DaemonEnv) (d : Daemon) (pId pArgs cId : String)
    (ip port vmId : String) (lazyMode autoremove : Bool) (keep : Int) :
    Outcome (Int × String × Option String) × Daemon :=
  match E.ProcessPodBytes pArgs pId with
  | none => (.panic "nil pointer dereference", d)
  | some spec =>
    match spec.Containers with
    | [] => (.panic "index out of range", d)
    | c0 :: _ =>
      let cName := c0.Name
      let cImage := c0.Image
      let podId := pId
      let podArgs := pArgs
      match mapGet d.PodList podId with
      | some _ => (.ok (-1, "", some ("The pos has existed(" ++ podId ++ ")")), d)
      | none =>
        let d1 := d.call (.GetContainerInfo cId)
        let restored : Option String × Daemon :=
          if E.GetContainerInfo cId then (none, d1)
          else (E.SendCmdRestore cName cImage cId, d1.call (.SendCmdRestore cName cImage cId))
        match restored with
        | (some _, d2) => (.ok (-1, "", some ("Restore Container(" ++ cId ++ ") error")), d2)
        | (none, d2) =>
          let d3 : Daemon := { d2 with db := mapSet d2.db ("pod-container-" ++ podId) cId }
          match d3.GetPod E podId podArgs autoremove with
          | (.error e, d4) => (.ok (-1, "", some e), d4)
          | (.ok p, d4) =>
            match p.Listen E d4 ip port vmId lazyMode keep with
            | (some e, d5) => (.ok (-1, "", some e), d5)
            | (none, d5) => (.ok (0, "", none), d5)

/-- Whether a call is a `SendCmdRestore` call. -/
def DaemonCall.isRestore : DaemonCall → Bool
  | .SendCmdRestore _ _ _ => true
  | _ => false

/-- Whether a call drives a VM (gets or starts one, or sends it listen-pod). -/
def DaemonCall.isVm : DaemonCall → Bool
  | .GetVM _ _ => true
  | .vmListenPod _ _ _ => true
  | _ => false

/-! ## qemu driver: eager disk attachment (runv qemu.go) -/

/-- The pieces of a character list between the occurrences of `sep`; there is
always at least one piece. -/
def splitChars (sep : Char) : List Char → List (List Char)
  | [] => [[]]
  | c :: cs =>
    if c = sep then [] :: splitChars sep cs
    else
      match splitChars sep cs with
      | [] => [[c]]
      | p :: ps => (c :: p) :: ps

/-- Go `strings.Split(s, sep)` for a separator `sep` of one character. -/
def stringsSplit (s : String) (sep : Char) : List String :=
  (splitChars sep s.data).map String.mk

/-- Go `strings.Replace(s, old, new, -1)` for an `old` of one character: every
occurrence is replaced. -/
def stringsReplace (s : String) (old : Char) (new : String) : String :=
  String.mk (s.data.flatMap (fun c => if c = old then new.data else [c]))

/-- The body of the loop over the monitors in `AddDisk` (qemu.go:194-201), with the
index `i` and the monitor `m` of the round. -/
def addMonitor (filename : String) (im : Nat × String) : String :=
  let monitor := stringsReplace im.2 ':' "\\:"
  if im.1 = 0 then filename ++ ":mon_host=" ++ monitor
  else filename ++ ";" ++ monitor

/-- The method `QemuContext.AddDisk` (qemu.go:179); a key missing from the Go map
`Options` reads as the empty string. -/
def QemuContext.AddDisk (qc : QemuContext) (sourceType : String)
    (blockInfo : BlockDescriptor) : QemuContext :=
  let name := blockInfo.Name
  let filename := blockInfo.Filename
  let format := blockInfo.Format
  let id := blockInfo.ScsiId
  let filename :=
    if format = "rbd" then
      match blockInfo.Options with
      | some options =>
        let keyring := (mapGet options "keyring").getD ""
        let user := (mapGet options "user").getD ""
        let filename :=
          if keyring ≠ "" ∧ user ≠ "" then filename ++ ":id=" ++ user ++ ":key=" ++ keyring
          else filename
        let monitors := (mapGet options "monitors").getD ""
        (stringsSplit monitors ';').enum.foldl addMonitor filename
      | none => filename
    else filename
  newDiskAddSession qc name sourceType filename format id

/-! ## qemu driver: the command line and the launch (runv qemu.go, qemu_process.go) -/

/-- What is not among the embedded files and the launch depends on: the constants
`hypervisor.DefaultKernel`, `hypervisor.DefaultInitrd` and `hypervisor.ShareDirTag`,
whether `/dev/kvm` is missing, and `utils.ExecInDaemon`, which returns the pid of
the started process or an error. -/
structure QemuEnv where
  DefaultKernel : String
  DefaultInitrd : String
  ShareDirTag : String
  kvmMissing : Bool
  ExecInDaemon : String → List String → Except String Nat

/-- The arguments appended for the interface `info` at position `i` of
`qc.interfaces` (qemu.go:289-294); the verb of the address is `%d` after the text
`0x`. -/
def nicArguments (i : Nat) (info : qemuNicConfig) : List String :=
  ["-netdev", "tap,fd=" ++ Itoa info.fd ++ ",id=" ++ info.deviceName,
   "-device", "virtio-net-pci,netdev=" ++ info.deviceName ++ ",id=netchan" ++ Itoa i ++
     ",mac=" ++ info.macAddr ++ ",bus=pci.0,addr=0x" ++ Itoa info.pciAddr]

/-- The arguments appended for one image of `qc.images` (qemu.go:296-301). -/
def imageArguments (image : qemuImageConfig) : List String :=
  ["-drive", "file=" ++ image.deviceName ++ ",if=none,id=drive" ++ Itoa image.scsiId ++
     ",format=" ++ image.format ++ ",cache=writeback",
   "-device", "scsi-hd,bus=scsi0.0,drive=drive" ++ Itoa image.scsiId ++ ",id=scsi-disk" ++
     Itoa image.scsiId ++ ",scsi-id=" ++ Itoa image.scsiId]

/-- The method `QemuContext.arguments` (qemu.go:227): the command line, and the
context, whose `Boot` is set to the default configuration when it was nil. -/
def QemuContext.arguments (X : QemuEnv) (qc : QemuContext) (ctx : VmContext) :
    List String × VmContext :=
  let boot : BootConfig :=
    match ctx.Boot with
    | some b => b
    | none => { CPU := 1, Memory := 128, Kernel := X.DefaultKernel, Initrd := X.DefaultInitrd,
                Bios := "", Cbfs := "" }
  let params :=
    if X.kvmMissing then ["-machine", "pc-i440fx-2.0,usb=off", "-cpu", "core2duo"]
    else ["-machine", "pc-i440fx-2.0,accel=kvm,usb=off", "-global",
      "kvm-pit.lost_tick_policy=discard", "-cpu", "host"]
  let params :=
    if boot.Bios ≠ "" ∧ boot.Cbfs ≠ "" then
      params ++ ["-drive", "if=pflash,file=" ++ boot.Bios ++ ",readonly=on",
        "-drive", "if=pflash,file=" ++ boot.Cbfs ++ ",readonly=on"]
    else if boot.Bios ≠ "" then
      params ++ ["-bios", boot.Bios, "-kernel", boot.Kernel, "-initrd", boot.Initrd,
        "-append", "\"console=ttyS0 panic=1 no_timer_check\""]
    else if boot.Cbfs ≠ "" then
      params ++ ["-drive", "if=pflash,file=" ++ boot.Cbfs ++ ",readonly=on"]
    else
      params ++ ["-kernel", boot.Kernel, "-initrd", boot.Initrd,
        "-append", "\"console=ttyS0 panic=1 no_timer_check\""]
  let params := params ++
    ["-realtime", "mlock=off", "-no-user-config", "-nodefaults", "-no-hpet",
     "-rtc", "base=utc,driftfix=slew", "-no-reboot", "-display", "none", "-boot", "strict=on",
     "-m", Itoa boot.Memory, "-smp", Itoa boot.CPU,
     "-qmp", "unix:" ++ qc.qmpSockName ++ ",server,nowait",
     "-serial", "unix:" ++ ctx.ConsoleSockName ++ ",server,nowait",
     "-device", "virtio-serial-pci,id=virtio-serial0,bus=pci.0,addr=0x2",
     "-device", "virtio-scsi-pci,id=scsi0,bus=pci.0,addr=0x3",
     "-chardev", "socket,id=charch0,path=" ++ ctx.HyperSockName ++ ",server,nowait",
     "-device",
     "virtserialport,bus=virtio-serial0.0,nr=1,chardev=charch0,id=channel0,name=sh.hyper.channel.0",
     "-chardev", "socket,id=charch1,path=" ++ ctx.TtySockName ++ ",server,nowait",
     "-device",
     "virtserialport,bus=virtio-serial0.0,nr=2,chardev=charch1,id=channel1,name=sh.hyper.channel.1",
     "-fsdev", "local,id=virtio9p,path=" ++ ctx.ShareDir ++ ",security_model=none",
     "-device", "virtio-9p-pci,fsdev=virtio9p,mount_tag=" ++ X.ShareDirTag]
  let params := params ++ qc.interfaces.enum.flatMap (fun p => nicArguments p.1 p.2)
  let params := params ++ qc.images.flatMap imageArguments
  (params, { ctx with Boot := some boot })

/-- The method `QemuContext.watchPid` (qemu_process.go:42), without the watchdog it
starts concurrently. -/
def QemuContext.watchPid (qc : QemuContext) (pid : Int) : Except String QemuContext :=
  match osFindProcess pid with
  | .error e => .error e
  | .ok proc => .ok { qc with process := some proc }

/-- The function `launchQemu(qc, ctx)` (qemu_process.go:54), where `qc` is the
driver context `ctx.DCtx` of the VM, as at its call in `QemuContext.Launch`. What is
sent on `ctx.Hub` is appended to it. -/
def launchQemu (X : QemuEnv) (ctx : VmContext) : VmContext :=
  let qc := ctx.DCtx
  let qemu := qc.driver.executable
  if qemu = "" then
    { ctx with Hub := ctx.Hub ++ [.VmStartFailEvent "can not find qemu executable"] }
  else
    let (args, ctx1) := qc.arguments X ctx
    match X.ExecInDaemon qemu ("qemu-system-x86_64" :: args) with
    | .error _ =>
      { ctx1 with Hub := ctx1.Hub ++ [.VmStartFailEvent "try to start qemu failed"] }
    | .ok pid =>
      let ctx2 : VmContext := { ctx1 with Hub := ctx1.Hub ++ qc.callbacks }
      match ctx2.DCtx.watchPid (pid : Int) with
      | .error _ =>
        { ctx2 with Hub := ctx2.Hub ++ [.VmStartFailEvent "watch qemu process failed"] }
      | .ok qc1 => { ctx2 with DCtx := qc1 }

/-- One device queued in lazy mode: the arguments of a `LazyAddNic` or of a
`LazyAddDisk` call. -/
inductive LazyDevice where
  | nic (host : HostNicInfo) (guest : GuestNicInfo)
  | disk (name sourceType filename format : String) (id : Int)
deriving DecidableEq, Repr

/-- The call that queues the device. -/
def LazyDevice.add (qc : QemuContext) : LazyDevice → QemuContext
  | .nic host guest => qc.LazyAddNic host guest
  | .disk name sourceType filename format id => qc.LazyAddDisk name sourceType filename format id

/-- The inserted event of the device: the event its `LazyAdd` call builds. -/
def LazyDevice.inserted : LazyDevice → VmEvent
  | .nic _ guest => .NetDevInsertedEvent guest.Index guest.Device guest.Busaddr
  | .disk name sourceType _ _ id => .BlockdevInsertedEvent name sourceType (scsiId2Name id) id

/-- The value of a hexadecimal digit. -/
def hexDigit (c : Char) : Option Nat :=
  if '0' ≤ c ∧ c ≤ '9' then some (c.toNat - 48)
  else if 'a' ≤ c ∧ c ≤ 'f' then some (c.toNat - 87)
  else if 'A' ≤ c ∧ c ≤ 'F' then some (c.toNat - 55)
  else none

/-- The number written by a list of hexadecimal digits, after the value `acc` of
the digits before them. -/
def hexDigits : Nat → List Char → Option Nat
  | acc, [] => some acc
  | acc, c :: cs =>
    match hexDigit c with
    | some d => hexDigits (16 * acc + d) cs
    | none => none

/-- The number that the text of a bus address denotes: the hexadecimal digits after
the prefix `0x`. -/
def busAddrValue (s : String) : Option Nat :=
  match s.data with
  | '0' :: 'x' :: d :: ds => hexDigits 0 (d :: ds)
  | _ => none

/-- The rest of `s` after the characters `pre`, when `s` starts with them. -/
def dropHead : List Char → List Char → Option (List Char)
  | [], s => some s
  | _ :: _, [] => none
  | p :: ps, c :: cs => if p = c then dropHead ps cs else none

/-- The value of the option `key` in a comma-separated option list `arg`, as the
hypervisor reads a `-device` argument. -/
def optionValue (key : String) (arg : String) : Option String :=
  (splitChars ',' arg.data).findSome? (fun p =>
    (dropHead (key.data ++ ['=']) p).map String.mk)

/-- The position of the `k`-th probe of a scan that starts just after `last` and
wraps from `end` to `begin` (`k` counted from 1; the position before the scan for
0). -/
def probeAt (allocated : allocatedMap) (k : Nat) : Int :=
  if allocated.last + k ≤ allocated.end then allocated.last + k
  else allocated.last + k - (allocated.end - allocated.begin + 1)

/-! ## hypervisor: the wire form of the persisted record (persistence.go:156-164) -/

/-- A scalar of a JSON document. -/
inductive JsonScalar where
  | null
  | bool (b : Bool)
  | number (v : ℚ)
  | string (s : String)
deriving DecidableEq

/-- Go `json.Marshal` on a scalar held in an `interface{}`: an `int` and a `float64`
are both written as a JSON number. -/
def jsonMarshalValue : GoValue → JsonScalar
  | .nil => .null
  | .str s => .string s
  | .int n => .number n
  | .float64 v => .number v
  | .bool b => .bool b

/-- Go `json.Unmarshal` of a scalar into an `interface{}`: a JSON number is stored
as a `float64`. -/
def jsonUnmarshalValue : JsonScalar → GoValue
  | .null => .nil
  | .bool b => .bool b
  | .number v => .float64 v
  | .string s => .str s

/-- The JSON document of a persisted record: the driver map is an object of
scalars; the typed fields are decoded into the types they were encoded from and
are kept as they are. -/
structure PersistWire where
  Id : String
  DriverInfo : List (String × JsonScalar)
  UserSpec : Option UserPod
  VmSpec : Option VmPod
  HwStat : Option VmHwStatus
  VolumeList : List (Option PersistVolumeInfo)
  NetworkList : List (Option PersistNetworkInfo)

/-- The method `PersistInfo.serialize` (persistence.go:162): `json.Marshal`. -/
def PersistInfo.serialize (pinfo : PersistInfo) : PersistWire :=
  { Id := pinfo.Id,
    DriverInfo := pinfo.DriverInfo.map (fun kv => (kv.1, jsonMarshalValue kv.2)),
    UserSpec := pinfo.UserSpec, VmSpec := pinfo.VmSpec, HwStat := pinfo.HwStat,
    VolumeList := pinfo.VolumeList, NetworkList := pinfo.NetworkList }

/-- The function `vmDeserialize` (persistence.go:156): `json.Unmarshal` into a fresh
`PersistInfo`, on a document that `serialize` wrote. -/
def vmDeserialize (s : PersistWire) : PersistInfo :=
  { Id := s.Id,
    DriverInfo := s.DriverInfo.map (fun kv => (kv.1, jsonUnmarshalValue kv.2)),
    UserSpec := s.UserSpec, VmSpec := s.VmSpec, HwStat := s.HwStat,
    VolumeList := s.VolumeList, NetworkList := s.NetworkList }

/-! ## hyper: the rbd graph driver (lib/docker/daemon/graphdriver/rbd/rbd.go) -/

/-- The device record `DevInfo`; `mountPath` and `mountCount` are not persisted. -/
structure DevInfo where
  Hash : String
  Device : String
  Size : Nat
  BaseHash : String
  Initialized : Bool
  mountPath : String
  mountCount : Int
deriving DecidableEq, Repr

structure RbdMappingInfo where
  Pool : String
  Name : String
  Snapshot : String
  Device : String
deriving DecidableEq, Repr

/-- Calls that leave the process: the read of a metadata object, the `rbd`
commands and the mount system calls; the set records them in order. -/
inductive RbdCall where
  | Read (oid : String)
  | showmapped
  | rbdMap (pool image : String)
  | rbdUnmap (device : String)
  | Mount (device mountPoint fstype options : String)
  | Unmount (path : String)
deriving DecidableEq, Repr

/-- The set `RbdSet` (the fields the embedded code touches): `Devices` holds the
records the pointers of the Go map point to. -/
structure RbdSet where
  Devices : List (String × DevInfo)
  dataPoolName : String
  imagePrefix : String
  metaPrefix : String
  baseImageName : String
  calls : List RbdCall
deriving DecidableEq, Repr

/-- What `ioctx.Read` followed by `json.Unmarshal` yields for a metadata object:
not found, a read error, a decoding error, or the persisted fields. -/
inductive RadosRead where
  | notFound
  | failed (e : String)
  | undecodable (e : String)
  | data (hash : String) (size : Nat) (baseHash : String) (initialized : Bool)
deriving DecidableEq, Repr

/-- The outside world of the rbd driver; every answer may depend on the calls made
so far. An error is `some`. -/
structure RbdEnv where
  Read : List RbdCall → String → RadosRead
  showmapped : List RbdCall → Except String (List RbdMappingInfo)
  rbdMap : List RbdCall → String → String → Option String
  rbdUnmap : List RbdCall → String → Option String
  Mount : List RbdCall → String → String → Option String
  Unmount : List RbdCall → String → Option String

/-- Record one call. -/
def RbdSet.call (devices : RbdSet) (c : RbdCall) : RbdSet :=
  { devices with calls := devices.calls ++ [c] }

/-- A write through the pointer `devices.Devices[hash]`. -/
def RbdSet.store (devices : RbdSet) (hash : String) (info : DevInfo) : RbdSet :=
  { devices with Devices := mapSet devices.Devices hash info }

/-- The method `RbdSet.getRbdImageName` (rbd.go:82). -/
def RbdSet.getRbdImageName (devices : RbdSet) (hash : String) : String :=
  if hash = "" then devices.imagePrefix ++ "_" ++ devices.baseImageName
  else devices.imagePrefix ++ "_" ++ hash

/-- The method `RbdSet.getRbdMetaOid` (rbd.go:94). -/
def RbdSet.getRbdMetaOid (devices : RbdSet) (hash : String) : String :=
  if hash = "" then devices.metaPrefix ++ "_" ++ devices.baseImageName
  else devices.metaPrefix ++ "_" ++ hash

/-- The method `RbdSet.loadMetadata` (rbd.go:128): the record read, nil (`none`)
when the object is not found. -/
def RbdSet.loadMetadata (X : RbdEnv) (devices : RbdSet) (hash : String) :
    Except String (Option DevInfo) × RbdSet :=
  let metaOid := devices.getRbdMetaOid hash
  let devices1 := devices.call (.Read metaOid)
  match X.Read devices.calls metaOid with
  | .failed e => (.error e, devices1)
  | .notFound => (.ok none, devices1)
  | .undecodable e => (.error e, devices1)
  | .data h size baseHash initialized =>
    (.ok (some { Hash := h, Device := "", Size := size, BaseHash := baseHash,
                 Initialized := initialized, mountPath := "", mountCount := 0 }), devices1)

/-- The method `RbdSet.lookupDevice` (rbd.go:64). -/
def RbdSet.lookupDevice (X : RbdEnv) (devices : RbdSet) (hash : String) :
    Except String (Option DevInfo) × RbdSet :=
  match mapGet devices.Devices hash with
  | some info => (.ok (some info), devices)
  | none =>
    match devices.loadMetadata X hash with
    | (.ok (some info), devices1) => (.ok (some info), devices1.store hash info)
    | (r, devices1) => (r, devices1)

/-- The loop of `imageIsMapped` (rbd.go:298-309) over the mappings. -/
def imageIsMappedLoop (pool imgName : String) :
    List RbdMappingInfo → DevInfo → Bool × DevInfo
  | [], devInfo => (false, devInfo)
  | info :: rest, devInfo =>
    if info.Pool = pool ∧ info.Name = imgName then
      if devInfo.Device = "" then (true, { devInfo with Device := info.Device })
      else (true, devInfo)
    else imageIsMappedLoop pool imgName rest devInfo

/-- The method `RbdSet.imageIsMapped` (rbd.go:283): the boolean returned (false with
an error) and the record, whose `Device` may have been filled in. -/
def RbdSet.imageIsMapped (X : RbdEnv) (devices : RbdSet) (devInfo : DevInfo) :
    Bool × DevInfo × RbdSet :=
  let devices1 := devices.call .showmapped
  match X.showmapped devices.calls with
  | .error _ => (false, devInfo, devices1)
  | .ok mappingInfos =>
    let r := imageIsMappedLoop devices.dataPoolName (devices.getRbdImageName devInfo.Hash)
      mappingInfos devInfo
    (r.1, r.2, devices1)

/-- The method `RbdSet.mapImageToRbdDevice` (rbd.go:314). -/
def RbdSet.mapImageToRbdDevice (X : RbdEnv) (devices : RbdSet) (devInfo : DevInfo) :
    Option String × DevInfo × RbdSet :=
  if devInfo.Device ≠ "" then (none, devInfo, devices)
  else
    let pool := devices.dataPoolName
    let imageName := devices.getRbdImageName devInfo.Hash
    let devices1 := devices.call (.rbdMap pool imageName)
    match X.rbdMap devices.calls pool imageName with
    | some e => (some e, devInfo, devices1)
    | none =>
      match devices1.imageIsMapped X devInfo with
      | (true, devInfo1, devices2) => (none, devInfo1, devices2)
      | (false, devInfo1, devices2) => (some ("Unable map image " ++ imageName), devInfo1, devices2)

/-- The method `RbdSet.unmapImageFromRbdDevice` (rbd.go:335). -/
def RbdSet.unmapImageFromRbdDevice (X : RbdEnv) (devices : RbdSet) (devInfo : DevInfo) :
    Option String × DevInfo × RbdSet :=
  if devInfo.Device = "" then (none, devInfo, devices)
  else
    match devices.imageIsMapped X devInfo with
    | (false, devInfo1, devices1) => (none, { devInfo1 with Device := "" }, devices1)
    | (true, devInfo1, devices1) =>
      let devices2 := devices1.call (.rbdUnmap devInfo1.Device)
      match X.rbdUnmap devices1.calls devInfo1.Device with
      | some e => (some e, devInfo1, devices2)
      | none => (none, { devInfo1 with Device := "" }, devices2)

/-- The method `RbdSet.MountDevice` (rbd.go:152); a nil record panics at
`info.lock`. -/
def RbdSet.MountDevice (X : RbdEnv) (devices : RbdSet) (hash mountPoint : String) :
    Outcome Unit × RbdSet :=
  match devices.lookupDevice X hash with
  | (.error e, devices1) => (.err e, devices1)
  | (.ok none, devices1) => (.panic "nil pointer dereference", devices1)
  | (.ok (some info), devices1) =>
    if info.mountCount > 0 then
      if mountPoint ≠ info.mountPath then
        (.err ("Trying to mount rbd device in multiple places (" ++ info.mountPath ++ "," ++
          info.Device ++ ")"), devices1)
      else (.ok (), devices1.store hash { info with mountCount := info.mountCount + 1 })
    else
      match devices1.mapImageToRbdDevice X info with
      | (some e, info1, devices2) => (.err e, devices2.store hash info1)
      | (none, info1, devices2) =>
        let devices3 := devices2.call (.Mount info1.Device mountPoint "ext4" "")
        match X.Mount devices2.calls info1.Device mountPoint with
        | some e =>
          (.err ("Errorf mounting \x27" ++ info1.Device ++ "\x27 on \x27" ++ mountPoint ++
            "\x27: " ++ e), devices3.store hash info1)
        | none =>
          (.ok (), devices3.store hash { info1 with mountCount := 1, mountPath := mountPoint })

/-- The method `RbdSet.UnmountDevice` (rbd.go:203); a nil record panics at
`info.lock`. The count is decremented before the unmount system call. -/
def RbdSet.UnmountDevice (X : RbdEnv) (devices : RbdSet) (hash : String) :
    Outcome Unit × RbdSet :=
  match devices.lookupDevice X hash with
  | (.error e, devices1) => (.err e, devices1)
  | (.ok none, devices1) => (.panic "nil pointer dereference", devices1)
  | (.ok (some info), devices1) =>
    if info.mountCount = 0 then
      (.err ("UnmountDevice: device not-mounted id " ++ hash ++ "\n"), devices1)
    else
      let info1 := { info with mountCount := info.mountCount - 1 }
      if info1.mountCount > 0 then (.ok (), devices1.store hash info1)
      else
        let devices2 := devices1.call (.Unmount info1.mountPath)
        match X.Unmount devices1.calls info1.mountPath with
        | some e => (.err e, devices2.store hash info1)
        | none =>
          let info2 := { info1 with mountPath := "" }
          match devices2.unmapImageFromRbdDevice X info2 with
          | (some e, info3, devices3) => (.err e, devices3.store hash info3)
          | (none, info3, devices3) => (.ok (), devices3.store hash info3)

/-- The arguments of the `allocateInterface` calls for the interfaces `l` when the
PCI counter stands at `p`: the index, the next address and the name eth`i`. -/
def allocArgs (p : Int) : List Int → List (Int × Int × String)
  | [] => []
  | i :: rest => (i, p, "eth" ++ Itoa i) :: allocArgs (p + 1) rest

/-- The entry of `qc.interfaces` that `LazyAddNic` is to queue for an allocated
interface: its descriptor, its device name, its MAC address and its PCI address. -/
def nicConfigOf (nic : InterfaceCreated) : qemuNicConfig :=
  { fd := nic.Fd, deviceName := nic.DeviceName, macAddr := nic.MacAddr, pciAddr := nic.PCIAddr }

/-- The inserted event that `LazyAddNic` is to queue for an allocated interface. -/
def nicInsertedOf (nic : InterfaceCreated) : VmEvent :=
  .NetDevInsertedEvent nic.Index nic.DeviceName nic.PCIAddr

/-! ## Sample values for the concrete instances -/

/-- A driver context with nothing queued. -/
def sampleQemuContext (sock : String) (process : Option Process) : QemuContext :=
  { driver := ⟨"qemu-system-x86_64"⟩, qmp := [], waitQmp := [], wdt := [], qmpSockName := sock,
    process := process, interfaces := [], images := [], callbacks := [] }

/-- A context with empty device maps and zero counters. -/
def sampleContext (id : String) (dc : QemuContext) : VmContext :=
  { Id := id, Boot := none, ConsoleSockName := "/run/" ++ id ++ "/console.sock",
    HyperSockName := "/run/" ++ id ++ "/hyper.sock", TtySockName := "/run/" ++ id ++ "/tty.sock",
    ShareDir := "/run/" ++ id ++ "/share", DCtx := dc, Hub := [], userSpec := none, vmSpec := none, pciAddr := 0, scsiId := 0,
    attachId := 0, devices := ⟨[], [], []⟩, ttys := [], pendingTtys := [],
    adding := ⟨[], []⟩, current := none, stateName := "" }

/-- A context constructor that always succeeds with `sampleContext`. -/
def sampleInitContext (id : String) (dc : QemuContext) : Except String VmContext :=
  .ok (sampleContext id dc)

/-- The qemu driver used in the concrete instances. -/
def sampleDriver : HypervisorDriver := QemuDriver.toDriver ⟨"qemu-system-x86_64"⟩

/-- A driver map as `QemuContext.Dump` writes it. -/
def sampleDriverInfo : List (String × GoValue) :=
  [("hypervisor", .str "qemu"), ("qmpSock", .str "/var/run/hyper/vm-1/qmp.sock"), ("pid", .int 4242)]

/-- A VM-level pod with one container. -/
def sampleVmPod : VmPod :=
  { Hostname := "pod", Containers := [⟨"c1", 1, 0, [], []⟩] }

/-- A volume entry named `name` with the given slices. -/
def sampleVolume (name : String) (cs : List Int) (mps : List String) : PersistVolumeInfo :=
  { Name := name, Filename := "/dev/dm7", Format := "raw", Fstype := "ext4",
    DeviceName := "sdb", ScsiId := 1, Containers := cs, MontPoints := mps }

/-- A record with the given driver map and volume list. -/
def sampleRecord (dr : List (String × GoValue)) (vl : List (Option PersistVolumeInfo)) :
    PersistInfo :=
  { Id := "vm-1", DriverInfo := dr, UserSpec := none, VmSpec := some sampleVmPod,
    HwStat := some ⟨5, 2, 1⟩, VolumeList := vl, NetworkList := [] }

/-- Sample effects of the missing context methods: the device context lists one
interface and one block device per volume, no queued tty finds its container, and
every interface allocation succeeds. -/
def sampleHelpers : Helpers :=
  { execCmd := fun c _ => c,
    attachCmd := fun c cmd => { c with pendingTtys := c.pendingTtys ++ [cmd] },
    setWindowSize := fun c _ _ => c,
    InitDeviceContext := fun c spec _ vols =>
      { c with
        userSpec := some spec,
        adding := ⟨[0], vols.map (fun v => v.Name)⟩,
        devices := { c.devices with
          volumeMap := vols.map (fun v =>
            (v.Name, ⟨⟨v.Name, v.Filepath, v.Format, v.Fstype, "", 0, none⟩, [], []⟩)) } },
    Lookup := fun _ _ => -1,
    attachTty2Container := fun c _ _ => c,
    allocateInterface := fun _ i addr name =>
      .ok ⟨i, addr, name, "192.168.123.2", 3, "tap0", "52:54:00:00:00:01", "hyper0"⟩,
    interfaceCreated := fun c nic =>
      { c with devices := { c.devices with
          networkMap := mapSet c.devices.networkMap nic.Index nic } } }

/-- The same helpers with an interface allocation that always fails. -/
def failingHelpers : Helpers :=
  { sampleHelpers with allocateInterface := fun _ _ _ _ => .error "no available ip" }

/-- A machine in state Preparing with one queued attach request. -/
def sampleMachine : Machine :=
  { ctx := { sampleContext "vm-1" (sampleQemuContext "/run/qmp.sock" none) with
      pendingTtys := [⟨"web", ⟨"tag-1"⟩⟩], pciAddr := 5,
      current := some .statePreparing, stateName := "PREPARING" },
    calls := [] }

/-- A pod specification with one container. -/
def samplePod : UserPod := { Name := "pod", Containers := [⟨"web", "image:latest"⟩] }

/-- A listen-pod command whose counts match. -/
def sampleListen : ListenPodCommand :=
  { Spec := samplePod, Containers := [⟨"c1"⟩],
    Volumes := [⟨"vol1", "/dev/dm7", "ext4", "raw"⟩], Ip := "10.0.0.2", Port := "4444" }

/-- The calls that preparing the devices may make. -/
def Call.isPrepare : Call → Bool
  | .reportBadRequest _ => true
  | .reportVmFault _ => true
  | .InitDeviceContext _ _ _ => true
  | .attachTty2Container _ _ => true
  | .allocateInterface _ _ _ => true
  | .interfaceCreated _ => true
  | _ => false

/-- A run-pod command whose counts match. -/
def sampleRun : RunPodCommand :=
  { Spec := samplePod, Containers := [⟨"c1"⟩], Volumes := [⟨"vol1", "/dev/dm7", "ext4", "raw"⟩] }

/-- Dotted decimal text of a byte list, as `IP.String` prints a 4-byte address. -/
def dotted (ip : List Nat) : String := String.intercalate "." (ip.map toString)

/-- Sample rendering of addresses and networks: dotted decimal for the 4-byte form
of an IPv4 address, and address and mask for a network. -/
def sampleNetLib : NetLib :=
  { ipString := fun ip => if To4 ip ≠ [] then dotted (To4 ip) else "?" ++ dotted ip,
    netString := fun n => dotted n.IP ++ "/" ++ dotted n.Mask }

/-- The network 192.168.123.0/24. -/
def sampleNet : IPNet := { IP := [192, 168, 123, 0], Mask := [255, 255, 255, 0] }

/-- Sample collaborators of the daemon: every dial succeeds, every write takes the
whole slice, the pod parser returns `samplePod`, the container is unknown to docker
and every other call succeeds. -/
def sampleDaemonEnv : DaemonEnv :=
  { E_VM_SHUTDOWN := 1,
    dial := fun _ _ => none,
    write := fun _ _ rest => (rest.length, none),
    vmMigratePod := fun _ _ _ => true,
    CleanPod := fun d _ => (0, "", d),
    ProcessPodBytes := fun _ _ => some samplePod,
    GetContainerInfo := fun _ => false,
    SendCmdRestore := fun _ _ _ => none,
    CreatePod := fun _ podId _ _ => .ok ⟨podId, none, ["c1"]⟩,
    GetVM := fun _ _ _ _ _ => .ok ⟨"vm-1"⟩,
    Prepare := fun _ _ => none,
    startLogging := fun _ _ => none,
    AttachTtys := fun _ _ => none }

/-- A daemon with the registered pod `pod-7`, whose VM was never started. -/
def sampleDaemon : Daemon :=
  { PodList := [("pod-7", ⟨"pod-7", none, ["c1"]⟩)],
    VmList := [],
    db := [("pod-pod-7", "pod-args"), ("pod-container-pod-7", "c1")],
    conns := [],
    calls := [] }

/-- A daemon without any pod. -/
def emptyDaemon : Daemon :=
  { PodList := [], VmList := [], db := [], conns := [], calls := [] }

/-- An RBD volume with credentials and two monitors. -/
def sampleRbd : BlockDescriptor :=
  { Name := "vol1", Filename := "rbd:pool/image", Format := "rbd", Fstype := "ext4",
    DeviceName := "", ScsiId := 2,
    Options := some [("user", "admin"), ("keyring", "AQB="),
      ("monitors", "10.0.0.1:6789;10.0.0.2:6789")] }

/-- Sample launch environment: kvm is present and the process starts with pid 4242. -/
def sampleQemuEnv : QemuEnv :=
  { DefaultKernel := "/var/lib/hyper/kernel", DefaultInitrd := "/var/lib/hyper/hyper-initrd.img",
    ShareDirTag := "share_dir", kvmMissing := false, ExecInDaemon := fun _ _ => .ok 4242 }

/-- Three devices queued in lazy mode: an interface, a volume and a second
interface. -/
def sampleDevices : List LazyDevice :=
  [.nic ⟨3, "tap0", "52:54:00:00:00:01", "hyper0", "hyper0"⟩ ⟨"eth0", "192.168.123.2", 0, 5⟩,
   .disk "vol1" "volume" "/dev/dm7" "raw" 0,
   .nic ⟨4, "tap1", "52:54:00:00:00:02", "hyper0", "hyper0"⟩ ⟨"eth1", "192.168.123.3", 1, 6⟩]

/-- A driver context with one interface queued at PCI address 10. -/
def tenthNic : QemuContext :=
  (sampleQemuContext "/run/qmp.sock" none).LazyAddNic
    ⟨3, "tap0", "52:54:00:00:00:01", "hyper0", "hyper0"⟩ ⟨"eth0", "192.168.123.2", 0, 10⟩

/-- Collaborators of the daemon whose connections take at most three bytes per
write. -/
def chunkedDaemonEnv : DaemonEnv :=
  { sampleDaemonEnv with write := fun _ _ rest => (min 3 rest.length, none) }

/-- A daemon with the registered pod `pod-7` running in the VM `vm-1`. -/
def liveDaemon : Daemon :=
  { PodList := [("pod-7", ⟨"pod-7", some ⟨"vm-1"⟩, ["c1"]⟩)],
    VmList := [("vm-1", ⟨"vm-1"⟩)],
    db := [("pod-pod-7", "pod-args"), ("pod-container-pod-7", "c1"), ("vm-pod-7", "vm-1"),
      ("vmdata-vm-1", "data")],
    conns := [],
    calls := [] }

/-- The allocated set of the network 10.0.0.0/31, as `newAllocatedMap` builds it. -/
def noHostMap : allocatedMap :=
  { p := [], last := 167772160, begin := 167772161, «end» := 167772160 }

/-- An allocated set with the range from 10.0.0.1 to 10.0.0.2, the first address
taken and the second handed out last and released. -/
def wrapMap : allocatedMap :=
  { p := [("10.0.0.1", ())], last := 167772162, begin := 167772161, «end» := 167772162 }

/-- The network 0.0.0.0/29. -/
def zeroNet : IPNet := { IP := [0, 0, 0, 0], Mask := [255, 255, 255, 248] }

/-- An outside world in which nothing is mapped and every call succeeds. -/
def sampleRbdEnv : RbdEnv :=
  { Read := fun _ _ => .notFound,
    showmapped := fun _ => .ok [],
    rbdMap := fun _ _ _ => none,
    rbdUnmap := fun _ _ => none,
    Mount := fun _ _ _ => none,
    Unmount := fun _ _ => none }

/-- The same outside world with an unmount system call that fails. -/
def busyRbdEnv : RbdEnv :=
  { sampleRbdEnv with Unmount := fun _ _ => some "device or resource busy" }

/-- An outside world in which the image of `layer1` is mapped to `/dev/rbd0` and
`rbd unmap` fails. -/
def stuckRbdEnv : RbdEnv :=
  { sampleRbdEnv with
    showmapped := fun _ => .ok [⟨"rbd", "docker_image_layer1", "-", "/dev/rbd0"⟩],
    rbdUnmap := fun _ _ => some "exit status 16" }

/-- A device mounted `n` times at `/mnt/layer1`. -/
def mountedDevice (n : Int) : DevInfo :=
  { Hash := "layer1", Device := "/dev/rbd0", Size := 1024, BaseHash := "", Initialized := true,
    mountPath := "/mnt/layer1", mountCount := n }

/-- A set that holds the device `layer1`, mounted `n` times. -/
def sampleRbdSet (n : Int) : RbdSet :=
  { Devices := [("layer1", mountedDevice n)], dataPoolName := "rbd",
    imagePrefix := "docker_image", metaPrefix := "docker_meta", baseImageName := "base_image",
    calls := [] }

/-- Collaborators of the daemon whose pod parser fails on the received arguments:
it returns a nil specification together with its error. -/
def unparsedDaemonEnv : DaemonEnv :=
  { sampleDaemonEnv with ProcessPodBytes := fun _ _ => none }

/-- Collaborators of the daemon whose pod parser returns a specification without
containers. -/
def emptySpecDaemonEnv : DaemonEnv :=
  { sampleDaemonEnv with ProcessPodBytes := fun _ _ => some { Name := "pod", Containers := [] } }

/-- Collaborators of the daemon whose destination refuses every connection. -/
def refusedDaemonEnv : DaemonEnv :=
  { sampleDaemonEnv with dial := fun _ _ => some "connection refused" }

/-- The six host addresses of the network 0.0.0.0/29. -/
def zeroHosts : List (List Nat) :=
  [[0, 0, 0, 1], [0, 0, 0, 2], [0, 0, 0, 3], [0, 0, 0, 4], [0, 0, 0, 5], [0, 0, 0, 6]]

/-- The allocator after each host address of 0.0.0.0/29 was requested by
`RequestIP(network, ip)`, in order. -/
def fullZeroAllocator : IPAllocator :=
  zeroHosts.foldl (fun A ip => (IPAllocator.RequestIP sampleNetLib A zeroNet ip).2) ⟨[]⟩

/-- The allocated set of 0.0.0.0/29 with its six host addresses recorded. -/
def fullZeroMap : allocatedMap :=
  { p := [("0.0.0.1", ()), ("0.0.0.2", ()), ("0.0.0.3", ()), ("0.0.0.4", ()),
      ("0.0.0.5", ()), ("0.0.0.6", ())],
    last := 0, begin := 1, «end» := 6 }

/-! ## Theorems -/

/-! ### Lemmas on the slice-filling loops -/

theorem fillSlots_replicate {α β : Type} (f : β → α) (d : α) (items : List β) :
    ∀ (pre : List α) (m : Nat), items.length ≤ m →
      fillSlots f items (pre ++ List.replicate m d) pre.length =
        (pre ++ items.map f ++ List.replicate (m - items.length) d,
          pre.length + items.length) := by
  induction items with
  | nil => intro pre m _; simp [fillSlots]
  | cons x xs ih =>
    intro pre m hm
    obtain ⟨m', rfl⟩ : ∃ m', m = m' + 1 := ⟨m - 1, by simp at hm; omega⟩
    have hxs : xs.length ≤ m' := by simp at hm; omega
    have hset : (pre ++ List.replicate (m' + 1) d).set pre.length (f x) =
        (pre ++ [f x]) ++ List.replicate m' d := by
      simp [List.replicate_succ, List.set_append]
    have := ih (pre ++ [f x]) m' hxs
    simp only [fillSlots, List.foldl_cons, fillStep] at this ⊢
    rw [hset]
    simp only [List.length_append, List.length_singleton] at this
    rw [this]
    simp [Nat.add_assoc, Nat.add_comm 1]

theorem fillSlots_full {α β : Type} (f : β → α) (d : α) (items : List β) :
    (fillSlots f items (List.replicate items.length d) 0).1 = items.map f := by
  have := fillSlots_replicate f d items [] items.length (Nat.le_refl _)
  simp at this
  simp [this]

theorem dumpVolume_Containers (vol : volumeInfo) :
    (dumpVolume vol).Containers = vol.pos.map Prod.fst := by
  simp only [dumpVolume]
  exact fillSlots_full (fun e : Int × String => e.1) 0 vol.pos

theorem dumpVolume_MontPoints (vol : volumeInfo) :
    (dumpVolume vol).MontPoints = vol.pos.map Prod.snd := by
  simp only [dumpVolume]
  exact fillSlots_full (fun e : Int × String => e.2) "" vol.pos

theorem dump_VolumeList (ctx : VmContext) (info : PersistInfo) (h : ctx.dump = .ok info) :
    info.VolumeList =
      ctx.devices.imageMap.map (fun e => some (dumpImage e.2)) ++
        ctx.devices.volumeMap.map (fun e => some (dumpVolume e.2)) := by
  unfold VmContext.dump at h
  cases hd : ctx.DCtx.Dump with
  | error e => rw [hd] at h; cases h
  | ok dr =>
    rw [hd] at h
    simp only [Except.ok.injEq] at h
    rw [← h]
    simp only
    have h1 := fillSlots_replicate (fun e : String × imageInfo => some (dumpImage e.2))
      (none : Option PersistVolumeInfo) ctx.devices.imageMap []
      (ctx.devices.imageMap.length + ctx.devices.volumeMap.length) (Nat.le_add_right _ _)
    simp only [List.nil_append, List.length_nil, Nat.add_sub_cancel_left, Nat.zero_add] at h1
    rw [h1]
    have h2 := fillSlots_replicate (fun e : String × volumeInfo => some (dumpVolume e.2))
      (none : Option PersistVolumeInfo) ctx.devices.volumeMap
      (ctx.devices.imageMap.map (fun e => some (dumpImage e.2)))
      ctx.devices.volumeMap.length (Nat.le_refl _)
    simp only [List.length_map] at h2
    simp only [h2]
    simp

/-! ### Lemmas on the restore loops -/

theorem restoreVolumes_mismatch (spec : VmPod) (l : List (Option PersistVolumeInfo)) :
    (∃ v, some v ∈ l ∧ v.Containers.length ≠ v.MontPoints.length) →
      ∀ ctx, restoreVolumes spec l ctx = .err corruptMsg ∨
        (restoreVolumes spec l ctx).isPanic = true := by
  induction l with
  | nil => rintro ⟨v, hv, _⟩; simp at hv
  | cons x xs ih =>
    rintro ⟨v, hv, hne⟩ ctx
    cases x with
    | none => right; simp [restoreVolumes, Outcome.isPanic]
    | some vol =>
      by_cases hlen : vol.Containers.length = vol.MontPoints.length
      · have hin : ∃ v, some v ∈ xs ∧ v.Containers.length ≠ v.MontPoints.length := by
          rcases List.mem_cons.1 hv with h | h
          · cases h; exact absurd hlen hne
          · exact ⟨v, h, hne⟩
        unfold restoreVolumes
        simp only [ne_eq, hlen, not_true_eq_false, if_false]
        split
        · split
          · exact ih hin _
          · right; rfl
        · split
          · right; rfl
          · exact ih hin _
      · left
        unfold restoreVolumes
        simp [hlen]

theorem restoreVolumes_keeps (spec : VmPod) (l : List (Option PersistVolumeInfo)) :
    ∀ ctx r, restoreVolumes spec l ctx = .ok r →
      r.devices.volumeMap = ctx.devices.volumeMap ∧ r.pciAddr = ctx.pciAddr ∧
        r.scsiId = ctx.scsiId ∧ r.attachId = ctx.attachId := by
  induction l with
  | nil => intro ctx r h; simp [restoreVolumes] at h; subst h; simp
  | cons x xs ih =>
    intro ctx r h
    cases x with
    | none => simp [restoreVolumes] at h
    | some vol =>
      unfold restoreVolumes at h
      simp only at h
      split at h
      · cases h
      · split at h
        · split at h
          · simpa using ih _ _ h
          · cases h
        · split at h
          · cases h
          · exact ih _ _ h

theorem restoreNetworks_keeps (l : List (Option PersistNetworkInfo)) :
    ∀ ctx r, restoreNetworks l ctx = .ok r →
      r.devices.volumeMap = ctx.devices.volumeMap ∧ r.pciAddr = ctx.pciAddr ∧
        r.scsiId = ctx.scsiId ∧ r.attachId = ctx.attachId := by
  induction l with
  | nil => intro ctx r h; simp [restoreNetworks] at h; subst h; simp
  | cons x xs ih =>
    intro ctx r h
    cases x with
    | none => simp [restoreNetworks] at h
    | some nic =>
      unfold restoreNetworks at h
      simpa using ih _ _ h

/-- A successful restore went through every stage of `vmContext`. -/
theorem vmContext_ok_stages (HDriver : HypervisorDriver)
    (InitContext : String → QemuContext → Except String VmContext)
    (pinfo : PersistInfo) (r : VmContext) (h : pinfo.vmContext HDriver InitContext = .ok r) :
    ∃ dc ctx0 hw spec ctx4,
      HDriver.LoadContext pinfo.DriverInfo = .ok dc ∧ InitContext pinfo.Id dc = .ok ctx0 ∧
      pinfo.HwStat = some hw ∧ pinfo.VmSpec = some spec ∧
      restoreVolumes spec pinfo.VolumeList
        { ctx0 with vmSpec := pinfo.VmSpec, userSpec := pinfo.UserSpec, pciAddr := hw.PciAddr,
                    scsiId := hw.ScsiId, attachId := hw.AttachId,
                    ttys := restoreTtys spec.Containers ctx0.ttys } = .ok ctx4 ∧
      restoreNetworks pinfo.NetworkList ctx4 = .ok r := by
  unfold PersistInfo.vmContext at h
  cases hl : HDriver.LoadContext pinfo.DriverInfo with
  | error e => simp [hl] at h
  | ok dc =>
    simp only [hl] at h
    cases hi : InitContext pinfo.Id dc with
    | error e => simp [hi] at h
    | ok ctx0 =>
      simp only [hi] at h
      cases hh : pinfo.HwStat with
      | none => simp [VmContext.loadHwStatus, hh] at h
      | some hw =>
        cases hs : pinfo.VmSpec with
        | none => simp [VmContext.loadHwStatus, hh, hs] at h
        | some spec =>
          simp only [VmContext.loadHwStatus, hh, hs] at h
          split at h
          · cases h
          · cases h
          · rename_i ctx4 h4
            exact ⟨dc, ctx0, hw, spec, ctx4, rfl, hi, rfl, rfl, h4, h⟩

theorem vmContext_volumeMap_untouched (HDriver : HypervisorDriver)
    (InitContext : String → QemuContext → Except String VmContext)
    (pinfo : PersistInfo) (r : VmContext) (h : pinfo.vmContext HDriver InitContext = .ok r) :
    ∃ dc ctx0, HDriver.LoadContext pinfo.DriverInfo = .ok dc ∧
      InitContext pinfo.Id dc = .ok ctx0 ∧ r.devices.volumeMap = ctx0.devices.volumeMap := by
  obtain ⟨dc, ctx0, hw, spec, ctx4, h1, h2, _, _, h5, h6⟩ :=
    vmContext_ok_stages HDriver InitContext pinfo r h
  refine ⟨dc, ctx0, h1, h2, ?_⟩
  rw [(restoreNetworks_keeps _ _ _ h6).1, (restoreVolumes_keeps _ _ _ _ h5).1]

/-! ### C1: restore of a record with a mismatching volume entry -/

/-- C1 (as stated, refuted): a record with a mismatching volume entry whose driver
map does not name the qemu driver is rejected with the driver error, not with
the corruption error. -/
theorem C1_counterexample :
    (∃ v, some v ∈ (sampleRecord [] [some (sampleVolume "vol1" [0, 1] ["/data"])]).VolumeList ∧
        v.Containers.length ≠ v.MontPoints.length) ∧
      (sampleRecord [] [some (sampleVolume "vol1" [0, 1] ["/data"])]).vmContext
          sampleDriver sampleInitContext = .err "wrong driver type in persist info" ∧
      (sampleRecord [] [some (sampleVolume "vol1" [0, 1] ["/data"])]).vmContext
          sampleDriver sampleInitContext ≠ .err corruptMsg := by
  refine ⟨⟨sampleVolume "vol1" [0, 1] ["/data"], by simp [sampleRecord], by decide⟩, ?_, ?_⟩
  · rfl
  · decide

/-- C1 (amended): for every persisted record in which at least one VolumeList entry
has `len(Containers) != len(MontPoints)`, `vmContext` never returns a VM context;
and when the driver context loads, `InitContext` succeeds and the call does not
panic, it returns exactly the corruption error. -/
theorem C1_restore_mismatch (HDriver : HypervisorDriver)
    (InitContext : String → QemuContext → Except String VmContext) (pinfo : PersistInfo)
    (h : ∃ v, some v ∈ pinfo.VolumeList ∧ v.Containers.length ≠ v.MontPoints.length) :
    (∀ ctx, pinfo.vmContext HDriver InitContext ≠ .ok ctx) ∧
      (∀ dc ctx0, HDriver.LoadContext pinfo.DriverInfo = .ok dc →
        InitContext pinfo.Id dc = .ok ctx0 →
        (pinfo.vmContext HDriver InitContext).isPanic = false →
        pinfo.vmContext HDriver InitContext = .err corruptMsg) := by
  constructor
  · intro r hr
    obtain ⟨dc, ctx0, hw, spec, ctx4, _, _, _, _, h5, _⟩ :=
      vmContext_ok_stages HDriver InitContext pinfo r hr
    rcases restoreVolumes_mismatch spec pinfo.VolumeList h _ with h' | h'
    · rw [h5] at h'; cases h'
    · rw [h5] at h'; simp [Outcome.isPanic] at h'
  · intro dc ctx0 hl hi hp
    unfold PersistInfo.vmContext at hp ⊢
    simp only [hl, hi] at hp ⊢
    cases hh : pinfo.HwStat with
    | none => simp [VmContext.loadHwStatus, hh, Outcome.isPanic] at hp
    | some hw =>
      cases hs : pinfo.VmSpec with
      | none => simp [VmContext.loadHwStatus, hh, hs, Outcome.isPanic] at hp
      | some spec =>
        simp only [VmContext.loadHwStatus, hh, hs] at hp ⊢
        rcases restoreVolumes_mismatch spec pinfo.VolumeList h
          { ctx0 with vmSpec := some spec, userSpec := pinfo.UserSpec, pciAddr := hw.PciAddr,
                      scsiId := hw.ScsiId, attachId := hw.AttachId,
                      ttys := restoreTtys spec.Containers ctx0.ttys } with h' | h'
        · rw [h']
        · revert hp h'
          generalize restoreVolumes spec pinfo.VolumeList _ = o
          intro hp h'
          cases o with
          | ok v => simp [Outcome.isPanic] at h'
          | err e => simp [Outcome.isPanic] at h'
          | panic m => simp [Outcome.isPanic] at hp

/-- C1 (amended), at a record whose driver map is valid and whose only volume entry
has two container indices and one mount point. -/
theorem C1_restore_mismatch_witness :
    (sampleRecord sampleDriverInfo [some (sampleVolume "vol1" [0, 1] ["/data"])]).vmContext
        sampleDriver sampleInitContext = .err corruptMsg :=
  (C1_restore_mismatch sampleDriver sampleInitContext
    (sampleRecord sampleDriverInfo [some (sampleVolume "vol1" [0, 1] ["/data"])])
    ⟨sampleVolume "vol1" [0, 1] ["/data"], by simp [sampleRecord], by decide⟩).2
    _ _ rfl rfl rfl

/-! ### C2: the rebuilt device maps -/

/-- C2 (code evaluated at the failing input): restoring a record whose single
volume entry `vol1` is mounted at `/data` in container 0 succeeds, and `vol1`
is not in `devices.volumeMap` of the returned context. -/
theorem C2_volume_not_restored :
    ∃ r, (sampleRecord sampleDriverInfo [some (sampleVolume "vol1" [0] ["/data"])]).vmContext
        sampleDriver sampleInitContext = .ok r ∧
      mapGet r.devices.volumeMap "vol1" = none ∧ r.devices.volumeMap = [] ∧
      r.devices.imageMap = [] :=
  ⟨_, rfl, rfl, rfl, rfl⟩

/-! ### C3: the volume list written by `dump` -/

/-- C3: for a context whose driver has a process attached, `dump` returns a record
whose VolumeList has exactly `len(imageMap)+len(volumeMap)` entries, none nil: first
one entry per image with `Containers = [image.pos]` and `MontPoints = ["/"]`, then one
entry per shared volume whose (container index, mount point) pairs are exactly the
entries of the volume's pos map; every entry has `len(Containers) == len(MontPoints)`. -/
theorem C3_dump_volume_list (ctx : VmContext) (proc : Process)
    (h : ctx.DCtx.process = some proc) :
    ∃ info, ctx.dump = .ok info ∧
      info.VolumeList.length = ctx.devices.imageMap.length + ctx.devices.volumeMap.length ∧
      (∀ i, (hi : i < ctx.devices.imageMap.length) →
        ∃ v, info.VolumeList.get? i = some (some v) ∧
          v.Name = (ctx.devices.imageMap.get ⟨i, hi⟩).2.info.Name ∧
          v.Containers = [(ctx.devices.imageMap.get ⟨i, hi⟩).2.pos] ∧ v.MontPoints = ["/"]) ∧
      (∀ j, (hj : j < ctx.devices.volumeMap.length) →
        ∃ v, info.VolumeList.get? (ctx.devices.imageMap.length + j) = some (some v) ∧
          v.Name = (ctx.devices.volumeMap.get ⟨j, hj⟩).2.info.Name ∧
          v.Containers.length = (ctx.devices.volumeMap.get ⟨j, hj⟩).2.pos.length ∧
          v.Containers.zip v.MontPoints = (ctx.devices.volumeMap.get ⟨j, hj⟩).2.pos) ∧
      (∀ e ∈ info.VolumeList, ∃ v, e = some v ∧ v.Containers.length = v.MontPoints.length) := by
  have hd : ∃ info, ctx.dump = .ok info := by
    simp [VmContext.dump, QemuContext.Dump, h]
  obtain ⟨info, hinfo⟩ := hd
  have hvl := dump_VolumeList ctx info hinfo
  refine ⟨info, hinfo, ?_, ?_, ?_, ?_⟩
  · simp [hvl]
  · intro i hi
    refine ⟨dumpImage (ctx.devices.imageMap.get ⟨i, hi⟩).2, ?_, rfl, rfl, rfl⟩
    rw [hvl, List.get?_eq_getElem?, List.getElem?_append_left (by simpa using hi)]
    simp [List.getElem?_map, List.getElem?_eq_getElem hi]
  · intro j hj
    refine ⟨dumpVolume (ctx.devices.volumeMap.get ⟨j, hj⟩).2, ?_, rfl, ?_, ?_⟩
    · rw [hvl, List.get?_eq_getElem?, List.getElem?_append_right (by simp)]
      simp [List.getElem?_map, List.getElem?_eq_getElem hj]
    · simp [dumpVolume_Containers]
    · rw [dumpVolume_Containers, dumpVolume_MontPoints]
      exact (List.zip_of_prod rfl rfl).symm
  · intro e he
    rw [hvl] at he
    rcases List.mem_append.1 he with h1 | h1
    · obtain ⟨x, _, rfl⟩ := List.mem_map.1 h1
      exact ⟨_, rfl, rfl⟩
    · obtain ⟨x, _, rfl⟩ := List.mem_map.1 h1
      refine ⟨_, rfl, ?_⟩
      simp [dumpVolume_Containers, dumpVolume_MontPoints]

/-- C3, at a context with one image and one volume shared by two containers. -/
theorem C3_dump_volume_list_witness :
    ∃ info,
      ({ sampleContext "vm-1" (sampleQemuContext "/run/qmp.sock" (some ⟨4242⟩)) with
          devices := ⟨[("img", ⟨⟨"img", "/dev/dm1", "raw", "ext4", "sda", 0, none⟩, 0⟩)],
            [("vol", ⟨⟨"vol", "/dev/dm2", "raw", "ext4", "sdb", 1, none⟩,
              [(0, "/data"), (1, "/mnt")], []⟩)], []⟩ } : VmContext).dump = .ok info ∧
      info.VolumeList.length = 2 :=
  (C3_dump_volume_list
    { sampleContext "vm-1" (sampleQemuContext "/run/qmp.sock" (some ⟨4242⟩)) with
      devices := ⟨[("img", ⟨⟨"img", "/dev/dm1", "raw", "ext4", "sda", 0, none⟩, 0⟩)],
        [("vol", ⟨⟨"vol", "/dev/dm2", "raw", "ext4", "sdb", 1, none⟩,
          [(0, "/data"), (1, "/mnt")], []⟩)], []⟩ } ⟨4242⟩ rfl).imp
    (fun _ hx => ⟨hx.1, hx.2.1⟩)

/-! ### C4: hardware counters -/

/-- C4: for every context `c`, loading the VmHwStatus produced by `c.dumpHwInfo()`
with `loadHwStatus` sets pciAddr, scsiId and attachId to exactly the values of `c`,
and a successful restore of a record carrying that HwStat returns a context whose
three counters equal it. -/
theorem C4_hw_counters_roundtrip (c ctx : VmContext) (pinfo : PersistInfo)
    (h : pinfo.HwStat = some c.dumpHwInfo) :
    (∃ r, ctx.loadHwStatus pinfo = .ok r ∧
        r.pciAddr = c.pciAddr ∧ r.scsiId = c.scsiId ∧ r.attachId = c.attachId) ∧
      (∀ HDriver InitContext r, pinfo.vmContext HDriver InitContext = .ok r →
        r.pciAddr = c.pciAddr ∧ r.scsiId = c.scsiId ∧ r.attachId = c.attachId) := by
  constructor
  · refine ⟨{ ctx with pciAddr := c.pciAddr, scsiId := c.scsiId, attachId := c.attachId },
      ?_, rfl, rfl, rfl⟩
    simp [VmContext.loadHwStatus, h, VmContext.dumpHwInfo]
  · intro HDriver InitContext r hr
    obtain ⟨dc, ctx0, hw, spec, ctx4, _, _, h3, _, h5, h6⟩ :=
      vmContext_ok_stages HDriver InitContext pinfo r hr
    have hw_eq : hw = c.dumpHwInfo := by rw [h] at h3; exact (Option.some.inj h3).symm
    obtain ⟨_, n1, n2, n3⟩ := restoreNetworks_keeps _ _ _ h6
    obtain ⟨_, v1, v2, v3⟩ := restoreVolumes_keeps _ _ _ _ h5
    subst hw_eq
    exact ⟨by rw [n1, v1]; rfl, by rw [n2, v2]; rfl, by rw [n3, v3]; rfl⟩

/-- C4, at a context with counters 7, 3 and 2 whose status is put in a record and
restored. -/
theorem C4_hw_counters_roundtrip_witness :
    ∃ r, ({ sampleRecord sampleDriverInfo [] with HwStat := some ⟨7, 3, 2⟩ } :
        PersistInfo).vmContext sampleDriver sampleInitContext = .ok r ∧
      r.pciAddr = 7 ∧ r.scsiId = 3 ∧ r.attachId = 2 :=
  ⟨_, rfl,
    (C4_hw_counters_roundtrip
      { sampleContext "vm-0" (sampleQemuContext "" none) with
        pciAddr := 7, scsiId := 3, attachId := 2 }
      (sampleContext "vm-1" (sampleQemuContext "" none))
      { sampleRecord sampleDriverInfo [] with HwStat := some ⟨7, 3, 2⟩ } rfl).2
      sampleDriver sampleInitContext _ rfl⟩

/-! ### C5: the driver handle -/

/-- C5: `QemuContext.Dump` returns an error exactly when no process is attached;
otherwise `LoadContext` applied to the map it returns succeeds and yields a context
with the same control-socket path and a process with the same pid; and `LoadContext`
returns an error exactly on a map whose `hypervisor` is not the string `qemu`, whose
`qmpSock` is missing or not a string, or whose `pid` is missing or not an int. -/
theorem C5_driver_handle_roundtrip (qd : QemuDriver) (qc : QemuContext) :
    ((∃ e, qc.Dump = .error e) ↔ qc.process = none) ∧
      (∀ proc, qc.process = some proc →
        ∃ m r, qc.Dump = .ok m ∧ qd.LoadContext m = .ok r ∧
          r.qmpSockName = qc.qmpSockName ∧ r.process = some ⟨proc.Pid⟩) ∧
      (∀ m, (∃ e, qd.LoadContext m = .error e) ↔
        (mapGet m "hypervisor" ≠ some (.str "qemu") ∨
          (∀ s, mapGet m "qmpSock" ≠ some (.str s)) ∨
          (∀ p, mapGet m "pid" ≠ some (.int p)))) := by
  refine ⟨?_, ?_, ?_⟩
  · cases hp : qc.process <;> simp [QemuContext.Dump, hp]
  · intro proc hp
    refine ⟨[("hypervisor", .str "qemu"), ("qmpSock", .str qc.qmpSockName),
        ("pid", .int proc.Pid)],
      { driver := qd, qmp := [], wdt := [], waitQmp := [], qmpSockName := qc.qmpSockName,
        process := some ⟨proc.Pid⟩, interfaces := [], images := [], callbacks := [] },
      by simp only [QemuContext.Dump, hp], ?_, rfl, rfl⟩
    simp [QemuDriver.LoadContext, mapGet, osFindProcess]
  · intro m
    unfold QemuDriver.LoadContext
    by_cases hh : mapGet m "hypervisor" = some (.str "qemu")
    · simp only [hh, ne_eq, not_true_eq_false, if_false, false_or]
      cases hs : mapGet m "qmpSock" with
      | none => simp
      | some sv =>
        cases sv with
        | str sock =>
          cases hpid : mapGet m "pid" with
          | none => simp
          | some pv => cases pv <;> simp [osFindProcess]
        | nil => simp
        | int n => simp
        | float64 v => simp
        | bool b => simp
    · simp [hh]

/-- C5, at a context with process 4242 and a map without a pid. -/
theorem C5_driver_handle_roundtrip_witness :
    (∃ m r, (sampleQemuContext "/run/qmp.sock" (some ⟨4242⟩)).Dump = .ok m ∧
        QemuDriver.LoadContext ⟨"qemu"⟩ m = .ok r ∧ r.qmpSockName = "/run/qmp.sock" ∧
        r.process = some ⟨4242⟩) ∧
      (∃ e, QemuDriver.LoadContext ⟨"qemu"⟩
        [("hypervisor", .str "qemu"), ("qmpSock", .str "/run/qmp.sock")] = .error e) :=
  ⟨(C5_driver_handle_roundtrip ⟨"qemu"⟩ (sampleQemuContext "/run/qmp.sock" (some ⟨4242⟩))).2.1
      ⟨4242⟩ rfl,
    ((C5_driver_handle_roundtrip ⟨"qemu"⟩ (sampleQemuContext "/run/qmp.sock" (some ⟨4242⟩))).2.2
      [("hypervisor", .str "qemu"), ("qmpSock", .str "/run/qmp.sock")]).2
      (Or.inr (Or.inr (fun _ => by simp [mapGet])))⟩

/-! ### Lemmas on the calls recorded while preparing devices -/

theorem attachPendings_calls (H : Helpers) (l : List AttachCommand) :
    ∀ m, ∃ extra, (attachPendings H l m).calls = m.calls ++ extra ∧
      ∀ c ∈ extra, c.isPrepare = true := by
  induction l with
  | nil => intro m; exact ⟨[], by simp [attachPendings], by simp⟩
  | cons a rest ih =>
    intro m
    unfold attachPendings
    simp only
    split
    · obtain ⟨extra, h1, h2⟩ := ih
        (({ m with ctx := H.attachTty2Container m.ctx (H.Lookup m.ctx a.Container) a } :
          Machine).call (.attachTty2Container (H.Lookup m.ctx a.Container) a))
      refine ⟨.attachTty2Container (H.Lookup m.ctx a.Container) a :: extra, ?_, ?_⟩
      · rw [h1]; simp [Machine.call]
      · intro c hc
        rcases List.mem_cons.1 hc with h | h
        · subst h; rfl
        · exact h2 c h
    · obtain ⟨extra, h1, h2⟩ := ih
        { m with ctx := { m.ctx with pendingTtys := m.ctx.pendingTtys ++ [a] } }
      exact ⟨extra, by rw [h1], h2⟩

theorem lazyAllocateNetworksLoop_calls (H : Helpers) (l : List Int) :
    ∀ m, ∃ extra, (lazyAllocateNetworksLoop H l m).2.calls = m.calls ++ extra ∧
      ∀ c ∈ extra, c.isPrepare = true := by
  induction l with
  | nil => intro m; exact ⟨[], by simp [lazyAllocateNetworksLoop], by simp⟩
  | cons i rest ih =>
    intro m
    unfold lazyAllocateNetworksLoop
    simp only [VmContext.nextPciAddr]
    split
    · refine ⟨[.allocateInterface i m.ctx.pciAddr ("eth" ++ Itoa i)], by simp [Machine.call], ?_⟩
      intro c hc
      simp at hc; subst hc; rfl
    · rename_i nic _
      obtain ⟨extra, h1, h2⟩ := ih
        { ctx := { (H.interfaceCreated { m.ctx with pciAddr := m.ctx.pciAddr + 1 } nic) with
            DCtx := (H.interfaceCreated { m.ctx with pciAddr := m.ctx.pciAddr + 1 } nic).DCtx.LazyAddNic
              (networkConfigure nic).1 (networkConfigure nic).2 },
          calls := m.calls ++ [.allocateInterface i m.ctx.pciAddr ("eth" ++ Itoa i)] ++
            [.interfaceCreated nic] }
      refine ⟨.allocateInterface i m.ctx.pciAddr ("eth" ++ Itoa i) :: .interfaceCreated nic ::
        extra, ?_, ?_⟩
      · simp only [Machine.call] at h1 ⊢
        rw [h1]; simp
      · intro c hc
        rcases List.mem_cons.1 hc with h | h
        · subst h; rfl
        · rcases List.mem_cons.1 h with h | h
          · subst h; rfl
          · exact h2 c h

theorem lazyPrepare_calls (H : Helpers) (m : Machine) (spec : UserPod)
    (containers : List ContainerInfo) (volumes : List VolumeInfo) :
    ∃ extra, (lazyPrepare H m spec containers volumes).2.calls = m.calls ++ extra ∧
      ∀ c ∈ extra, c.isPrepare = true := by
  unfold lazyPrepare
  split
  · refine ⟨[.reportBadRequest "Spec and Container Info mismatch"], by simp [Machine.call], ?_⟩
    intro c hc
    simp at hc; subst hc; rfl
  · obtain ⟨e1, h1, p1⟩ := attachPendings_calls H
      (H.InitDeviceContext m.ctx spec containers volumes).pendingTtys
      { ctx := { (H.InitDeviceContext m.ctx spec containers volumes) with pendingTtys := [] },
        calls := m.calls ++ [.InitDeviceContext spec containers volumes] }
    obtain ⟨e2, h2, p2⟩ := lazyAllocateNetworksLoop_calls H
      (attachPendings H (H.InitDeviceContext m.ctx spec containers volumes).pendingTtys
        { ctx := { (H.InitDeviceContext m.ctx spec containers volumes) with pendingTtys := [] },
          calls := m.calls ++ [.InitDeviceContext spec containers volumes] }).ctx.adding.networks
      (attachPendings H (H.InitDeviceContext m.ctx spec containers volumes).pendingTtys
        { ctx := { (H.InitDeviceContext m.ctx spec containers volumes) with pendingTtys := [] },
          calls := m.calls ++ [.InitDeviceContext spec containers volumes] })
    simp only [Machine.call, lazyAllocateNetworks]
    rw [h1] at h2
    split
    · rename_i e m4 heq
      have hm4 := (congrArg (fun x => x.2.calls) heq).symm.trans h2
      simp only at hm4
      refine ⟨.InitDeviceContext spec containers volumes :: (e1 ++ e2 ++ [.reportVmFault e]),
        ?_, ?_⟩
      · simp [hm4]
      · intro c hc
        simp only [List.mem_cons, List.mem_append, List.mem_singleton, List.not_mem_nil,
          or_false] at hc
        rcases hc with h | (h | h) | h
        · subst h; rfl
        · exact p1 c h
        · exact p2 c h
        · subst h; rfl
    · rename_i m4 heq
      have hm4 := (congrArg (fun x => x.2.calls) heq).symm.trans h2
      simp only at hm4
      refine ⟨.InitDeviceContext spec containers volumes :: (e1 ++ e2), ?_, ?_⟩
      · simp [lazyAddBlockDevices, hm4]
      · intro c hc
        simp only [List.mem_cons, List.mem_append] at hc
        rcases hc with h | h | h
        · subst h; rfl
        · exact p1 c h
        · exact p2 c h

theorem lazyAllocateNetworksLoop_ok (H : Helpers)
    (hok : ∀ c i a n, ∃ nic, H.allocateInterface c i a n = .ok nic) (l : List Int) :
    ∀ m, (lazyAllocateNetworksLoop H l m).1 = none := by
  induction l with
  | nil => intro m; rfl
  | cons i rest ih =>
    intro m
    unfold lazyAllocateNetworksLoop
    simp only [VmContext.nextPciAddr]
    obtain ⟨nic, hnic⟩ := hok { m.ctx with pciAddr := m.ctx.pciAddr + 1 } i m.ctx.pciAddr
      ("eth" ++ Itoa i)
    simp only [hnic]
    exact ih _

/-! ### C6: shutdown or release in state Preparing -/

/-- C6: in state Preparing, a shutdown or release command records exactly one call,
the report that the VM is shut down, and moves the machine to the terminal state
(nil handler, named NONE); nothing else of the context changes, so no device is
prepared and the hypervisor is not launched. -/
theorem C6_preparing_shutdown (H : Helpers) (m : Machine) (ev : VmEvent)
    (h : ev.Event = .COMMAND_SHUTDOWN ∨ ev.Event = .COMMAND_RELEASE) :
    (statePreparing H m ev).calls = m.calls ++ [.reportVmShutdown] ∧
      (statePreparing H m ev).ctx.current = none ∧
      (statePreparing H m ev).ctx = { m.ctx with current := none, stateName := "NONE" } ∧
      (statePreparing H m ev).ctx.DCtx = m.ctx.DCtx ∧
      (statePreparing H m ev).ctx.devices = m.ctx.devices := by
  cases ev <;> simp [VmEvent.Event] at h <;>
    simp [statePreparing, Machine.call, Machine.Become]

/-- C6, at the sample machine and a shutdown command. -/
theorem C6_preparing_shutdown_witness :
    (statePreparing sampleHelpers sampleMachine .ShutdownCommand).calls = [.reportVmShutdown] ∧
      (statePreparing sampleHelpers sampleMachine .ShutdownCommand).ctx.current = none :=
  ⟨(C6_preparing_shutdown sampleHelpers sampleMachine .ShutdownCommand (Or.inl rfl)).1,
    (C6_preparing_shutdown sampleHelpers sampleMachine .ShutdownCommand (Or.inl rfl)).2.1⟩

/-! ### C7: run-pod with mismatching counts -/

/-- C7: in state Preparing, a run-pod or replace-pod command whose spec container
count differs from its container-info count records exactly one call, the bad-request
report, and moves the machine to the terminal state; the context is otherwise
unchanged: no device context is initialised, the PCI and SCSI counters and the
pending TTY list keep their values, nothing is queued on the driver and the
hypervisor is not launched. -/
theorem C7_run_pod_count_mismatch (H : Helpers) (m : Machine) (ev : VmEvent)
    (cmd : RunPodCommand) (hev : ev = .RunPod cmd ∨ ev = .ReplacePod cmd)
    (h : cmd.Spec.Containers.length ≠ cmd.Containers.length) :
    (statePreparing H m ev).calls =
        m.calls ++ [.reportBadRequest "Spec and Container Info mismatch"] ∧
      (statePreparing H m ev).ctx = { m.ctx with current := none, stateName := "None" } ∧
      (statePreparing H m ev).ctx.current = none ∧
      (statePreparing H m ev).ctx.pciAddr = m.ctx.pciAddr ∧
      (statePreparing H m ev).ctx.scsiId = m.ctx.scsiId ∧
      (statePreparing H m ev).ctx.pendingTtys = m.ctx.pendingTtys ∧
      (statePreparing H m ev).ctx.devices = m.ctx.devices ∧
      (statePreparing H m ev).ctx.DCtx = m.ctx.DCtx := by
  rcases hev with rfl | rfl <;>
    simp [statePreparing, statePreparingRunPod, lazyPrepareDevice, lazyPrepare, h,
      Machine.call, Machine.Become]

/-- C7, at the sample machine and a run-pod command with one spec container and no
container info. -/
theorem C7_run_pod_count_mismatch_witness :
    (statePreparing sampleHelpers sampleMachine (.RunPod ⟨samplePod, [], []⟩)).calls =
        [.reportBadRequest "Spec and Container Info mismatch"] ∧
      (statePreparing sampleHelpers sampleMachine (.RunPod ⟨samplePod, [], []⟩)).ctx.pciAddr = 5 :=
  ⟨(C7_run_pod_count_mismatch sampleHelpers sampleMachine _ ⟨samplePod, [], []⟩ (Or.inl rfl)
      (by decide)).1,
    (C7_run_pod_count_mismatch sampleHelpers sampleMachine _ ⟨samplePod, [], []⟩ (Or.inl rfl)
      (by decide)).2.2.2.1⟩

/-! ### C8: listen-pod in state Preparing -/

/-- C8: in state Preparing, with `r` the result of `lazyPrepareDeviceForListen` on a
listen-pod command: the calls made while preparing are only device-preparation
calls; if `r` is true the handler then records exactly `Listen` with the ip and
port of the command followed by `startSocksInListen`, and the machine is in state
Running (no launch, no timeout, no Starting state); if `r` is false no further
call is recorded, so `Listen` is not invoked, and the machine is in the terminal
state. Preparation succeeds only if the container counts match, and it does
succeed when they match and every interface allocation succeeds. -/
theorem C8_listen_pod (H : Helpers) (m : Machine) (cmd : ListenPodCommand) :
    (∃ extra, (lazyPrepareDeviceForListen H m cmd).2.calls = m.calls ++ extra ∧
        ∀ c ∈ extra, c.isPrepare = true) ∧
      ((lazyPrepareDeviceForListen H m cmd).1 = true →
        (statePreparing H m (.ListenPod cmd)).calls =
            (lazyPrepareDeviceForListen H m cmd).2.calls ++
              [.Listen cmd.Ip cmd.Port, .startSocksInListen] ∧
          (statePreparing H m (.ListenPod cmd)).ctx.current = some .stateRunning ∧
          (statePreparing H m (.ListenPod cmd)).ctx.stateName = "RUNNING") ∧
      ((lazyPrepareDeviceForListen H m cmd).1 = false →
        (statePreparing H m (.ListenPod cmd)).calls =
            (lazyPrepareDeviceForListen H m cmd).2.calls ∧
          (statePreparing H m (.ListenPod cmd)).ctx.current = none) ∧
      ((lazyPrepareDeviceForListen H m cmd).1 = true →
        cmd.Spec.Containers.length = cmd.Containers.length) ∧
      (cmd.Spec.Containers.length = cmd.Containers.length →
        (∀ c i a n, ∃ nic, H.allocateInterface c i a n = .ok nic) →
        (lazyPrepareDeviceForListen H m cmd).1 = true) := by
  refine ⟨lazyPrepare_calls H m cmd.Spec cmd.Containers cmd.Volumes, ?_, ?_, ?_, ?_⟩
  · intro h
    unfold statePreparing
    cases hr : lazyPrepareDeviceForListen H m cmd with
    | mk b m1 =>
      rw [hr] at h
      simp only at h
      subst h
      simp [hr, Machine.call, Machine.Become]
  · intro h
    unfold statePreparing
    cases hr : lazyPrepareDeviceForListen H m cmd with
    | mk b m1 =>
      rw [hr] at h
      simp only at h
      subst h
      simp [hr, Machine.call, Machine.Become]
  · intro h
    by_contra hne
    simp [lazyPrepareDeviceForListen, lazyPrepare, hne] at h
  · intro hlen hok
    unfold lazyPrepareDeviceForListen lazyPrepare
    simp only [hlen, ne_eq, not_true_eq_false, if_false]
    have hnone := lazyAllocateNetworksLoop_ok H hok
    unfold lazyAllocateNetworks
    split
    · rename_i e m4 heq
      have := congrArg (fun x => x.1) heq
      simp only [hnone] at this
      cases this
    · rfl

/-- C8, at the sample machine: with allocations that succeed the listen-pod command
ends in `Listen` on its ip and port and in state Running, and with allocations that
fail it ends in the terminal state without `Listen`. -/
theorem C8_listen_pod_witness :
    (statePreparing sampleHelpers sampleMachine (.ListenPod sampleListen)).calls =
        (lazyPrepareDeviceForListen sampleHelpers sampleMachine sampleListen).2.calls ++
          [.Listen "10.0.0.2" "4444", .startSocksInListen] ∧
      (statePreparing sampleHelpers sampleMachine (.ListenPod sampleListen)).ctx.current =
        some .stateRunning ∧
      (statePreparing failingHelpers sampleMachine (.ListenPod sampleListen)).ctx.current = none ∧
      Call.Listen "10.0.0.2" "4444" ∉
        (statePreparing failingHelpers sampleMachine (.ListenPod sampleListen)).calls :=
  ⟨((C8_listen_pod sampleHelpers sampleMachine sampleListen).2.1 rfl).1,
    ((C8_listen_pod sampleHelpers sampleMachine sampleListen).2.1 rfl).2.1,
    ((C8_listen_pod failingHelpers sampleMachine sampleListen).2.2.1 rfl).2,
    by decide⟩

/-! ### C9: the disk-add session -/

/-- C9: `newDiskAddSession(name, sourceType, filename, format, id)` sends one session
of exactly two commands: first human-monitor-command with the command line
`drive_add dummy file=<filename>,if=none,id=drive<id>,format=<format>,cache=writeback`,
then device_add with driver scsi-hd, bus scsi0.0, scsi-id `<id>`, drive `drive<id>`
and id `scsi-disk<id>`. -/
theorem C9_disk_add_session (qc : QemuContext) (name sourceType filename format : String)
    (id : Int) :
    ∃ s, (newDiskAddSession qc name sourceType filename format id).qmp = qc.qmp ++ [s] ∧
      s.commands =
        [{ Execute := "human-monitor-command",
           Arguments := [("command-line", .str ("drive_add dummy file=" ++ filename ++
             ",if=none,id=drive" ++ Itoa id ++ ",format=" ++ format ++ ",cache=writeback"))],
           Scm := none },
         { Execute := "device_add",
           Arguments := [("driver", .str "scsi-hd"), ("bus", .str "scsi0.0"),
             ("scsi-id", .str (Itoa id)), ("drive", .str ("drive" ++ Itoa id)),
             ("id", .str ("scsi-disk" ++ Itoa id))],
           Scm := none }] ∧
      s.commands.length = 2 := by
  refine ⟨_, rfl, ?_, rfl⟩
  have hs : "drive_add dummy file=" ++ filename ++ ",if=none,id=" ++ "drive" =
      "drive_add dummy file=" ++ filename ++ ",if=none,id=drive" := by
    rw [String.append_assoc ("drive_add dummy file=" ++ filename)]
    rfl
  simp only [hs]

/-- The disk-add session of the driver test: volume `vol1` on `/dev/dm7`, SCSI id 5. -/
theorem newDiskAddSession_vol1 :
    (newDiskAddSession (sampleQemuContext "" none) "vol1" "volume" "/dev/dm7" "raw" 5).qmp =
      [{ commands :=
          [⟨"human-monitor-command",
            [("command-line",
              .str "drive_add dummy file=/dev/dm7,if=none,id=drive5,format=raw,cache=writeback")],
            none⟩,
           ⟨"device_add",
            [("driver", .str "scsi-hd"), ("bus", .str "scsi0.0"), ("scsi-id", .str "5"),
              ("drive", .str "drive5"), ("id", .str "scsi-disk5")],
            none⟩],
         respond := ⟨.BlockdevInsertedEvent "vol1" "volume" "sdf" 5⟩ }] := by
  decide

/-! ### C10: the disk-remove session -/

/-- C10 (as stated, refuted): in the session built for SCSI id 5, command 0 is the
human-monitor-command `drive_del drive5`, not device_del, and command 1 is the
device_del of `scsi-disk5`. -/
theorem C10_counterexample :
    ∃ s c0 c1, (newDiskDelSession (sampleQemuContext "" none) 5 (.Other 1 "removed")).qmp = [s] ∧
      s.commands.get? 0 = some c0 ∧ s.commands.get? 1 = some c1 ∧
      c0.Execute ≠ "device_del" ∧
      c0 = ⟨"human-monitor-command", [("command-line", .str "drive_del drive5")], none⟩ ∧
      c1 = ⟨"device_del", [("id", .str "scsi-disk5")], none⟩ :=
  ⟨_, _, _, rfl, rfl, rfl, by decide, by decide, by decide⟩

/-- C10 (amended): for every SCSI id, the session built by `newDiskDelSession` has
exactly two commands and detaches the drive first and the device second: command 0
is the human-monitor-command `drive_del drive<id>` and command 1 is device_del of
`scsi-disk<id>`; its successful completion delivers the caller-supplied callback
event, and nothing else, to the Hub. -/
theorem C10_disk_del_session (qc : QemuContext) (id : Int) (callback : VmEvent) :
    ∃ s, (newDiskDelSession qc id callback).qmp = qc.qmp ++ [s] ∧
      s.commands =
        [{ Execute := "human-monitor-command",
           Arguments := [("command-line", .str ("drive_del drive" ++ Itoa id))],
           Scm := none },
         { Execute := "device_del",
           Arguments := [("id", .str ("scsi-disk" ++ Itoa id))],
           Scm := none }] ∧
      s.commands.length = 2 ∧
      (callback ≠ .nil → ∀ hub, s.respond.call none hub = hub ++ [callback]) := by
  refine ⟨_, rfl, rfl, rfl, ?_⟩
  intro hcb hub
  simp [Respond.call, defaultRespond, hcb]

/-- C10 (amended), at SCSI id 5 with a callback event and an empty Hub. -/
theorem C10_disk_del_session_witness :
    ∃ s, (newDiskDelSession (sampleQemuContext "" none) 5 (.Other 1 "removed")).qmp = [] ++ [s] ∧
      s.respond.call none [] = [.Other 1 "removed"] :=
  (C10_disk_del_session (sampleQemuContext "" none) 5 (.Other 1 "removed")).imp
    (fun _ hx => ⟨hx.1, hx.2.2.2 (by decide) []⟩)

/-! ### C11: events delivered when a device-add session succeeds -/

/-- C11: the completion of a disk-add session built for (name, sourceType, id), called
with a nil error, delivers exactly one event to the Hub, the BlockdevInsertedEvent
with Name=name, SourceType=sourceType, DeviceName=scsiId2Name(id), ScsiId=id; the
completion of a network-add session built for (device, index, addr) delivers exactly
one event, the NetDevInsertedEvent with Index=index, DeviceName=device,
Address=addr. -/
theorem C11_add_session_success (qc : QemuContext) (hub : List VmEvent) :
    (∀ name sourceType filename format id,
      ∃ s, (newDiskAddSession qc name sourceType filename format id).qmp = qc.qmp ++ [s] ∧
        s.respond.call none hub =
          hub ++ [.BlockdevInsertedEvent name sourceType (scsiId2Name id) id]) ∧
    (∀ fd device mac index addr,
      ∃ s, (newNetworkAddSession qc fd device mac index addr).qmp = qc.qmp ++ [s] ∧
        s.respond.call none hub = hub ++ [.NetDevInsertedEvent index device addr]) := by
  constructor
  · intro name sourceType filename format id
    exact ⟨_, rfl, by simp [Respond.call, defaultRespond]⟩
  · intro fd device mac index addr
    exact ⟨_, rfl, by simp [Respond.call, defaultRespond]⟩

/-- The two network sessions of the session-queue test: eth0 at index 0 and address 3
yields Address 3, then eth1 at index 1 and address 4 yields Address 4, in that
order on the Hub; the bus addresses sent are `0x3` and `0x4`. -/
theorem newNetworkAddSession_queue :
    ((newNetworkAddSession (newNetworkAddSession (sampleQemuContext "" none)
        12 "eth0" "mac" 0 3) 13 "eth1" "mac" 1 4).qmp.foldl
        (fun hub s => s.respond.call none hub) []) =
      [.NetDevInsertedEvent 0 "eth0" 3, .NetDevInsertedEvent 1 "eth1" 4] ∧
    ((newNetworkAddSession (sampleQemuContext "" none) 12 "eth0" "mac" 0 3).qmp.map
        (fun s => s.commands.map (fun c => mapGet c.Arguments "addr"))) =
      [[none, none, some (.str "0x3")]] := by
  decide

/-! ### C12: events delivered when a session fails -/

/-- C12: the completion built by `defaultRespond` for a callback event, called with a
non-nil error, delivers exactly one event to the Hub: the DeviceFailed event whose
Session is that callback, which is not the callback itself; for a disk-add session
the Session is the BlockdevInsertedEvent it would have delivered on success; the
quit session carries a nil callback and its successful completion delivers
nothing. -/
theorem C12_session_failure (qc : QemuContext) (hub : List VmEvent) (err : String) :
    (∀ callback, (defaultRespond callback).call (some err) hub =
        hub ++ [.DeviceFailed callback] ∧ VmEvent.DeviceFailed callback ≠ callback) ∧
    (∀ name sourceType filename format id,
      ∃ s, (newDiskAddSession qc name sourceType filename format id).qmp = qc.qmp ++ [s] ∧
        s.respond.call (some err) hub =
          hub ++ [.DeviceFailed (.BlockdevInsertedEvent name sourceType (scsiId2Name id) id)]) ∧
    (∃ s, (qmpQemuQuit qc).qmp = qc.qmp ++ [s] ∧ s.respond.callback = .nil ∧
      s.respond.call none hub = hub) := by
  refine ⟨?_, ?_, ?_⟩
  · intro callback
    refine ⟨rfl, ?_⟩
    intro h
    have := congrArg sizeOf h
    simp at this
  · intro name sourceType filename format id
    exact ⟨_, rfl, rfl⟩
  · exact ⟨_, rfl, rfl, rfl⟩

/-! ### C13: guest device names -/

theorem letter_toNat : ∀ a, a < 26 → (Char.ofNat (97 + a)).toNat = 97 + a := by
  decide

theorem letter_inj (a b : Nat) (ha : a < 26) (hb : b < 26)
    (h : Char.ofNat (97 + a) = Char.ofNat (97 + b)) : a = b := by
  have h1 := congrArg Char.toNat h
  rw [letter_toNat a ha, letter_toNat b hb] at h1
  omega

theorem DiskId2NameAux_data (fuel id : Nat) :
    (DiskId2NameAux (fuel + 1) id).data =
      if id < 26 then [Char.ofNat (97 + id % 26)]
      else (DiskId2NameAux fuel (id / 26 - 1)).data ++ [Char.ofNat (97 + id % 26)] := by
  simp only [DiskId2NameAux]
  split <;> simp [String.singleton, String.data_append]

theorem DiskId2NameAux_ne_nil (fuel id : Nat) : (DiskId2NameAux (fuel + 1) id).data ≠ [] := by
  rw [DiskId2NameAux_data]
  split <;> simp

theorem DiskId2NameAux_inj : ∀ (f1 f2 a b : Nat), a < f1 → b < f2 →
    (DiskId2NameAux f1 a).data = (DiskId2NameAux f2 b).data → a = b := by
  intro f1
  induction f1 with
  | zero => intro f2 a b ha; omega
  | succ f1 ih =>
    intro f2 a b ha hb h
    obtain ⟨f2, rfl⟩ : ∃ g, f2 = g + 1 := ⟨f2 - 1, by omega⟩
    rw [DiskId2NameAux_data, DiskId2NameAux_data] at h
    by_cases ha26 : a < 26 <;> by_cases hb26 : b < 26
    · simp only [ha26, hb26, if_true, List.cons.injEq, and_true] at h
      rw [Nat.mod_eq_of_lt ha26, Nat.mod_eq_of_lt hb26] at h
      exact letter_inj a b ha26 hb26 h
    · simp only [ha26, hb26, if_true, if_false] at h
      have hl := congrArg List.length h
      simp only [List.length_append, List.length_singleton, List.length_cons,
        List.length_nil] at hl
      obtain ⟨g, rfl⟩ : ∃ g, f2 = g + 1 := ⟨f2 - 1, by omega⟩
      exact absurd (List.length_eq_zero.1 (by omega)) (DiskId2NameAux_ne_nil g (b / 26 - 1))
    · simp only [ha26, hb26, if_true, if_false] at h
      have hl := congrArg List.length h
      simp only [List.length_append, List.length_singleton, List.length_cons,
        List.length_nil] at hl
      obtain ⟨g, rfl⟩ : ∃ g, f1 = g + 1 := ⟨f1 - 1, by omega⟩
      exact absurd (List.length_eq_zero.1 (by omega)) (DiskId2NameAux_ne_nil g (a / 26 - 1))
    · simp only [ha26, hb26, if_false] at h
      obtain ⟨h1, h2⟩ := List.append_inj' h rfl
      simp only [List.cons.injEq, and_true] at h2
      have hm := letter_inj _ _ (Nat.mod_lt a (by norm_num)) (Nat.mod_lt b (by norm_num)) h2
      have hd := ih f2 (a / 26 - 1) (b / 26 - 1) (by omega) (by omega) h1
      omega

/-- C13: `scsiId2Name` gives sda for 0, sdb for 1, sdz for 25 and sdaa for 26, and
distinct non-negative ids give distinct names. -/
theorem C13_scsi_names (a b : Int) (ha : 0 ≤ a) (hb : 0 ≤ b) :
    scsiId2Name 0 = "sda" ∧ scsiId2Name 1 = "sdb" ∧ scsiId2Name 25 = "sdz" ∧
      scsiId2Name 26 = "sdaa" ∧ (scsiId2Name a = scsiId2Name b → a = b) := by
  refine ⟨by decide, by decide, by decide, by decide, ?_⟩
  intro h
  have hd := congrArg String.data h
  simp only [scsiId2Name, String.data_append, List.append_cancel_left_eq, DiskId2Name] at hd
  have := DiskId2NameAux_inj _ _ _ _ (Nat.lt_succ_self _) (Nat.lt_succ_self _) hd
  omega

/-- C13, at ids 27 and 701: the names sdab and sdzz differ. -/
theorem C13_scsi_names_witness :
    scsiId2Name 27 = "sdab" ∧ scsiId2Name 701 = "sdzz" ∧ scsiId2Name 27 ≠ scsiId2Name 701 :=
  ⟨by decide, by decide,
    fun h => absurd ((C13_scsi_names 27 701 (by decide) (by decide)).2.2.2.2 h) (by decide)⟩

/-! ### C14: SCSI ids handed out by `lazyAddBlockDevices` -/

theorem ids_from_succ (s : Int) (n : Nat) :
    s :: (List.range n).map (fun (k : Nat) => s + 1 + (k : Int)) =
      (List.range (n + 1)).map (fun (k : Nat) => s + (k : Int)) := by
  rw [List.range_succ_eq_map]
  simp only [List.map_cons, List.map_map, Nat.cast_zero, add_zero, List.cons.injEq, true_and]
  apply List.map_congr_left
  intro k _
  simp only [Function.comp, Nat.cast_succ]
  omega

theorem lazyAddBlockDevicesLoop_spec (l : List String) :
    ∀ ctx : VmContext,
      (lazyAddBlockDevicesLoop l ctx).devices = ctx.devices ∧
      (lazyAddBlockDevicesLoop l ctx).pciAddr = ctx.pciAddr ∧
      (lazyAddBlockDevicesLoop l ctx).DCtx.interfaces = ctx.DCtx.interfaces ∧
      (lazyAddBlockDevicesLoop l ctx).scsiId =
        ctx.scsiId + ((l.filter (isPendingDisk ctx.devices)).length : Int) ∧
      (lazyAddBlockDevicesLoop l ctx).DCtx.images.map (fun i => i.scsiId) =
        ctx.DCtx.images.map (fun i => i.scsiId) ++
          (List.range (l.filter (isPendingDisk ctx.devices)).length).map
            (fun (k : Nat) => ctx.scsiId + (k : Int)) ∧
      (∃ tail, (lazyAddBlockDevicesLoop l ctx).DCtx.callbacks = ctx.DCtx.callbacks ++ tail ∧
        tail.length = (l.filter (isPendingDisk ctx.devices)).length ∧
        ∀ e ∈ tail, e.Event = .EVENT_BLOCK_INSERTED) := by
  induction l with
  | nil => intro ctx; simp [lazyAddBlockDevicesLoop]
  | cons blk rest ih =>
    intro ctx
    unfold lazyAddBlockDevicesLoop
    cases hv : mapGet ctx.devices.volumeMap blk with
    | some info =>
      have hp : isPendingDisk ctx.devices blk = true := by simp [isPendingDisk, hv]
      simp only [VmContext.nextScsiId, List.filter_cons, hp, if_true, List.length_cons]
      obtain ⟨h1, h2, h3, h4, h5, tail, h6, h7, h8⟩ := ih
        { ctx with scsiId := ctx.scsiId + 1,
                   DCtx := ctx.DCtx.LazyAddDisk info.info.Name "volume" info.info.Filename
                     info.info.Format ctx.scsiId }
      simp only at h1 h2 h3 h4 h5 h6 h7 h8
      refine ⟨h1, h2, by rw [h3]; rfl, by rw [h4]; push_cast; omega, ?_, ?_⟩
      · rw [h5, ← ids_from_succ]
        simp [QemuContext.LazyAddDisk]
      · refine ⟨VmEvent.BlockdevInsertedEvent info.info.Name "volume"
            (scsiId2Name ctx.scsiId) ctx.scsiId :: tail,
          by rw [h6]; simp [QemuContext.LazyAddDisk], by simp [h7], ?_⟩
        intro e he
        rcases List.mem_cons.1 he with h | h
        · subst h; rfl
        · exact h8 e h
    | none =>
      cases hi : mapGet ctx.devices.imageMap blk with
      | some info =>
        have hp : isPendingDisk ctx.devices blk = true := by simp [isPendingDisk, hi]
        simp only [VmContext.nextScsiId, List.filter_cons, hp, if_true, List.length_cons]
        obtain ⟨h1, h2, h3, h4, h5, tail, h6, h7, h8⟩ := ih
          { ctx with scsiId := ctx.scsiId + 1,
                     DCtx := ctx.DCtx.LazyAddDisk info.info.Name "image" info.info.Filename
                       info.info.Format ctx.scsiId }
        simp only at h1 h2 h3 h4 h5 h6 h7 h8
        refine ⟨h1, h2, by rw [h3]; rfl, by rw [h4]; push_cast; omega, ?_, ?_⟩
        · rw [h5, ← ids_from_succ]
          simp [QemuContext.LazyAddDisk]
        · refine ⟨VmEvent.BlockdevInsertedEvent info.info.Name "image"
              (scsiId2Name ctx.scsiId) ctx.scsiId :: tail,
            by rw [h6]; simp [QemuContext.LazyAddDisk], by simp [h7], ?_⟩
          intro e he
          rcases List.mem_cons.1 he with h | h
          · subst h; rfl
          · exact h8 e h
      | none =>
        have hp : isPendingDisk ctx.devices blk = false := by simp [isPendingDisk, hv, hi]
        simp only [List.filter_cons, hp]
        exact ih ctx

theorem lazyAllocateNetworksLoop_spec (H : Helpers)
    (hframe : ∀ c nic, (H.interfaceCreated c nic).scsiId = c.scsiId ∧
      (H.interfaceCreated c nic).pciAddr = c.pciAddr ∧ (H.interfaceCreated c nic).DCtx = c.DCtx)
    (l : List Int) :
    ∀ m : Machine,
      (lazyAllocateNetworksLoop H l m).2.ctx.scsiId = m.ctx.scsiId ∧
      (lazyAllocateNetworksLoop H l m).2.ctx.DCtx.images = m.ctx.DCtx.images ∧
      ((lazyAllocateNetworksLoop H l m).1 = none →
        (lazyAllocateNetworksLoop H l m).2.ctx.pciAddr = m.ctx.pciAddr + (l.length : Int) ∧
        (lazyAllocateNetworksLoop H l m).2.ctx.DCtx.interfaces.length =
          m.ctx.DCtx.interfaces.length + l.length ∧
        (lazyAllocateNetworksLoop H l m).2.calls.filter Call.isAllocate =
          m.calls.filter Call.isAllocate ++ expectedAllocCalls m.ctx.pciAddr l) := by
  induction l with
  | nil => intro m; simp [lazyAllocateNetworksLoop, expectedAllocCalls]
  | cons i rest ih =>
    intro m
    unfold lazyAllocateNetworksLoop
    simp only [VmContext.nextPciAddr]
    cases hres : H.allocateInterface { m.ctx with pciAddr := m.ctx.pciAddr + 1 } i m.ctx.pciAddr
        ("eth" ++ Itoa i) with
    | error e => simp [Machine.call]
    | ok nic =>
      simp only [Machine.call]
      obtain ⟨f1, f2, f3⟩ := hframe { m.ctx with pciAddr := m.ctx.pciAddr + 1 } nic
      obtain ⟨h1, h2, h3⟩ := ih
        { ctx := { (H.interfaceCreated { m.ctx with pciAddr := m.ctx.pciAddr + 1 } nic) with
            DCtx := (H.interfaceCreated { m.ctx with pciAddr := m.ctx.pciAddr + 1 } nic).DCtx.LazyAddNic
              (networkConfigure nic).1 (networkConfigure nic).2 },
          calls := m.calls ++ [.allocateInterface i m.ctx.pciAddr ("eth" ++ Itoa i)] ++
            [.interfaceCreated nic] }
      simp only at h1 h2 h3
      refine ⟨by rw [h1, f1], by rw [h2, f3]; rfl, ?_⟩
      intro hnone
      obtain ⟨g1, g2, g3⟩ := h3 hnone
      refine ⟨by rw [g1, f2]; simp only [List.length_cons]; push_cast; omega, ?_, ?_⟩
      · rw [g2, f3]
        simp [QemuContext.LazyAddNic]
        omega
      · rw [g3, f2]
        simp [expectedAllocCalls, Call.isAllocate, List.filter_append, List.filter_cons]

theorem lazyPrepare_eq (H : Helpers) (m : Machine) (spec : UserPod)
    (containers : List ContainerInfo) (volumes : List VolumeInfo)
    (hlen : spec.Containers.length = containers.length) :
    lazyPrepare H m spec containers volumes =
      match lazyAllocateNetworks H (initDevices H m spec containers volumes) with
      | (some e, m4) => (false, m4.call (.reportVmFault e))
      | (none, m4) => (true, lazyAddBlockDevices m4) := by
  simp [lazyPrepare, initDevices, hlen]

theorem statePreparing_run_pod_eq (H : Helpers) (m : Machine) (ev : VmEvent)
    (cmd : RunPodCommand) (hev : ev = .RunPod cmd ∨ ev = .ReplacePod cmd)
    (hlen : cmd.Spec.Containers.length = cmd.Containers.length) :
    statePreparing H m ev =
      match lazyAllocateNetworks H (initDevices H m cmd.Spec cmd.Containers cmd.Volumes) with
      | (some e, m4) => (m4.call (.reportVmFault e)).Become none "None"
      | (none, m4) =>
        (((((lazyAddBlockDevices m4).call .startSocks).call .LazyLaunch).call
          (.setTimeout 60)).Become (some .stateStarting) "STARTING") := by
  rcases hev with rfl | rfl <;>
    · simp only [statePreparing, statePreparingRunPod, lazyPrepareDevice,
        lazyPrepare_eq H m cmd.Spec cmd.Containers cmd.Volumes hlen]
      generalize lazyAllocateNetworks H (initDevices H m cmd.Spec cmd.Containers cmd.Volumes) = r
      obtain ⟨o, m4⟩ := r
      cases o <;> rfl

theorem lazyAllocateNetworksLoop_nics (H : Helpers)
    (hframe : ∀ c nic, (H.interfaceCreated c nic).scsiId = c.scsiId ∧
      (H.interfaceCreated c nic).pciAddr = c.pciAddr ∧ (H.interfaceCreated c nic).DCtx = c.DCtx)
    (l : List Int) :
    ∀ m : Machine, (lazyAllocateNetworksLoop H l m).1 = none →
      ∃ nics : List InterfaceCreated,
        List.Forall₂ (fun (a : Int × Int × String) nic =>
          ∃ c, H.allocateInterface c a.1 a.2.1 a.2.2 = .ok nic) (allocArgs m.ctx.pciAddr l) nics ∧
        (lazyAllocateNetworksLoop H l m).2.ctx.DCtx.interfaces =
          m.ctx.DCtx.interfaces ++ nics.map nicConfigOf ∧
        (lazyAllocateNetworksLoop H l m).2.ctx.DCtx.callbacks =
          m.ctx.DCtx.callbacks ++ nics.map nicInsertedOf := by
  induction l with
  | nil => intro m _; exact ⟨[], by simp [allocArgs], by simp [lazyAllocateNetworksLoop],
      by simp [lazyAllocateNetworksLoop]⟩
  | cons i rest ih =>
    intro m
    unfold lazyAllocateNetworksLoop
    simp only [VmContext.nextPciAddr]
    cases hres : H.allocateInterface { m.ctx with pciAddr := m.ctx.pciAddr + 1 } i m.ctx.pciAddr
        ("eth" ++ Itoa i) with
    | error e => simp [Machine.call]
    | ok nic =>
      simp only [Machine.call]
      obtain ⟨f1, f2, f3⟩ := hframe { m.ctx with pciAddr := m.ctx.pciAddr + 1 } nic
      intro hnone
      obtain ⟨nics, h1, h2, h3⟩ := ih
        { ctx := { (H.interfaceCreated { m.ctx with pciAddr := m.ctx.pciAddr + 1 } nic) with
            DCtx := (H.interfaceCreated { m.ctx with pciAddr := m.ctx.pciAddr + 1 } nic).DCtx.LazyAddNic
              (networkConfigure nic).1 (networkConfigure nic).2 },
          calls := m.calls ++ [.allocateInterface i m.ctx.pciAddr ("eth" ++ Itoa i)] ++
            [.interfaceCreated nic] } hnone
      simp only at h1 h2 h3
      rw [f2] at h1
      refine ⟨nic :: nics, ?_, ?_, ?_⟩
      · simp only [allocArgs]
        exact List.Forall₂.cons ⟨_, hres⟩ h1
      · rw [h2, f3]
        simp [QemuContext.LazyAddNic, networkConfigure, nicConfigOf]
      · rw [h3, f3]
        simp [QemuContext.LazyAddNic, networkConfigure, nicInsertedOf]

theorem allocArgs_echo (H : Helpers)
    (hecho : ∀ c i a n nic, H.allocateInterface c i a n = .ok nic →
      nic.Index = i ∧ nic.PCIAddr = a ∧ nic.DeviceName = n)
    (args : List (Int × Int × String)) (nics : List InterfaceCreated)
    (h : List.Forall₂ (fun (a : Int × Int × String) nic =>
      ∃ c, H.allocateInterface c a.1 a.2.1 a.2.2 = .ok nic) args nics) :
    nics.map (fun nic => (nic.Index, nic.PCIAddr, nic.DeviceName)) = args := by
  induction h with
  | nil => rfl
  | cons hx _ ih =>
    obtain ⟨c, hc⟩ := hx
    obtain ⟨e1, e2, e3⟩ := hecho _ _ _ _ _ hc
    simp only [List.map_cons, ih, e1, e2, e3]

/-- C20: while a run-pod or replace-pod command with matching counts is handled in
state Preparing (the missing `interfaceCreated` leaving the counters and the driver
context alone), the network phase assigns no SCSI id and queues no disk. If it
returns an error, the handler reports the VM fault as its last call, makes only
device-preparation calls (no launch), assigns no SCSI id and ends in the terminal
state. If it succeeds, interface `i` was allocated under the name eth`i` with the
next PCI address, one NIC was queued per interface, and only then the block devices
get their SCSI ids (the PCI counter and the queued NICs no longer change, the disk
callbacks follow the NIC callbacks); the handler then records `startSocks`,
`LazyLaunch` and `setTimeout(60)` and ends in state Starting. The NICs queued by
`LazyAddNic` are, in the order of the interfaces, those of the values that
`allocateInterface` returned for the index, the next PCI address and the name
eth`i`: each carries the descriptor, the device name, the MAC address and the PCI
address of its value, and its inserted event the index, the device name and the
PCI address; when `allocateInterface` returns the index, the address and the name
it was given, these are the index `i`, the address assigned and the name eth`i`. -/
theorem C20_run_pod_order (H : Helpers) (m : Machine) (ev : VmEvent) (cmd : RunPodCommand)
    (hev : ev = .RunPod cmd ∨ ev = .ReplacePod cmd)
    (hlen : cmd.Spec.Containers.length = cmd.Containers.length)
    (hframe : ∀ c nic, (H.interfaceCreated c nic).scsiId = c.scsiId ∧
      (H.interfaceCreated c nic).pciAddr = c.pciAddr ∧ (H.interfaceCreated c nic).DCtx = c.DCtx)
    (m3 : Machine) (hm3 : m3 = initDevices H m cmd.Spec cmd.Containers cmd.Volumes)
    (net : Option String × Machine) (hnet : net = lazyAllocateNetworks H m3) :
    net.2.ctx.scsiId = m3.ctx.scsiId ∧ net.2.ctx.DCtx.images = m3.ctx.DCtx.images ∧
    (∀ e, net.1 = some e →
      (statePreparing H m ev).calls = net.2.calls ++ [.reportVmFault e] ∧
      (∃ extra, (statePreparing H m ev).calls = m.calls ++ extra ∧
        ∀ c ∈ extra, c.isPrepare = true) ∧
      (statePreparing H m ev).ctx.current = none ∧
      (statePreparing H m ev).ctx.stateName = "None" ∧
      (statePreparing H m ev).ctx.scsiId = m3.ctx.scsiId ∧
      (statePreparing H m ev).ctx.DCtx.images = m3.ctx.DCtx.images) ∧
    (net.1 = none →
      net.2.ctx.pciAddr = m3.ctx.pciAddr + (m3.ctx.adding.networks.length : Int) ∧
      net.2.calls.filter Call.isAllocate =
        m3.calls.filter Call.isAllocate ++
          expectedAllocCalls m3.ctx.pciAddr m3.ctx.adding.networks ∧
      net.2.ctx.DCtx.interfaces.length =
        m3.ctx.DCtx.interfaces.length + m3.ctx.adding.networks.length ∧
      (statePreparing H m ev).ctx.pciAddr = net.2.ctx.pciAddr ∧
      (statePreparing H m ev).ctx.DCtx.interfaces = net.2.ctx.DCtx.interfaces ∧
      (statePreparing H m ev).ctx.scsiId = m3.ctx.scsiId +
        ((net.2.ctx.adding.blockdevs.filter (isPendingDisk net.2.ctx.devices)).length : Int) ∧
      (∃ tail, (statePreparing H m ev).ctx.DCtx.callbacks = net.2.ctx.DCtx.callbacks ++ tail ∧
        ∀ e ∈ tail, e.Event = .EVENT_BLOCK_INSERTED) ∧
      (statePreparing H m ev).calls =
        net.2.calls ++ [.startSocks, .LazyLaunch, .setTimeout 60] ∧
      (statePreparing H m ev).ctx.current = some .stateStarting ∧
      (statePreparing H m ev).ctx.stateName = "STARTING" ∧
      ∃ nics : List InterfaceCreated,
        List.Forall₂ (fun (a : Int × Int × String) nic =>
          ∃ c, H.allocateInterface c a.1 a.2.1 a.2.2 = .ok nic)
          (allocArgs m3.ctx.pciAddr m3.ctx.adding.networks) nics ∧
        (statePreparing H m ev).ctx.DCtx.interfaces =
          m3.ctx.DCtx.interfaces ++ nics.map nicConfigOf ∧
        net.2.ctx.DCtx.callbacks = m3.ctx.DCtx.callbacks ++ nics.map nicInsertedOf ∧
        ((∀ c i a n nic, H.allocateInterface c i a n = .ok nic →
            nic.Index = i ∧ nic.PCIAddr = a ∧ nic.DeviceName = n) →
          nics.map (fun nic => (nic.Index, nic.PCIAddr, nic.DeviceName)) =
            allocArgs m3.ctx.pciAddr m3.ctx.adding.networks)) := by
  subst hm3
  have hnics := lazyAllocateNetworksLoop_nics H hframe
    (initDevices H m cmd.Spec cmd.Containers cmd.Volumes).ctx.adding.networks
    (initDevices H m cmd.Spec cmd.Containers cmd.Volumes)
  have heq := statePreparing_run_pod_eq H m ev cmd hev hlen
  obtain ⟨n1, n2, n3⟩ := lazyAllocateNetworksLoop_spec H hframe
    (initDevices H m cmd.Spec cmd.Containers cmd.Volumes).ctx.adding.networks
    (initDevices H m cmd.Spec cmd.Containers cmd.Volumes)
  have hnet2 : lazyAllocateNetworks H (initDevices H m cmd.Spec cmd.Containers cmd.Volumes) =
      net := hnet.symm
  rw [hnet2] at heq
  unfold lazyAllocateNetworks at hnet2
  rw [hnet2] at n1 n2 n3 hnics
  obtain ⟨r, m4⟩ := net
  refine ⟨n1, n2, ?_, ?_⟩
  · intro e he
    simp only at he
    subst he
    simp only at heq
    have hcalls : (statePreparing H m ev).calls = m4.calls ++ [.reportVmFault e] := by
      rw [heq]; rfl
    refine ⟨hcalls, ?_, by rw [heq]; rfl, by rw [heq]; rfl, by rw [heq]; exact n1,
      by rw [heq]; exact n2⟩
    obtain ⟨extra, hx, hp⟩ := lazyPrepare_calls H m cmd.Spec cmd.Containers cmd.Volumes
    rw [lazyPrepare_eq H m cmd.Spec cmd.Containers cmd.Volumes hlen] at hx
    unfold lazyAllocateNetworks at hx
    rw [hnet2] at hx
    exact ⟨extra, by rw [hcalls]; exact hx, hp⟩
  · intro hnone
    simp only at hnone
    subst hnone
    simp only at heq
    obtain ⟨g1, g2, g3⟩ := n3 rfl
    obtain ⟨_, b2, b3, b4, _, tail, b6, _, b8⟩ :=
      lazyAddBlockDevicesLoop_spec m4.ctx.adding.blockdevs m4.ctx
    refine ⟨g1, g3, g2, by rw [heq]; exact b2, by rw [heq]; exact b3, ?_,
      ⟨tail, by rw [heq]; exact b6, b8⟩,
      by rw [heq]; simp [Machine.call, Machine.Become, lazyAddBlockDevices],
      by rw [heq]; rfl, by rw [heq]; rfl, ?_⟩
    · rw [heq]
      show (lazyAddBlockDevicesLoop m4.ctx.adding.blockdevs m4.ctx).scsiId = _
      rw [b4, n1]
    · obtain ⟨nics, k1, k2, k3⟩ := hnics rfl
      refine ⟨nics, k1, ?_, k3, fun hecho => allocArgs_echo H hecho _ _ k1⟩
      rw [heq]
      show (lazyAddBlockDevicesLoop m4.ctx.adding.blockdevs m4.ctx).DCtx.interfaces = _
      rw [b3]
      exact k2

/-- C20, at the sample machine: with allocations that succeed the run-pod command
ends in state Starting after `LazyLaunch`, the interface having got PCI address 5
under the name eth0 and its NIC being queued with the descriptor 3, the name eth0,
its MAC address and the address 5, before the disk; with allocations that fail it
ends in the terminal state. -/
theorem C20_run_pod_order_witness :
    (statePreparing sampleHelpers sampleMachine (.RunPod sampleRun)).ctx.current =
        some .stateStarting ∧
      (lazyAllocateNetworks sampleHelpers
          (initDevices sampleHelpers sampleMachine samplePod [⟨"c1"⟩]
            [⟨"vol1", "/dev/dm7", "ext4", "raw"⟩])).2.calls.filter Call.isAllocate =
        [.allocateInterface 0 5 "eth0"] ∧
      (statePreparing failingHelpers sampleMachine (.RunPod sampleRun)).ctx.current = none ∧
      (statePreparing sampleHelpers sampleMachine (.RunPod sampleRun)).ctx.DCtx.interfaces =
        [⟨3, "eth0", "52:54:00:00:00:01", 5⟩] ∧
      (statePreparing sampleHelpers sampleMachine (.RunPod sampleRun)).ctx.DCtx.callbacks =
        [.NetDevInsertedEvent 0 "eth0" 5, .BlockdevInsertedEvent "vol1" "volume" "sda" 0] :=
  ⟨((C20_run_pod_order sampleHelpers sampleMachine _ sampleRun (Or.inl rfl) (by decide)
      (fun _ _ => ⟨rfl, rfl, rfl⟩) _ rfl _ rfl).2.2.2 rfl).2.2.2.2.2.2.2.2.1,
    ((C20_run_pod_order sampleHelpers sampleMachine _ sampleRun (Or.inl rfl) (by decide)
      (fun _ _ => ⟨rfl, rfl, rfl⟩) _ rfl _ rfl).2.2.2 rfl).2.1,
    ((C20_run_pod_order failingHelpers sampleMachine _ sampleRun (Or.inl rfl) (by decide)
      (fun _ _ => ⟨rfl, rfl, rfl⟩) _ rfl _ rfl).2.2.1 "no available ip" rfl).2.2.1,
    by decide, by decide⟩

/-! ### Lemmas on Go maps -/

theorem mapGet_mapSet_self {κ ν : Type} [DecidableEq κ] (m : List (κ × ν)) (k : κ) (v : ν) :
    mapGet (mapSet m k v) k = some v := by
  induction m with
  | nil => simp [mapSet, mapGet]
  | cons e rest ih =>
    obtain ⟨k', v'⟩ := e
    by_cases h : k' = k
    · simp [mapSet, mapGet, h]
    · simp [mapSet, mapGet, h, ih]

theorem mapGet_mapSet_other {κ ν : Type} [DecidableEq κ] (m : List (κ × ν)) (k k2 : κ) (v : ν)
    (hne : k2 ≠ k) : mapGet (mapSet m k v) k2 = mapGet m k2 := by
  induction m with
  | nil => simp [mapSet, mapGet, Ne.symm hne]
  | cons e rest ih =>
    obtain ⟨k', v'⟩ := e
    by_cases h : k' = k
    · subst h
      simp [mapSet, mapGet, Ne.symm hne]
    · by_cases h2 : k' = k2
      · subst h2
        simp [mapSet, mapGet, h]
      · simp [mapSet, mapGet, h, h2, ih]

theorem mapGet_mapDelete_self {κ ν : Type} [DecidableEq κ] (m : List (κ × ν)) (k : κ) :
    mapGet (mapDelete m k) k = none := by
  induction m with
  | nil => simp [mapDelete, mapGet]
  | cons e rest ih =>
    obtain ⟨k', v'⟩ := e
    by_cases h : k' = k
    · simp [mapDelete, h, ih]
    · simp [mapDelete, mapGet, h, ih]

theorem mapGet_mapDelete_other {κ ν : Type} [DecidableEq κ] (m : List (κ × ν)) (k k2 : κ)
    (hne : k2 ≠ k) : mapGet (mapDelete m k) k2 = mapGet m k2 := by
  induction m with
  | nil => simp [mapDelete, mapGet]
  | cons e rest ih =>
    obtain ⟨k', v'⟩ := e
    by_cases h : k' = k
    · subst h
      simp [mapDelete, mapGet, Ne.symm hne, ih]
    · by_cases h2 : k' = k2
      · subst h2
        simp [mapDelete, mapGet, h]
      · simp [mapDelete, mapGet, h, h2, ih]

/-! ### Lemmas on the allocator -/

theorem getNextIPLoop_spec (L : NetLib) (al : allocatedMap) (n : Nat) :
    ∀ pos0 pos, getNextIPLoop L al n pos0 = some pos →
      mapGet al.p (L.ipString (bigIntToIP pos)) = none ∧
      (al.begin - 1 ≤ pos0 → al.begin ≤ al.end → al.begin ≤ pos ∧ pos ≤ al.end) := by
  induction n with
  | zero => intro pos0 pos h; simp [getNextIPLoop] at h
  | succ n ih =>
    intro pos0 pos h
    unfold getNextIPLoop at h
    simp only at h
    split at h
    · obtain ⟨h1, h2⟩ := ih _ _ h
      refine ⟨h1, fun hb he => h2 ?_ he⟩
      split <;> omega
    · rename_i hnone
      simp only [Option.some.injEq] at h
      subst h
      refine ⟨hnone, fun hb he => ?_⟩
      split <;> omega

theorem getNextIP_spec (L : NetLib) (al al1 : allocatedMap) (ip : List Nat)
    (h : al.getNextIP L = (.ok ip, al1)) :
    ∃ pos, ip = bigIntToIP pos ∧ mapGet al.p (L.ipString ip) = none ∧
      al1 = { al with p := mapSet al.p (L.ipString ip) (), last := pos } ∧
      al.begin ≤ al.end ∧
      (al.begin - 1 ≤ al.last → al.begin ≤ pos ∧ pos ≤ al.end) ∧
      getNextIPLoop L al (al.end - al.begin + 1).toNat al.last = some pos := by
  unfold allocatedMap.getNextIP at h
  simp only at h
  cases hl : getNextIPLoop L al (al.end - al.begin + 1).toNat al.last with
  | none => rw [hl] at h; simp at h
  | some pos =>
    rw [hl] at h
    simp only [Prod.mk.injEq, Except.ok.injEq] at h
    obtain ⟨h1, h2⟩ := h
    obtain ⟨g1, g2⟩ := getNextIPLoop_spec L al _ _ _ hl
    have hbe : al.begin ≤ al.end := by
      by_contra hc
      have : (al.end - al.begin + 1).toNat = 0 := by omega
      rw [this] at hl
      simp [getNextIPLoop] at hl
    subst h1
    exact ⟨pos, rfl, g1, h2.symm, hbe, fun hb => g2 hb hbe, rfl⟩

theorem newAllocatedMap_spec (network : IPNet) (al : allocatedMap)
    (h : newAllocatedMap network = some al) :
    ∃ f l, networkBounds network = some (f, l) ∧
      al = { p := [], begin := f + 1, «end» := l - 1, last := f + 1 - 1 } := by
  unfold newAllocatedMap at h
  unfold networkBounds
  cases hr : NetworkRange network with
  | none => rw [hr] at h; simp at h
  | some pr =>
    obtain ⟨firstIP, lastIP⟩ := pr
    rw [hr] at h
    simp only at h ⊢
    cases hf : ipToBigInt firstIP with
    | none => rw [hf] at h; simp at h
    | some f =>
      cases hl : ipToBigInt lastIP with
      | none => rw [hf, hl] at h; simp at h
      | some l =>
        rw [hf, hl] at h
        simp only [Option.some.injEq] at h
        exact ⟨f, l, rfl, h.symm⟩

theorem RequestIP_next_spec (L : NetLib) (A A1 : IPAllocator) (network : IPNet) (ip : List Nat)
    (h : A.RequestIP L network [] = (.ok ip, A1)) :
    ∃ al pos,
      (mapGet A.allocatedIPs (L.netString network) = some al ∨
        (mapGet A.allocatedIPs (L.netString network) = none ∧
          newAllocatedMap network = some al)) ∧
      ip = bigIntToIP pos ∧ mapGet al.p (L.ipString ip) = none ∧
      mapGet A1.allocatedIPs (L.netString network) =
        some { al with p := mapSet al.p (L.ipString ip) (), last := pos } ∧
      al.begin ≤ al.end ∧
      (al.begin - 1 ≤ al.last → al.begin ≤ pos ∧ pos ≤ al.end) ∧
      getNextIPLoop L al (al.end - al.begin + 1).toNat al.last = some pos := by
  unfold IPAllocator.RequestIP at h
  simp only [if_true] at h
  cases hk : mapGet A.allocatedIPs (L.netString network) with
  | some al =>
    rw [hk] at h
    simp only at h
    cases hg : al.getNextIP L with
    | mk r al1 =>
      rw [hg] at h
      cases r with
      | error e => simp at h
      | ok r =>
        simp only [Prod.mk.injEq, Outcome.ok.injEq] at h
        obtain ⟨rfl, rfl⟩ := h
        obtain ⟨pos, g1, g2, g3, g4, g5, g6⟩ := getNextIP_spec L al al1 r hg
        exact ⟨al, pos, Or.inl rfl, g1, g2, by rw [mapGet_mapSet_self, g3], g4, g5, g6⟩
  | none =>
    rw [hk] at h
    simp only at h
    cases hn : newAllocatedMap network with
    | none => rw [hn] at h; simp at h
    | some al =>
      rw [hn] at h
      simp only at h
      cases hg : al.getNextIP L with
      | mk r al1 =>
        rw [hg] at h
        cases r with
        | error e => simp at h
        | ok r =>
          simp only [Prod.mk.injEq, Outcome.ok.injEq] at h
          obtain ⟨rfl, rfl⟩ := h
          obtain ⟨pos, g1, g2, g3, g4, g5, g6⟩ := getNextIP_spec L al al1 r hg
          exact ⟨al, pos, Or.inr ⟨rfl, rfl⟩, g1, g2, by rw [mapGet_mapSet_self, g3], g4, g5, g6⟩

/-! ### Lemmas on the next available address, in terms of keys -/

/-- On the keys of the allocated set: when `RequestIP(network, nil)` returns an address, with `al` the allocated
set it worked on (the stored one, or a fresh one for a network seen for the first
time): the address is `bigIntToIP(pos)` for a position `pos`, it was not allocated
before the call, it is recorded as allocated afterwards in the stored set, whose
`last` is `pos` and whose bounds are unchanged; if the bounds of `al` lie within the
network, `pos` lies strictly between the first and the last address of the network;
on a fresh network `pos` is first+1; and a second such request on the resulting
state returns a different address. -/
theorem RequestIP_next_key (L : NetLib) (A A1 : IPAllocator) (network : IPNet)
    (ip : List Nat) (h : A.RequestIP L network [] = (.ok ip, A1)) :
    ∃ al pos,
      (mapGet A.allocatedIPs (L.netString network) = some al ∨
        (mapGet A.allocatedIPs (L.netString network) = none ∧
          newAllocatedMap network = some al)) ∧
      ip = bigIntToIP pos ∧
      mapGet al.p (L.ipString ip) = none ∧
      (∃ al1, mapGet A1.allocatedIPs (L.netString network) = some al1 ∧
        mapGet al1.p (L.ipString ip) = some () ∧ al1.last = pos ∧
        al1.begin = al.begin ∧ al1.end = al.end) ∧
      (∀ f l, networkBounds network = some (f, l) → al.begin - 1 ≤ al.last →
        f + 1 ≤ al.begin → al.end ≤ l - 1 → f < pos ∧ pos < l) ∧
      (mapGet A.allocatedIPs (L.netString network) = none →
        ∃ f l, networkBounds network = some (f, l) ∧ pos = f + 1 ∧ f < pos ∧ pos < l) ∧
      (∀ ip2 A2, A1.RequestIP L network [] = (.ok ip2, A2) → ip2 ≠ ip) := by
  obtain ⟨al, pos, hal, g1, g2, g3, g4, g5, g6⟩ := RequestIP_next_spec L A A1 network ip h
  refine ⟨al, pos, hal, g1, g2, ⟨_, g3, mapGet_mapSet_self _ _ _, rfl, rfl, rfl⟩, ?_, ?_, ?_⟩
  · intro f l _ hb hf hl
    obtain ⟨b1, b2⟩ := g5 hb
    constructor <;> omega
  · intro hk
    rcases hal with hs | ⟨_, hn⟩
    · rw [hk] at hs; cases hs
    · obtain ⟨f, l, hbd, hal2⟩ := newAllocatedMap_spec network al hn
      subst hal2
      simp only at g4 g5 g6
      obtain ⟨n, hn2⟩ : ∃ n, (l - 1 - (f + 1) + 1).toNat = n + 1 :=
        ⟨(l - 1 - (f + 1) + 1).toNat - 1, by omega⟩
      rw [hn2] at g6
      simp only [getNextIPLoop, mapGet] at g6
      have hpos : pos = f + 1 := by
        split at g6
        · simp only [Option.some.injEq] at g6; omega
        · simp only [Option.some.injEq] at g6; omega
      exact ⟨f, l, hbd, hpos, by omega, by omega⟩
  · intro ip2 A2 h2 heq
    obtain ⟨al2, pos2, hal2, _, k2, _⟩ := RequestIP_next_spec L A1 A2 network ip2 h2
    rcases hal2 with hs | ⟨hn, _⟩
    · rw [g3] at hs
      simp only [Option.some.injEq] at hs
      subst hs
      rw [heq] at k2
      simp only at k2
      rw [mapGet_mapSet_self] at k2
      cases k2
    · rw [g3] at hn; cases hn

/-- At the fresh network 192.168.123.0/24: the first request returns
192.168.123.1 and the second 192.168.123.2. -/
theorem RequestIP_next_key_example :
    (IPAllocator.RequestIP sampleNetLib ⟨[]⟩ sampleNet []).1 = .ok [192, 168, 123, 1] ∧
      (IPAllocator.RequestIP sampleNetLib
        (IPAllocator.RequestIP sampleNetLib ⟨[]⟩ sampleNet []).2 sampleNet []).1 =
          .ok [192, 168, 123, 2] ∧
      ∀ ip2 A2, IPAllocator.RequestIP sampleNetLib
          (IPAllocator.RequestIP sampleNetLib ⟨[]⟩ sampleNet []).2 sampleNet [] = (.ok ip2, A2) →
        ip2 ≠ [192, 168, 123, 1] :=
  ⟨by decide, by decide,
    (RequestIP_next_key sampleNetLib ⟨[]⟩
      (IPAllocator.RequestIP sampleNetLib ⟨[]⟩ sampleNet []).2 sampleNet [192, 168, 123, 1]
      (by decide)).elim (fun _ hx => hx.elim (fun _ hy => hy.2.2.2.2.2.2))⟩

/-! ### Lemmas on requesting a given address, in terms of keys -/

theorem RequestIP_check_spec (L : NetLib) (A : IPAllocator) (network : IPNet) (ip : List Nat)
    (al : allocatedMap) (hip : ip ≠ [])
    (hal : mapGet A.allocatedIPs (L.netString network) = some al ∨
      (mapGet A.allocatedIPs (L.netString network) = none ∧ newAllocatedMap network = some al)) :
    (A.RequestIP L network ip).1 = (al.checkIP L ip).1 ∧
      mapGet (A.RequestIP L network ip).2.allocatedIPs (L.netString network) =
        some (al.checkIP L ip).2 := by
  unfold IPAllocator.RequestIP
  rcases hal with hs | ⟨hn, hnew⟩
  · simp only [hs, hip, if_false]
    exact ⟨trivial, mapGet_mapSet_self _ _ _⟩
  · simp only [hn, hnew, hip, if_false]
    exact ⟨trivial, mapGet_mapSet_self _ _ _⟩

/-- On the keys of the allocated set: for a non-nil, well-formed address `ip` at position `pos`, with `al` the
allocated set the request works on: if `ip` is currently allocated `RequestIP`
returns ErrIPAlreadyAllocated; if it is not allocated and `pos` is below begin or
above end it returns ErrIPOutOfRange; in both cases the stored set afterwards is
`al` unchanged; otherwise it returns `ip` and the stored set is `al` with `ip`
recorded. After `ReleaseIP(network, ip)` a request for an in-range `ip` succeeds. -/
theorem RequestIP_given_key (L : NetLib) (A : IPAllocator) (network : IPNet) (ip : List Nat)
    (al : allocatedMap) (pos : Int) (hip : ip ≠ []) (hpos : ipToBigInt ip = some pos)
    (hal : mapGet A.allocatedIPs (L.netString network) = some al ∨
      (mapGet A.allocatedIPs (L.netString network) = none ∧ newAllocatedMap network = some al)) :
    (mapGet al.p (L.ipString ip) = some () →
      (A.RequestIP L network ip).1 = .err ErrIPAlreadyAllocated ∧
      mapGet (A.RequestIP L network ip).2.allocatedIPs (L.netString network) = some al) ∧
    (mapGet al.p (L.ipString ip) = none → (pos < al.begin ∨ pos > al.end) →
      (A.RequestIP L network ip).1 = .err ErrIPOutOfRange ∧
      mapGet (A.RequestIP L network ip).2.allocatedIPs (L.netString network) = some al) ∧
    (mapGet al.p (L.ipString ip) = none → al.begin ≤ pos → pos ≤ al.end →
      (A.RequestIP L network ip).1 = .ok ip ∧
      mapGet (A.RequestIP L network ip).2.allocatedIPs (L.netString network) =
        some { al with p := mapSet al.p (L.ipString ip) () }) ∧
    (al.begin ≤ pos → pos ≤ al.end →
      ((A.ReleaseIP L network ip).RequestIP L network ip).1 = .ok ip) := by
  obtain ⟨r1, r2⟩ := RequestIP_check_spec L A network ip al hip hal
  refine ⟨?_, ?_, ?_, ?_⟩
  · intro hin
    rw [r1, r2]
    simp [allocatedMap.checkIP, hin]
  · intro hout hrange
    rw [r1, r2]
    simp [allocatedMap.checkIP, hout, hpos, hrange]
  · intro hout hb he
    rw [r1, r2]
    have hnot : ¬(pos < al.begin ∨ pos > al.end) := by omega
    simp [allocatedMap.checkIP, hout, hpos, hnot]
  · intro hb he
    have hnot : ¬(pos < al.begin ∨ pos > al.end) := by omega
    rcases hal with hs | ⟨hn, hnew⟩
    · have hrel : mapGet (A.ReleaseIP L network ip).allocatedIPs (L.netString network) =
          some { al with p := mapDelete al.p (L.ipString ip) } := by
        simp [IPAllocator.ReleaseIP, hs, mapGet_mapSet_self]
      obtain ⟨q1, _⟩ := RequestIP_check_spec L (A.ReleaseIP L network ip) network ip _ hip
        (Or.inl hrel)
      rw [q1]
      simp [allocatedMap.checkIP, mapGet_mapDelete_self, hpos, hnot]
    · have hrel : A.ReleaseIP L network ip = A := by
        simp [IPAllocator.ReleaseIP, hn]
      rw [hrel]
      obtain ⟨f, l, _, hal2⟩ := newAllocatedMap_spec network al hnew
      obtain ⟨q1, _⟩ := RequestIP_check_spec L A network ip al hip (Or.inr ⟨hn, hnew⟩)
      rw [q1]
      have hp : al.p = [] := by rw [hal2]
      simp [allocatedMap.checkIP, hp, mapGet, hpos, hnot]

/-- On the network 192.168.123.0/24: 192.168.123.7 is granted once, refused as
already allocated the second time, granted again after its release, and
192.168.124.7 is out of range. -/
theorem RequestIP_given_key_example :
    (IPAllocator.RequestIP sampleNetLib ⟨[]⟩ sampleNet [192, 168, 123, 7]).1 =
        .ok [192, 168, 123, 7] ∧
      (IPAllocator.RequestIP sampleNetLib
        (IPAllocator.RequestIP sampleNetLib ⟨[]⟩ sampleNet [192, 168, 123, 7]).2
        sampleNet [192, 168, 123, 7]).1 = .err ErrIPAlreadyAllocated ∧
      (IPAllocator.RequestIP sampleNetLib
        (IPAllocator.ReleaseIP sampleNetLib
          (IPAllocator.RequestIP sampleNetLib ⟨[]⟩ sampleNet [192, 168, 123, 7]).2
          sampleNet [192, 168, 123, 7])
        sampleNet [192, 168, 123, 7]).1 = .ok [192, 168, 123, 7] ∧
      (IPAllocator.RequestIP sampleNetLib ⟨[]⟩ sampleNet [192, 168, 124, 7]).1 =
        .err ErrIPOutOfRange :=
  ⟨((RequestIP_given_key sampleNetLib ⟨[]⟩ sampleNet [192, 168, 123, 7]
      ⟨[], 3232267008, 3232267009, 3232267262⟩ 3232267015 (by decide) (by decide)
      (Or.inr ⟨rfl, by decide⟩)).2.2.1 rfl (by decide) (by decide)).1,
    ((RequestIP_given_key sampleNetLib
      (IPAllocator.RequestIP sampleNetLib ⟨[]⟩ sampleNet [192, 168, 123, 7]).2
      sampleNet [192, 168, 123, 7]
      ⟨[("192.168.123.7", ())], 3232267008, 3232267009, 3232267262⟩ 3232267015
      (by decide) (by decide) (Or.inl (by decide))).1 (by decide)).1,
    (RequestIP_given_key sampleNetLib
      (IPAllocator.RequestIP sampleNetLib ⟨[]⟩ sampleNet [192, 168, 123, 7]).2
      sampleNet [192, 168, 123, 7]
      ⟨[("192.168.123.7", ())], 3232267008, 3232267009, 3232267262⟩ 3232267015
      (by decide) (by decide) (Or.inl (by decide))).2.2.2 (by decide) (by decide),
    ((RequestIP_given_key sampleNetLib ⟨[]⟩ sampleNet [192, 168, 124, 7]
      ⟨[], 3232267008, 3232267009, 3232267262⟩ 3232267271 (by decide) (by decide)
      (Or.inr ⟨rfl, by decide⟩)).2.1 rfl (Or.inr (by decide))).1⟩

/-! ### C15: migrating a pod whose VM was never started -/

/-- For an unknown pod id `MigratePod` returns an error and leaves the daemon as it
was: nothing is sent. -/
theorem MigratePod_unknown_pod (E : DaemonEnv) (d : Daemon) (podId ip port : String)
    (h : mapGet d.PodList podId = none) :
    d.MigratePod E podId ip port =
      some ((-1, "", some ("Can not find pod(" ++ podId ++ ")")), d) := by
  simp [Daemon.MigratePod, h]

/-- For a registered pod whose VM is nil, `MigratePod` first runs the three
`sendMata` calls and then returns E_VM_SHUTDOWN with a nil error; the registries and
the store are unchanged. -/
theorem MigratePod_nil_vm (E : DaemonEnv) (d d1 : Daemon) (pod : Pod) (podId ip port : String)
    (r : Int × String × Option String)
    (h : mapGet d.PodList podId = some pod) (hvm : pod.vm = none)
    (hr : d.MigratePod E podId ip port = some (r, d1)) :
    r = (E.E_VM_SHUTDOWN, "", none) ∧ d1.PodList = d.PodList ∧ d1.VmList = d.VmList ∧
      d1.db = d.db ∧ d1.calls = d.calls ∧
      ∃ e1 c1 e2 c2 e3,
        sendMata E d.conns podId ip port = some (e1, c1) ∧
        sendMata E c1 (d.GetPodByName podId).1 ip port = some (e2, c2) ∧
        sendMata E c2 ((mapGet d.db ("pod-container-" ++ podId)).getD "") ip port =
          some (e3, d1.conns) := by
  unfold Daemon.MigratePod at hr
  simp only [h] at hr
  cases h1 : sendMata E d.conns podId ip port with
  | none => simp [h1] at hr
  | some r1 =>
    obtain ⟨e1, c1⟩ := r1
    simp only [h1] at hr
    cases h2 : sendMata E c1 (d.GetPodByName podId).1 ip port with
    | none => simp [h2] at hr
    | some r2 =>
      obtain ⟨e2, c2⟩ := r2
      simp only [h2] at hr
      cases h3 : sendMata E c2 ((mapGet d.db ("pod-container-" ++ podId)).getD "") ip port with
      | none => simp [h3] at hr
      | some r3 =>
        obtain ⟨e3, c3⟩ := r3
        simp only [h3, hvm, Option.some.injEq, Prod.mk.injEq] at hr
        obtain ⟨rfl, rfl⟩ := hr
        exact ⟨rfl, rfl, rfl, rfl, rfl, e1, c1, e2, c2, e3, rfl, h2, h3⟩

/-- C15 (code evaluated at the failing input): for the registered pod `pod-7` whose
VM was never started, `MigratePod` returns E_VM_SHUTDOWN with a nil error after
having opened three connections to the destination and written the pod id, the pod
arguments and the container ids on them. -/
theorem C15_migrate_never_started :
    sampleDaemon.MigratePod sampleDaemonEnv "pod-7" "10.0.0.2" "4444" =
      some ((1, "", none),
        { sampleDaemon with
          conns := [⟨"10.0.0.2:4444", "pod-7"⟩, ⟨"10.0.0.2:4444", "pod-args"⟩,
            ⟨"10.0.0.2:4444", "c1"⟩] }) := by
  decide

/-! ### Lemmas on receiving a migrated pod -/

theorem UpdateVmData_calls (d : Daemon) (vmId data : String) :
    (d.UpdateVmData vmId data).calls = d.calls := by
  unfold Daemon.UpdateVmData
  split <;> rfl

theorem UpdateVmByPod_calls (d : Daemon) (podId vmId : String) :
    (d.UpdateVmByPod podId vmId).calls = d.calls := by
  unfold Daemon.UpdateVmByPod
  split <;> rfl

theorem WritePodToDB_calls (d : Daemon) (podName podData : String) :
    (d.WritePodToDB podName podData).calls = d.calls := by
  unfold Daemon.WritePodToDB
  split <;> rfl

theorem WritePodAndContainers_calls (d : Daemon) (podId : String) :
    (d.WritePodAndContainers podId).2.calls = d.calls := by
  unfold Daemon.WritePodAndContainers
  split <;> rfl

theorem AddPod_calls (d : Daemon) (pod : Pod) (podArgs : String) :
    (d.AddPod pod podArgs).2.calls = d.calls := by
  unfold Daemon.AddPod
  simp only
  split
  · rename_i e d3 heq
    have h := congrArg (fun r => r.2.calls) heq
    simp only [WritePodAndContainers_calls, WritePodToDB_calls] at h
    simp [Daemon.RemovePod, Daemon.DeletePodFromDB, ← h]
  · rename_i d3 heq
    have h := congrArg (fun r => r.2.calls) heq
    simp only [WritePodAndContainers_calls, WritePodToDB_calls] at h
    simp [← h]

theorem GetPod_calls (E : DaemonEnv) (d : Daemon) (podId podArgs : String) (autoremove : Bool) :
    ∃ t, (d.GetPod E podId podArgs autoremove).2.calls = d.calls ++ t ∧
      ∀ c ∈ t, c.isRestore = false ∧ c.isVm = false := by
  unfold Daemon.GetPod
  by_cases ha : podArgs = ""
  · simp only [ha, if_true]
    split <;> exact ⟨[], by simp, by simp⟩
  · simp only [ha, if_false]
    refine ⟨[.CreatePod podId podArgs], ?_, ?_⟩
    · cases hc : E.CreatePod (d.call (.CreatePod podId podArgs)) podId podArgs autoremove with
      | error e => rfl
      | ok pod =>
        simp only
        have h := AddPod_calls (d.call (.CreatePod podId podArgs)) pod podArgs
        split
        · rename_i e d2 heq
          rw [heq] at h
          exact h
        · rename_i d2 heq
          rw [heq] at h
          exact h
    · intro c hc
      simp only [List.mem_singleton] at hc
      subst hc
      exact ⟨rfl, rfl⟩

theorem Listen_calls (E : DaemonEnv) (p : Pod) (d : Daemon) (ip port vmId : String)
    (lazyMode : Bool) (keep : Int) :
    ∃ t, (p.Listen E d ip port vmId lazyMode keep).2.calls = d.calls ++ t ∧
      ∀ c ∈ t, c.isRestore = false := by
  unfold Pod.Listen
  simp only
  cases E.GetVM (d.call (.GetVM p.id vmId)) p vmId lazyMode keep with
  | error e => exact ⟨[.GetVM p.id vmId], rfl, by simp [DaemonCall.isRestore]⟩
  | ok vm =>
    simp only
    cases E.Prepare _ _ with
    | some e =>
      by_cases hv : vmId = ""
      · exact ⟨[.GetVM p.id vmId, .Prepare p.id, .KillVM p.id],
          by simp [Daemon.call, hv], by simp [DaemonCall.isRestore]⟩
      · exact ⟨[.GetVM p.id vmId, .Prepare p.id],
          by simp [Daemon.call, hv], by simp [DaemonCall.isRestore]⟩
    | none =>
      simp only
      cases E.startLogging _ _ with
      | some e =>
        by_cases hv : vmId = ""
        · exact ⟨[.GetVM p.id vmId, .Prepare p.id, .startLogging p.id, .stopLogger p.id,
            .KillVM p.id], by simp [Daemon.call, hv], by simp [DaemonCall.isRestore]⟩
        · exact ⟨[.GetVM p.id vmId, .Prepare p.id, .startLogging p.id, .stopLogger p.id],
            by simp [Daemon.call, hv], by simp [DaemonCall.isRestore]⟩
      | none =>
        simp only
        cases E.AttachTtys _ _ with
        | some e =>
          by_cases hv : vmId = ""
          · exact ⟨[.GetVM p.id vmId, .Prepare p.id, .startLogging p.id, .AttachTtys p.id,
              .stopLogger p.id, .KillVM p.id],
              by simp [Daemon.call, hv], by simp [DaemonCall.isRestore]⟩
          · exact ⟨[.GetVM p.id vmId, .Prepare p.id, .startLogging p.id, .AttachTtys p.id,
              .stopLogger p.id], by simp [Daemon.call, hv], by simp [DaemonCall.isRestore]⟩
        | none =>
          exact ⟨[.GetVM p.id vmId, .Prepare p.id, .startLogging p.id, .AttachTtys p.id,
            .vmListenPod vm.Id ip port],
            by simp [Daemon.call, UpdateVmData_calls, UpdateVmByPod_calls],
            by simp [DaemonCall.isRestore]⟩

/-- The calls made by `ListenPod` after the restore step: only `GetPod` and
`Pod.Listen` calls, none of them a restore. -/
theorem ListenPod_tail_calls (E : DaemonEnv) (d3 : Daemon) (podId podArgs ip port vmId : String)
    (lazyMode autoremove : Bool) (keep : Int) :
    ∃ t, (match d3.GetPod E podId podArgs autoremove with
        | (.error e, d4) =>
          ((.ok (-1, "", some e), d4) : Outcome (Int × String × Option String) × Daemon)
        | (.ok p, d4) =>
          match p.Listen E d4 ip port vmId lazyMode keep with
          | (some e, d5) => (.ok (-1, "", some e), d5)
          | (none, d5) => (.ok (0, "", none), d5)).2.calls = d3.calls ++ t ∧
      ∀ c ∈ t, c.isRestore = false := by
  obtain ⟨t1, h1, p1⟩ := GetPod_calls E d3 podId podArgs autoremove
  cases hg : d3.GetPod E podId podArgs autoremove with
  | mk r d4 =>
    rw [hg] at h1
    cases r with
    | error e => exact ⟨t1, h1, fun c hc => (p1 c hc).1⟩
    | ok p =>
      simp only
      obtain ⟨t2, h2, p2⟩ := Listen_calls E p d4 ip port vmId lazyMode keep
      cases hl : p.Listen E d4 ip port vmId lazyMode keep with
      | mk o d5 =>
        rw [hl] at h2
        simp only at h1 h2
        have hall : ∀ c ∈ t1 ++ t2, c.isRestore = false := by
          intro c hc
          rcases List.mem_append.1 hc with h | h
          · exact (p1 c h).1
          · exact p2 c h
        cases o with
        | some e => exact ⟨t1 ++ t2, by simp [h2, h1], hall⟩
        | none => exact ⟨t1 ++ t2, by simp [h2, h1], hall⟩

/-- On migration receive, for a received pod specification with at least one
container: if the pod id already exists locally `ListenPod` returns an error and
leaves the daemon as it was (no restore call, nothing written to the store, no VM
started); if the pod id is new, the calls it makes are `GetContainerInfo` for the
received container id, then exactly one `SendCmdRestore` if the container is unknown
and none if it is known, then calls none of which is a restore, so that every
listen-pod call comes after the restore; and when the restore fails nothing else
is called. -/
theorem ListenPod_parsed (E : DaemonEnv) (d : Daemon) (pId pArgs cId ip port vmId : String)
    (lazyMode autoremove : Bool) (keep : Int) (spec : UserPod) (c0 : UserContainer)
    (rest : List UserContainer)
    (hspec : E.ProcessPodBytes pArgs pId = some spec) (hc : spec.Containers = c0 :: rest) :
    (∀ p, mapGet d.PodList pId = some p →
      d.ListenPod E pId pArgs cId ip port vmId lazyMode autoremove keep =
        (.ok (-1, "", some ("The pos has existed(" ++ pId ++ ")")), d)) ∧
    (mapGet d.PodList pId = none →
      (∃ tail, (d.ListenPod E pId pArgs cId ip port vmId lazyMode autoremove keep).2.calls =
          d.calls ++ ([.GetContainerInfo cId] ++
            ((if E.GetContainerInfo cId then [] else [.SendCmdRestore c0.Name c0.Image cId]) ++
              tail)) ∧
        ∀ c ∈ tail, c.isRestore = false) ∧
      (E.GetContainerInfo cId = false → E.SendCmdRestore c0.Name c0.Image cId ≠ none →
        d.ListenPod E pId pArgs cId ip port vmId lazyMode autoremove keep =
          (.ok (-1, "", some ("Restore Container(" ++ cId ++ ") error")),
            (d.call (.GetContainerInfo cId)).call (.SendCmdRestore c0.Name c0.Image cId)))) := by
  constructor
  · intro p hp
    simp [Daemon.ListenPod, hspec, hc, hp]
  · intro hnone
    constructor
    · unfold Daemon.ListenPod
      simp only [hspec, hc, hnone]
      by_cases hk : E.GetContainerInfo cId = true
      · simp only [hk, if_true]
        obtain ⟨t, h1, h2⟩ := ListenPod_tail_calls E
          { d.call (.GetContainerInfo cId) with
            db := mapSet (d.call (.GetContainerInfo cId)).db ("pod-container-" ++ pId) cId }
          pId pArgs ip port vmId lazyMode autoremove keep
        exact ⟨t, by rw [h1]; simp [Daemon.call], h2⟩
      · simp only [hk, if_false, Bool.false_eq_true]
        cases hr : E.SendCmdRestore c0.Name c0.Image cId with
        | some e => exact ⟨[], by simp [Daemon.call], by simp⟩
        | none =>
          simp only
          obtain ⟨t, h1, h2⟩ := ListenPod_tail_calls E
            { (d.call (.GetContainerInfo cId)).call (.SendCmdRestore c0.Name c0.Image cId) with
              db := mapSet ((d.call (.GetContainerInfo cId)).call
                (.SendCmdRestore c0.Name c0.Image cId)).db ("pod-container-" ++ pId) cId }
            pId pArgs ip port vmId lazyMode autoremove keep
          exact ⟨t, by rw [h1]; simp [Daemon.call], h2⟩
    · intro hk hr
      cases hs : E.SendCmdRestore c0.Name c0.Image cId with
      | none => exact absurd hs hr
      | some e => simp [Daemon.ListenPod, hspec, hc, hnone, hk, hs]

/-- At an empty daemon and at the daemon where `pod-7` exists: the new pod makes
exactly one restore call, before the VM gets listen-pod; the existing pod is
rejected and nothing is called. -/
theorem ListenPod_parsed_example :
    (emptyDaemon.ListenPod sampleDaemonEnv "pod-7" "pod-args" "c1" "10.0.0.2" "4444" ""
        true false 0).2.calls =
      [.GetContainerInfo "c1", .SendCmdRestore "web" "image:latest" "c1",
        .CreatePod "pod-7" "pod-args", .GetVM "pod-7" "", .Prepare "pod-7",
        .startLogging "pod-7", .AttachTtys "pod-7", .vmListenPod "vm-1" "10.0.0.2" "4444"] ∧
    sampleDaemon.ListenPod sampleDaemonEnv "pod-7" "pod-args" "c1" "10.0.0.2" "4444" ""
        true false 0 = (.ok (-1, "", some "The pos has existed(pod-7)"), sampleDaemon) :=
  ⟨by decide,
    (ListenPod_parsed sampleDaemonEnv sampleDaemon "pod-7" "pod-args" "c1" "10.0.0.2" "4444" ""
      true false 0 samplePod ⟨"web", "image:latest"⟩ [] rfl rfl).1 _ rfl⟩

/-! ### C17: decoding inbound QMP messages -/

/-- C17: decoding succeeds and gives a Result for every message with a `return`
field, an Error for a message with an `error` field and no `return`, and an Event
for a message with an `event` tag and neither of the other two; in particular for
the four messages of the driver test. -/
theorem C17_message_kinds (fields : List (String × Json)) :
    (∀ r, mapGet fields "return" = some r →
      ∃ m, decodeQmpResponse (.obj fields) = .ok m ∧ m.MessageType = .QMP_RESULT) ∧
    (∀ e, mapGet fields "return" = none → mapGet fields "error" = some e →
      ∃ m, decodeQmpResponse (.obj fields) = .ok m ∧ m.MessageType = .QMP_ERROR) ∧
    (∀ tag, mapGet fields "return" = none → mapGet fields "error" = none →
      mapGet fields "event" = some (.str tag) →
      ∃ m, decodeQmpResponse (.obj fields) = .ok m ∧ m.MessageType = .QMP_EVENT) ∧
    (∃ m, decodeQmpResponse (.obj [("return", .obj [])]) = .ok m ∧
      m.MessageType = .QMP_RESULT) ∧
    (∃ m, decodeQmpResponse (.obj [("return", .str "OK\r\n")]) = .ok m ∧
      m.MessageType = .QMP_RESULT) ∧
    (∃ m, decodeQmpResponse (.obj
        [("timestamp", .obj [("seconds", .num 1429545058), ("microseconds", .num 283331)]),
          ("event", .str "NIC_RX_FILTER_CHANGED"),
          ("data", .obj [("path", .str "/machine/peripheral-anon/device[1]/virtio-backend")])])
        = .ok m ∧ m.MessageType = .QMP_EVENT) ∧
    (∃ m, decodeQmpResponse (.obj
        [("error", .obj [("class", .str "GenericError"),
          ("desc", .str "QMP input object member server is unexpected")])]) = .ok m ∧
      m.MessageType = .QMP_ERROR) := by
  refine ⟨?_, ?_, ?_, ⟨_, rfl, rfl⟩, ⟨_, rfl, rfl⟩, ⟨_, rfl, rfl⟩, ⟨_, rfl, rfl⟩⟩
  · intro r h
    exact ⟨.QmpResult r, by simp [decodeQmpResponse, h], rfl⟩
  · intro e h1 h2
    exact ⟨.QmpError e, by simp [decodeQmpResponse, h1, h2], rfl⟩
  · intro tag h1 h2 h3
    exact ⟨.QmpEvent tag fields, by simp [decodeQmpResponse, h1, h2, h3], rfl⟩

/-- C17, at a message carrying only an event tag. -/
theorem C17_message_kinds_witness :
    ∃ m, decodeQmpResponse (.obj [("event", .str "SHUTDOWN")]) = .ok m ∧
      m.MessageType = .QMP_EVENT :=
  (C17_message_kinds [("event", .str "SHUTDOWN")]).2.2.1 "SHUTDOWN" rfl rfl rfl

/-! ### C21: the queued attach requests -/

theorem splitChars_ne_nil (sep : Char) (cs : List Char) : splitChars sep cs ≠ [] := by
  cases cs with
  | nil => simp [splitChars]
  | cons c cs =>
    unfold splitChars
    split
    · simp
    · split <;> simp

theorem addMonitor_tail (ms : List String) :
    ∀ (k : Nat) (acc : String),
      (ms.enumFrom (k + 1)).foldl addMonitor acc =
        String.intercalate.go acc ";" (ms.map (fun m => stringsReplace m ':' "\\:")) := by
  induction ms with
  | nil => intro k acc; simp [String.intercalate.go]
  | cons m rest ih =>
    intro k acc
    simp only [List.enumFrom, List.foldl_cons, List.map_cons, String.intercalate.go]
    rw [ih (k + 1)]
    simp [addMonitor]

theorem intercalate_go_prefix (p s : String) (l : List String) :
    ∀ x, String.intercalate.go (p ++ x) s l = p ++ String.intercalate.go x s l := by
  induction l with
  | nil => intro x; simp [String.intercalate.go]
  | cons a l ih =>
    intro x
    simp only [String.intercalate.go]
    rw [← ih (x ++ s ++ a)]
    simp [String.append_assoc]

theorem addMonitor_all (ms : List String) (hne : ms ≠ []) (filename : String) :
    ms.enum.foldl addMonitor filename =
      filename ++ ":mon_host=" ++
        String.intercalate ";" (ms.map (fun m => stringsReplace m ':' "\\:")) := by
  cases ms with
  | nil => exact absurd rfl hne
  | cons m rest =>
    simp only [List.enum, List.enumFrom, List.foldl_cons, List.map_cons, String.intercalate]
    rw [addMonitor_tail rest 0]
    simp only [addMonitor, if_true]
    exact intercalate_go_prefix _ _ _ _

/-- C22: `AddDisk` forwards the name, the source type, the format and the SCSI id
unchanged to the disk-add session. The filename is forwarded unchanged unless the
format is rbd and the options are not nil; for rbd with options it is extended by
`:id=<user>:key=<keyring>` only when both are non-empty, and then by `:mon_host=`
followed by the monitors, split at the semicolons and joined again by semicolons,
with every colon in a monitor replaced by a backslash and a colon. -/
theorem C22_add_disk_filename (qc : QemuContext) (sourceType : String)
    (blockInfo : BlockDescriptor) :
    (blockInfo.Format ≠ "rbd" ∨ blockInfo.Options = none →
      qc.AddDisk sourceType blockInfo =
        newDiskAddSession qc blockInfo.Name sourceType blockInfo.Filename
          blockInfo.Format blockInfo.ScsiId) ∧
    (∀ options, blockInfo.Format = "rbd" → blockInfo.Options = some options →
      qc.AddDisk sourceType blockInfo =
        newDiskAddSession qc blockInfo.Name sourceType
          (blockInfo.Filename ++
            (if (mapGet options "user").getD "" ≠ "" ∧ (mapGet options "keyring").getD "" ≠ ""
             then ":id=" ++ (mapGet options "user").getD "" ++ ":key=" ++
               (mapGet options "keyring").getD ""
             else "") ++
            ":mon_host=" ++
            String.intercalate ";"
              ((stringsSplit ((mapGet options "monitors").getD "") ';').map
                (fun m => stringsReplace m ':' "\\:")))
          blockInfo.Format blockInfo.ScsiId) := by
  refine ⟨?_, ?_⟩
  · intro h
    rcases h with h | h
    · simp [QemuContext.AddDisk, h]
    · simp [QemuContext.AddDisk, h]
  · intro options hf ho
    have hne : stringsSplit ((mapGet options "monitors").getD "") ';' ≠ [] := by
      simp [stringsSplit, splitChars_ne_nil]
    simp only [QemuContext.AddDisk, hf, ho, if_true]
    rw [addMonitor_all _ hne]
    congr 1
    by_cases hk : (mapGet options "keyring").getD "" = ""
    · simp [hk]
    · by_cases hu : (mapGet options "user").getD "" = ""
      · simp [hu]
      · simp [hk, hu, String.append_assoc]

/-- C22, at an RBD volume with credentials and two monitors. -/
theorem C22_add_disk_filename_witness :
    (sampleQemuContext "/run/qmp.sock" none).AddDisk "volume" sampleRbd =
      newDiskAddSession (sampleQemuContext "/run/qmp.sock" none) "vol1" "volume"
        "rbd:pool/image:id=admin:key=AQB=:mon_host=10.0.0.1\\:6789;10.0.0.2\\:6789" "rbd" 2 :=
  ((C22_add_disk_filename (sampleQemuContext "/run/qmp.sock" none) "volume" sampleRbd).2
    _ rfl rfl).trans (by decide)

/-! ### C23: replay of the queued devices at launch -/

theorem LazyDevice_add_callbacks (qc : QemuContext) (dev : LazyDevice) :
    (dev.add qc).callbacks = qc.callbacks ++ [dev.inserted] ∧
      (dev.add qc).driver = qc.driver := by
  cases dev <;>
    simp [LazyDevice.add, LazyDevice.inserted, QemuContext.LazyAddNic, QemuContext.LazyAddDisk]

theorem foldl_add_callbacks (devs : List LazyDevice) :
    ∀ qc, (devs.foldl LazyDevice.add qc).callbacks = qc.callbacks ++ devs.map LazyDevice.inserted ∧
      (devs.foldl LazyDevice.add qc).driver = qc.driver := by
  induction devs with
  | nil => intro qc; simp
  | cons d rest ih =>
    intro qc
    simp only [List.foldl_cons, List.map_cons]
    rw [(ih _).1, (ih _).2, (LazyDevice_add_callbacks qc d).1, (LazyDevice_add_callbacks qc d).2]
    simp

theorem launchQemu_hub (X : QemuEnv) (ctx : VmContext) :
    (ctx.DCtx.driver.executable = "" →
      (launchQemu X ctx).Hub =
        ctx.Hub ++ [.VmStartFailEvent "can not find qemu executable"]) ∧
    (∀ e, ctx.DCtx.driver.executable ≠ "" →
      X.ExecInDaemon ctx.DCtx.driver.executable
        ("qemu-system-x86_64" :: (ctx.DCtx.arguments X ctx).1) = .error e →
      (launchQemu X ctx).Hub = ctx.Hub ++ [.VmStartFailEvent "try to start qemu failed"]) ∧
    (∀ pid, ctx.DCtx.driver.executable ≠ "" →
      X.ExecInDaemon ctx.DCtx.driver.executable
        ("qemu-system-x86_64" :: (ctx.DCtx.arguments X ctx).1) = .ok pid →
      (launchQemu X ctx).Hub = ctx.Hub ++ ctx.DCtx.callbacks ∧
      (launchQemu X ctx).DCtx.process = some ⟨(pid : Int)⟩) := by
  refine ⟨?_, ?_, ?_⟩
  · intro h
    simp [launchQemu, h]
  · intro e h he
    simp only [launchQemu, h, if_false, he]
    simp [QemuContext.arguments]
  · intro pid h he
    simp only [launchQemu, h, if_false, he]
    simp [QemuContext.arguments, QemuContext.watchPid, osFindProcess]

/-- C23: each `LazyAddNic` or `LazyAddDisk` call appends exactly one callback, the
inserted event of its device, to `callbacks`. When the devices `devs` were queued
in that order and `launchQemu` runs: if the executable is missing, or if the
process cannot be started, the Hub receives a single VmStartFailEvent and no
inserted event; if the process is started, the Hub receives the queued callbacks,
that is the inserted events of `devs` once each and in the order the devices were
added (after those of devices queued before), and the process is recorded. -/
theorem C23_lazy_replay (X : QemuEnv) (ctx : VmContext) (devs : List LazyDevice) :
    (∀ qc (dev : LazyDevice), (dev.add qc).callbacks = qc.callbacks ++ [dev.inserted]) ∧
    (ctx.DCtx.driver.executable = "" →
      (launchQemu X { ctx with DCtx := devs.foldl LazyDevice.add ctx.DCtx }).Hub =
        ctx.Hub ++ [.VmStartFailEvent "can not find qemu executable"]) ∧
    (∀ e, ctx.DCtx.driver.executable ≠ "" →
      X.ExecInDaemon ctx.DCtx.driver.executable
        ("qemu-system-x86_64" :: ((devs.foldl LazyDevice.add ctx.DCtx).arguments X
          { ctx with DCtx := devs.foldl LazyDevice.add ctx.DCtx }).1) = .error e →
      (launchQemu X { ctx with DCtx := devs.foldl LazyDevice.add ctx.DCtx }).Hub =
        ctx.Hub ++ [.VmStartFailEvent "try to start qemu failed"]) ∧
    (∀ pid, ctx.DCtx.driver.executable ≠ "" →
      X.ExecInDaemon ctx.DCtx.driver.executable
        ("qemu-system-x86_64" :: ((devs.foldl LazyDevice.add ctx.DCtx).arguments X
          { ctx with DCtx := devs.foldl LazyDevice.add ctx.DCtx }).1) = .ok pid →
      (launchQemu X { ctx with DCtx := devs.foldl LazyDevice.add ctx.DCtx }).Hub =
        ctx.Hub ++ ctx.DCtx.callbacks ++ devs.map LazyDevice.inserted ∧
      (launchQemu X { ctx with DCtx := devs.foldl LazyDevice.add ctx.DCtx }).DCtx.process =
        some ⟨(pid : Int)⟩) := by
  have hd := (foldl_add_callbacks devs ctx.DCtx).2
  have hc := (foldl_add_callbacks devs ctx.DCtx).1
  have hl := launchQemu_hub X { ctx with DCtx := devs.foldl LazyDevice.add ctx.DCtx }
  refine ⟨fun qc dev => (LazyDevice_add_callbacks qc dev).1, ?_, ?_, ?_⟩
  · intro h
    exact hl.1 (by simpa [hd] using h)
  · intro e h he
    exact hl.2.1 e (by simpa [hd] using h) (by simpa [hd] using he)
  · intro pid h he
    have := hl.2.2 pid (by simpa [hd] using h) (by simpa [hd] using he)
    refine ⟨?_, this.2⟩
    rw [this.1]
    simp [hc]

/-- C23, at an interface, a volume and a second interface queued in that order on a
fresh driver context, with a process that starts. -/
theorem C23_lazy_replay_witness :
    (launchQemu sampleQemuEnv
      { sampleContext "vm-1" (sampleQemuContext "/run/qmp.sock" none) with
        DCtx := sampleDevices.foldl LazyDevice.add
          (sampleQemuContext "/run/qmp.sock" none) }).Hub =
      [.NetDevInsertedEvent 0 "eth0" 5, .BlockdevInsertedEvent "vol1" "volume" "sda" 0,
        .NetDevInsertedEvent 1 "eth1" 6] :=
  ((C23_lazy_replay sampleQemuEnv (sampleContext "vm-1" (sampleQemuContext "/run/qmp.sock" none))
    sampleDevices).2.2.2 4242 (by decide) rfl).1.trans (by decide)

/-! ### C26: the bus address of an interface, lazy and eager -/

/-- C26: for the PCI address 10 the two provisioning paths disagree. On the command
line built by `arguments` the interface gets `addr=0x10`, which denotes 16; the
session built by `newNetworkAddSession` for the same address sends `0xa`, which
denotes 10. -/
theorem C26_bus_addr_differs :
    (tenthNic.arguments sampleQemuEnv (sampleContext "vm-1" tenthNic)).1.getLast? =
      some ("virtio-net-pci,netdev=eth0,id=netchan0,mac=52:54:00:00:00:01," ++
        "bus=pci.0,addr=0x10") ∧
    optionValue "addr" ("virtio-net-pci,netdev=eth0,id=netchan0,mac=52:54:00:00:00:01," ++
        "bus=pci.0,addr=0x10") = some "0x10" ∧
    busAddrValue "0x10" = some 16 ∧
    (newNetworkAddSession (sampleQemuContext "/run/qmp.sock" none) 3 "eth0"
        "52:54:00:00:00:01" 0 10).qmp.map
      (fun s => s.commands.map (fun c => mapGet c.Arguments "addr")) =
      [[none, none, some (.str "0xa")]] ∧
    busAddrValue "0xa" = some 10 := by
  refine ⟨by decide, by decide, by decide, by decide, by decide⟩

/-! ### Lemmas on the metadata handshake of a migration -/

theorem sendLoop_complete (E : DaemonEnv) (conns : List Conn)
    (hwrite : ∀ cs w (c : Char) (r : List Char),
      ∃ n, 1 ≤ n ∧ E.write cs w (String.mk (c :: r)) = (n, none)) :
    ∀ (fuel : Nat) (written : String) (rest : List Char), rest.length ≤ fuel →
      sendLoop E conns fuel written rest = some (none, written ++ String.mk rest) := by
  intro fuel
  induction fuel with
  | zero =>
    intro written rest h
    cases rest with
    | nil =>
      simp only [sendLoop]
      congr 2
      apply String.ext; simp
    | cons c cs => simp at h
  | succ fuel ih =>
    intro written rest h
    cases rest with
    | nil =>
      simp only [sendLoop]
      congr 2
      apply String.ext; simp
    | cons c cs =>
      obtain ⟨n, hn, hw⟩ := hwrite conns written c cs
      simp only [sendLoop, hw]
      have hn0 : n ≠ 0 := by omega
      simp only [hn0, if_false]
      rw [ih]
      · congr 2
        apply String.ext
        simp only [String.data_append, List.append_assoc, List.take_append_drop]
      · simp only [List.length_drop, List.length_cons] at h ⊢
        omega

theorem sendMata_complete (E : DaemonEnv)
    (hdial : ∀ cs a, E.dial cs a = none)
    (hwrite : ∀ cs w (c : Char) (r : List Char),
      ∃ n, 1 ≤ n ∧ E.write cs w (String.mk (c :: r)) = (n, none))
    (conns : List Conn) (arg ip port : String) :
    sendMata E conns arg ip port = some (none, conns ++ [⟨ip ++ ":" ++ port, arg⟩]) := by
  have hs : "" ++ String.mk arg.data = arg := by
    apply String.ext; simp
  simp only [sendMata, hdial, sendLoop_complete E conns hwrite _ "" arg.data (le_refl _), hs]

/-- For a pod with a live VM, when every dial succeeds and every write returns
no error and takes at least one byte (however few), each `sendMata` call leaves one
connection to ip:port whose whole content is its blob, and `MigratePod` opens
exactly three such connections, carrying the pod id, the pod arguments and the
container ids in that order; the VM-level migrate primitive is called only in the
state where the three blobs are already sent, and what follows is the bookkeeping
of a migration that succeeded or the return of code 0. -/
theorem MigratePod_reachable (E : DaemonEnv) (d : Daemon) (pod : Pod) (vm : Vm)
    (podId ip port : String)
    (hpod : mapGet d.PodList podId = some pod) (hvm : pod.vm = some vm)
    (hdial : ∀ cs a, E.dial cs a = none)
    (hwrite : ∀ cs w (c : Char) (r : List Char),
      ∃ n, 1 ≤ n ∧ E.write cs w (String.mk (c :: r)) = (n, none)) :
    (∀ conns arg, sendMata E conns arg ip port =
      some (none, conns ++ [⟨ip ++ ":" ++ port, arg⟩])) ∧
    ∃ d1 : Daemon,
      d1 = { d with conns := d.conns ++
        [⟨ip ++ ":" ++ port, podId⟩, ⟨ip ++ ":" ++ port, (d.GetPodByName podId).1⟩,
          ⟨ip ++ ":" ++ port, (mapGet d.db ("pod-container-" ++ podId)).getD ""⟩] } ∧
      d.MigratePod E podId ip port =
        if E.vmMigratePod vm ip port then
          some (((E.CleanPod
              ((((d1.call (.vmMigratePod vm.Id ip port)).DeleteVmByPod podId).RemoveVm
                vm.Id).call (.CleanPod podId)) podId).1,
            (E.CleanPod
              ((((d1.call (.vmMigratePod vm.Id ip port)).DeleteVmByPod podId).RemoveVm
                vm.Id).call (.CleanPod podId)) podId).2.1, none),
            (E.CleanPod
              ((((d1.call (.vmMigratePod vm.Id ip port)).DeleteVmByPod podId).RemoveVm
                vm.Id).call (.CleanPod podId)) podId).2.2)
        else some ((0, "", none), d1.call (.vmMigratePod vm.Id ip port)) := by
  refine ⟨fun conns arg => sendMata_complete E hdial hwrite conns arg ip port, _, rfl, ?_⟩
  simp only [Daemon.MigratePod, hpod, hvm, sendMata_complete E hdial hwrite]
  simp

/-- At the pod `pod-7` of a daemon whose connections take at most three bytes
per write and whose VM reports the migration as not done: three connections carry
the three blobs whole and in order, and the migrate call is recorded. -/
theorem MigratePod_reachable_example :
    liveDaemon.MigratePod { chunkedDaemonEnv with vmMigratePod := fun _ _ _ => false }
      "pod-7" "10.0.0.2" "4444" =
      some ((0, "", none),
        { liveDaemon with
          conns := [⟨"10.0.0.2:4444", "pod-7"⟩, ⟨"10.0.0.2:4444", "pod-args"⟩,
            ⟨"10.0.0.2:4444", "c1"⟩],
          calls := [.vmMigratePod "vm-1" "10.0.0.2" "4444"] }) := by
  obtain ⟨_, d1, h1, h2⟩ := MigratePod_reachable
    { chunkedDaemonEnv with vmMigratePod := fun _ _ _ => false } liveDaemon
    ⟨"pod-7", some ⟨"vm-1"⟩, ["c1"]⟩ ⟨"vm-1"⟩ "pod-7" "10.0.0.2" "4444" rfl rfl
    (fun _ _ => rfl)
    (fun _ _ c r => ⟨min 3 (String.mk (c :: r)).length, by
      simp only [String.length]; simp only [List.length_cons]; omega, rfl⟩)
  rw [h2, h1]
  decide

/-! ### Lemmas on the scan of `getNextIP` -/

theorem probeAt_next (al : allocatedMap) (j : Nat) (hu : al.last ≤ al.end)
    (hj : (j : Int) + 1 ≤ al.end - al.begin + 1) :
    (if probeAt al j + 1 > al.end then al.begin else probeAt al j + 1) = probeAt al (j + 1) := by
  unfold probeAt
  push_cast
  split_ifs <;> omega

theorem probeAt_range (al : allocatedMap) (k : Nat)
    (hl : al.begin - 1 ≤ al.last) (hu : al.last ≤ al.end)
    (h1 : 1 ≤ k) (hk : (k : Int) ≤ al.end - al.begin + 1) :
    al.begin ≤ probeAt al k ∧ probeAt al k ≤ al.end := by
  unfold probeAt
  split_ifs <;> omega

theorem probeAt_cover (al : allocatedMap) (pos : Int)
    (hl : al.begin - 1 ≤ al.last) (hu : al.last ≤ al.end)
    (hb : al.begin ≤ pos) (he : pos ≤ al.end) :
    ∃ k : Nat, 1 ≤ k ∧ (k : Int) ≤ al.end - al.begin + 1 ∧ probeAt al k = pos := by
  by_cases h : al.last < pos
  · refine ⟨(pos - al.last).toNat, by omega, by omega, ?_⟩
    unfold probeAt
    split_ifs <;> omega
  · refine ⟨(pos - al.last + (al.end - al.begin + 1)).toNat, by omega, by omega, ?_⟩
    unfold probeAt
    split_ifs <;> omega

theorem getNextIPLoop_scan (L : NetLib) (al : allocatedMap)
    (hu : al.last ≤ al.end) (n : Nat) :
    ∀ j : Nat, (j : Int) + n ≤ al.end - al.begin + 1 →
      (∀ pos, getNextIPLoop L al n (probeAt al j) = some pos →
        ∃ k : Nat, j < k ∧ k ≤ j + n ∧ pos = probeAt al k ∧
          mapGet al.p (L.ipString (bigIntToIP (probeAt al k))) = none ∧
          ∀ i : Nat, j < i → i < k →
            mapGet al.p (L.ipString (bigIntToIP (probeAt al i))) ≠ none) ∧
      (getNextIPLoop L al n (probeAt al j) = none →
        ∀ i : Nat, j < i → i ≤ j + n →
          mapGet al.p (L.ipString (bigIntToIP (probeAt al i))) ≠ none) := by
  induction n with
  | zero =>
    intro j _
    refine ⟨fun pos h => by simp [getNextIPLoop] at h, fun _ i h1 h2 => by omega⟩
  | succ n ih =>
    intro j hj
    have hnext := probeAt_next al j hu (by push_cast at hj; omega)
    obtain ⟨ih1, ih2⟩ := ih (j + 1) (by push_cast at hj ⊢; omega)
    unfold getNextIPLoop
    simp only [hnext]
    cases hm : mapGet al.p (L.ipString (bigIntToIP (probeAt al (j + 1)))) with
    | some u =>
      simp only
      refine ⟨fun pos h => ?_, fun h i h1 h2 => ?_⟩
      · obtain ⟨k, k1, k2, k3, k4, k5⟩ := ih1 pos h
        refine ⟨k, by omega, by omega, k3, k4, fun i i1 i2 => ?_⟩
        by_cases hi : i = j + 1
        · subst hi; rw [hm]; simp
        · exact k5 i (by omega) i2
      · by_cases hi : i = j + 1
        · subst hi; rw [hm]; simp
        · exact ih2 h i (by omega) (by omega)
    | none =>
      simp only
      refine ⟨fun pos h => ?_, fun h => by simp at h⟩
      simp only [Option.some.injEq] at h
      subst h
      exact ⟨j + 1, by omega, by omega, rfl, hm, fun i i1 i2 => by omega⟩

theorem probeAt_zero (al : allocatedMap) (hu : al.last ≤ al.end) : probeAt al 0 = al.last := by
  unfold probeAt
  simp [hu]

/-- On the keys of the allocated set: for an allocated set whose `last` lies between `begin - 1` and `end`
whenever the range is not empty, `getNextIP` returns the error ErrNoAvailableIPs
exactly when the key of every position from `begin` to `end` is in the set, and
then leaves the set alone; it always does so when `end` is below `begin`. When it
returns an address, that is the address of the first probe whose key is free, the
probes running cyclically from just after `last` (wrapping from `end` to `begin`),
after at most `end - begin + 1` probes; the key is recorded, `last` becomes that
position, which lies between `begin` and `end`, and the bounds are unchanged. -/
theorem getNextIP_scan (L : NetLib) (al : allocatedMap)
    (hinv : al.begin ≤ al.end → al.begin - 1 ≤ al.last ∧ al.last ≤ al.end) :
    ((al.getNextIP L).1 = .error ErrNoAvailableIPs ↔
      ∀ pos, al.begin ≤ pos → pos ≤ al.end →
        mapGet al.p (L.ipString (bigIntToIP pos)) ≠ none) ∧
    ((al.getNextIP L).1 = .error ErrNoAvailableIPs → (al.getNextIP L).2 = al) ∧
    (al.end < al.begin → (al.getNextIP L).1 = .error ErrNoAvailableIPs) ∧
    (∀ ip, (al.getNextIP L).1 = .ok ip →
      ∃ k : Nat, 1 ≤ k ∧ (k : Int) ≤ al.end - al.begin + 1 ∧
        ip = bigIntToIP (probeAt al k) ∧
        mapGet al.p (L.ipString (bigIntToIP (probeAt al k))) = none ∧
        (∀ i : Nat, 1 ≤ i → i < k →
          mapGet al.p (L.ipString (bigIntToIP (probeAt al i))) ≠ none) ∧
        (al.getNextIP L).2 =
          { al with p := mapSet al.p (L.ipString ip) (), last := probeAt al k } ∧
        al.begin ≤ probeAt al k ∧ probeAt al k ≤ al.end) := by
  by_cases hbe : al.begin ≤ al.end
  · obtain ⟨hl, hu⟩ := hinv hbe
    have hN : ((0 : Nat) : Int) + ((al.end - al.begin + 1).toNat : Nat) ≤
        al.end - al.begin + 1 := by
      have : ((al.end - al.begin + 1).toNat : Int) = al.end - al.begin + 1 :=
        Int.toNat_of_nonneg (by omega)
      omega
    obtain ⟨s1, s2⟩ := getNextIPLoop_scan L al hu (al.end - al.begin + 1).toNat 0 hN
    rw [probeAt_zero al hu] at s1 s2
    have hN2 : ((al.end - al.begin + 1).toNat : Int) = al.end - al.begin + 1 :=
      Int.toNat_of_nonneg (by omega)
    cases hloop : getNextIPLoop L al (al.end - al.begin + 1).toNat al.last with
    | none =>
      have herr : (al.getNextIP L) = (.error ErrNoAvailableIPs, al) := by
        simp [allocatedMap.getNextIP, hloop]
      refine ⟨⟨fun _ pos hb he => ?_, fun _ => by rw [herr]⟩, fun _ => by rw [herr],
        fun _ => by rw [herr], fun ip h => by rw [herr] at h; simp at h⟩
      obtain ⟨k, k1, k2, k3⟩ := probeAt_cover al pos hl hu hb he
      rw [← k3]
      exact s2 hloop k (by omega) (by omega)
    | some pos =>
      have hok : (al.getNextIP L) = (.ok (bigIntToIP pos),
          { al with p := mapSet al.p (L.ipString (bigIntToIP pos)) (), last := pos }) := by
        simp [allocatedMap.getNextIP, hloop]
      obtain ⟨k, k1, k2, k3, k4, k5⟩ := s1 pos hloop
      have hr := probeAt_range al k hl hu (by omega) (by omega)
      refine ⟨⟨fun h => by rw [hok] at h; simp at h, fun h => ?_⟩,
        fun h => by rw [hok] at h; simp at h, fun h => by omega, fun ip h => ?_⟩
      · exact absurd k4 (h _ hr.1 hr.2)
      · rw [hok] at h
        simp only [Except.ok.injEq] at h
        subst h
        subst k3
        exact ⟨k, by omega, by omega, rfl, k4, fun i i1 i2 => k5 i (by omega) i2, hok ▸ rfl,
          hr.1, hr.2⟩
  · have hz : (al.end - al.begin + 1).toNat = 0 := by omega
    have herr : (al.getNextIP L) = (.error ErrNoAvailableIPs, al) := by
      simp [allocatedMap.getNextIP, hz, getNextIPLoop]
    refine ⟨⟨fun _ pos hb he => by omega, fun _ => by rw [herr]⟩, fun _ => by rw [herr],
      fun _ => by rw [herr], fun ip h => by rw [herr] at h; simp at h⟩

/-- At the network 10.0.0.0/31, which has no usable host address: the set
built for it has `end` below `begin`, and no address is handed out. -/
theorem getNextIP_scan_example :
    newAllocatedMap ⟨[10, 0, 0, 0], [255, 255, 255, 254]⟩ = some noHostMap ∧
    (noHostMap.getNextIP sampleNetLib).1 = .error ErrNoAvailableIPs :=
  ⟨by decide,
    (getNextIP_scan sampleNetLib noHostMap (fun h => absurd h (by decide))).2.2.1 (by decide)⟩

/-- The scan wraps: with 10.0.0.1 allocated and 10.0.0.2 handed out last in the
range from 10.0.0.1 to 10.0.0.2, the next address is 10.0.0.2 again, found by the
second probe. -/
theorem getNextIP_wraps :
    (wrapMap.getNextIP sampleNetLib).1 = .ok [10, 0, 0, 2] ∧
    probeAt wrapMap 1 = 167772161 ∧ probeAt wrapMap 2 = 167772162 :=
  ⟨rfl, by decide, by decide⟩

/-! ### C27: the driver handle across the wire form -/

theorem LoadContext_after_wire (qd : QemuDriver) (qc : QemuContext)
    (dr : List (String × GoValue)) (pinfo : PersistInfo) (h : qc.Dump = .ok dr) :
    qd.LoadContext (vmDeserialize ({ pinfo with DriverInfo := dr } : PersistInfo).serialize).DriverInfo
      = .error "wrong pid field type in persist info" := by
  unfold QemuContext.Dump at h
  cases hp : qc.process with
  | none => rw [hp] at h; simp at h
  | some proc =>
    rw [hp] at h
    simp only [Except.ok.injEq] at h
    subst h
    simp [QemuDriver.LoadContext, vmDeserialize, PersistInfo.serialize, mapGet,
      jsonMarshalValue, jsonUnmarshalValue]

/-- C27: the driver map of a context with the process 4242, as `Dump` writes it, is
accepted by `LoadContext` directly, with the same socket path and pid; after the
record holding it went through `serialize` and `vmDeserialize` the pid is a
`float64`, and `LoadContext` rejects the map with the error for a wrong pid field
type. -/
theorem C27_wire_pid_rejected :
    (sampleQemuContext "/var/run/hyper/vm-1/qmp.sock" (some ⟨4242⟩)).Dump =
      .ok sampleDriverInfo ∧
    QemuDriver.LoadContext ⟨"qemu-system-x86_64"⟩ sampleDriverInfo =
      .ok (sampleQemuContext "/var/run/hyper/vm-1/qmp.sock" (some ⟨4242⟩)) ∧
    mapGet (vmDeserialize (sampleRecord sampleDriverInfo []).serialize).DriverInfo "pid" =
      some (.float64 4242) ∧
    QemuDriver.LoadContext ⟨"qemu-system-x86_64"⟩
      (vmDeserialize (sampleRecord sampleDriverInfo []).serialize).DriverInfo =
      .error "wrong pid field type in persist info" := by
  refine ⟨rfl, rfl, ?_, ?_⟩
  · simp [vmDeserialize, PersistInfo.serialize, sampleRecord, sampleDriverInfo, mapGet,
      jsonMarshalValue, jsonUnmarshalValue]
  · exact LoadContext_after_wire ⟨"qemu-system-x86_64"⟩
      (sampleQemuContext "/var/run/hyper/vm-1/qmp.sock" (some ⟨4242⟩)) sampleDriverInfo
      (sampleRecord sampleDriverInfo []) rfl

/-! ### C28: a container index outside the container list -/

theorem restoreVolumes_out_of_range (spec : VmPod) (vol : PersistVolumeInfo)
    (rest : List (Option PersistVolumeInfo)) (ctx : VmContext)
    (idx : Int) (cs : List Int) (mp : String) (mps : List String)
    (hc : vol.Containers = idx :: cs) (hm : vol.MontPoints = mp :: mps)
    (hlen : cs.length = mps.length) (himg : vol.MontPoints ≠ ["/"])
    (hidx : sliceAt spec.Containers idx = none) :
    restoreVolumes spec (some vol :: rest) ctx = .panic "index out of range" := by
  unfold restoreVolumes
  simp only [himg, if_false]
  simp [hc, hm, hlen, restoreVolumePos, hidx]

/-- C28: a record whose only volume entry passes the count check (one container
index, one mount point) but names the container index 5, or the index -1, while
the VM has a single container, is not rejected with an error: `vmContext` indexes
`ctx.vmSpec.Containers` out of range and panics. -/
theorem C28_restore_index_out_of_range :
    (sampleVolume "vol1" [5] ["/data"]).Containers.length =
      (sampleVolume "vol1" [5] ["/data"]).MontPoints.length ∧
    sampleVmPod.Containers.length = 1 ∧
    (sampleRecord sampleDriverInfo [some (sampleVolume "vol1" [5] ["/data"])]).vmContext
      sampleDriver sampleInitContext = .panic "index out of range" ∧
    (sampleRecord sampleDriverInfo [some (sampleVolume "vol1" [-1] ["/data"])]).vmContext
      sampleDriver sampleInitContext = .panic "index out of range" :=
  ⟨rfl, rfl, rfl, rfl⟩

/-! ### C30: addresses and integers -/

theorem bigBytesAux_four (a b c d fuel : Nat) (ha : 1 ≤ a) (ha2 : a < 256) (hb : b < 256)
    (hc : c < 256) (hd : d < 256) (hf : 5 ≤ fuel) :
    bigBytesAux fuel (((a * 256 + b) * 256 + c) * 256 + d) [] = [a, b, c, d] := by
  obtain ⟨f, rfl⟩ : ∃ f, fuel = f + 5 := ⟨fuel - 5, by omega⟩
  have h1 : (((a * 256 + b) * 256 + c) * 256 + d) ≠ 0 := by omega
  have h2 : (((a * 256 + b) * 256 + c) * 256 + d) / 256 = (a * 256 + b) * 256 + c := by omega
  have h3 : (((a * 256 + b) * 256 + c) * 256 + d) % 256 = d := by omega
  have h4 : ((a * 256 + b) * 256 + c) ≠ 0 := by omega
  have h5 : ((a * 256 + b) * 256 + c) / 256 = a * 256 + b := by omega
  have h6 : ((a * 256 + b) * 256 + c) % 256 = c := by omega
  have h7 : (a * 256 + b) ≠ 0 := by omega
  have h8 : (a * 256 + b) / 256 = a := by omega
  have h9 : (a * 256 + b) % 256 = b := by omega
  have h10 : a ≠ 0 := by omega
  have h11 : a / 256 = 0 := by omega
  have h12 : a % 256 = a := by omega
  simp only [bigBytesAux, h1, h2, h3, h4, h5, h6, h7, h8, h9, h10, h11, h12, if_false, if_true]

theorem bigIntToIP_ipToBigInt (a b c d : Nat) (ha : 1 ≤ a) (ha2 : a < 256) (hb : b < 256)
    (hc : c < 256) (hd : d < 256) :
    (ipToBigInt [a, b, c, d]).map bigIntToIP = some [a, b, c, d] := by
  have h4 : To4 [a, b, c, d] = [a, b, c, d] := by simp [To4]
  have hs : setBytes [a, b, c, d] = ((((a * 256 + b) * 256 + c) * 256 + d : Nat) : Int) := by
    simp only [setBytes, List.foldl_cons, List.foldl_nil, Nat.zero_mul, Nat.zero_add]
  have hn : (((((a * 256 + b) * 256 + c) * 256 + d : Nat) : Int)).natAbs =
      ((a * 256 + b) * 256 + c) * 256 + d := Int.natAbs_ofNat _
  unfold ipToBigInt
  rw [h4, if_pos (by simp), Option.map_some', hs]
  unfold bigIntToIP bigBytes
  rw [hn, bigBytesAux_four a b c d _ ha ha2 hb hc hd (by omega)]

/-- C30: the IPv4 address 0.0.0.5 does not come back from the conversion: its
integer is 5 and `bigIntToIP` turns 5 into the one-byte slice [5], not into a
4-byte address. On the network 0.0.0.0/29 the allocator therefore hands out
the one-byte slice [1] as the next address, records it under the key of that
slice, and then accepts a request for 0.0.0.1 as not yet allocated, because
`checkIP` looks under the key of the 4-byte form. -/
theorem C30_leading_zero_bytes :
    To4 [0, 0, 0, 5] = [0, 0, 0, 5] ∧
    ipToBigInt [0, 0, 0, 5] = some 5 ∧
    bigIntToIP 5 = [5] ∧
    (IPAllocator.RequestIP sampleNetLib ⟨[]⟩ zeroNet []).1 = .ok [1] ∧
    (IPAllocator.RequestIP sampleNetLib
      (IPAllocator.RequestIP sampleNetLib ⟨[]⟩ zeroNet []).2 zeroNet [0, 0, 0, 1]).1 =
      .ok [0, 0, 0, 1] :=
  ⟨by decide, by decide, by decide, rfl, rfl⟩

/-! ### C29: the reference count of a mounted rbd device -/

theorem lookupDevice_found (X : RbdEnv) (s : RbdSet) (hash : String) (info : DevInfo)
    (h : mapGet s.Devices hash = some info) :
    s.lookupDevice X hash = (.ok (some info), s) := by
  simp [RbdSet.lookupDevice, h]

theorem imageIsMappedLoop_keeps (pool imgName : String) (l : List RbdMappingInfo) :
    ∀ info : DevInfo,
      (imageIsMappedLoop pool imgName l info).2.mountCount = info.mountCount ∧
      (imageIsMappedLoop pool imgName l info).2.mountPath = info.mountPath := by
  induction l with
  | nil => intro info; simp [imageIsMappedLoop]
  | cons m rest ih =>
    intro info
    unfold imageIsMappedLoop
    split
    · split <;> simp
    · exact ih info

theorem imageIsMapped_keeps (X : RbdEnv) (s : RbdSet) (info : DevInfo) :
    (s.imageIsMapped X info).2.1.mountCount = info.mountCount ∧
    (s.imageIsMapped X info).2.1.mountPath = info.mountPath := by
  unfold RbdSet.imageIsMapped
  simp only
  split
  · simp
  · exact imageIsMappedLoop_keeps _ _ _ info

theorem unmapImageFromRbdDevice_keeps (X : RbdEnv) (s : RbdSet) (info : DevInfo) :
    (s.unmapImageFromRbdDevice X info).2.1.mountCount = info.mountCount ∧
    (s.unmapImageFromRbdDevice X info).2.1.mountPath = info.mountPath := by
  have hk := imageIsMapped_keeps X s info
  unfold RbdSet.unmapImageFromRbdDevice
  split
  · simp
  · generalize s.imageIsMapped X info = r at hk
    obtain ⟨b, info1, s1⟩ := r
    cases b
    · simpa using hk
    · simp only
      split <;> simpa using hk

theorem store_get (s : RbdSet) (hash : String) (info : DevInfo) :
    mapGet (s.store hash info).Devices hash = some info := by
  simp [RbdSet.store, mapGet_mapSet_self]

theorem mapImageToRbdDevice_keeps (X : RbdEnv) (s : RbdSet) (info : DevInfo) :
    (s.mapImageToRbdDevice X info).2.1.mountCount = info.mountCount ∧
    (s.mapImageToRbdDevice X info).2.1.mountPath = info.mountPath := by
  unfold RbdSet.mapImageToRbdDevice
  split
  · simp
  · simp only
    split
    · simp
    · have hk := imageIsMapped_keeps X
        (s.call (.rbdMap s.dataPoolName (s.getRbdImageName info.Hash))) info
      generalize (s.call (.rbdMap s.dataPoolName (s.getRbdImageName info.Hash))).imageIsMapped
        X info = r at hk
      obtain ⟨b, info1, s1⟩ := r
      cases b <;> simpa using hk

theorem MountDevice_count (X : RbdEnv) (s : RbdSet) (hash mountPoint : String) (info : DevInfo)
    (hfound : mapGet s.Devices hash = some info) (hcount : 0 ≤ info.mountCount)
    (hok : (s.MountDevice X hash mountPoint).1 = .ok ()) :
    ∃ info1, mapGet (s.MountDevice X hash mountPoint).2.Devices hash = some info1 ∧
      info1.mountCount = info.mountCount + 1 ∧ info1.mountPath = mountPoint := by
  have hl := lookupDevice_found X s hash info hfound
  unfold RbdSet.MountDevice at hok ⊢
  simp only [hl] at hok ⊢
  by_cases hpos : info.mountCount > 0
  · simp only [hpos, if_true] at hok ⊢
    by_cases hp : mountPoint ≠ info.mountPath
    · simp [hp] at hok
    · simp only [hp, if_false]
      exact ⟨_, store_get _ _ _, rfl, (not_not.1 hp).symm⟩
  · have h0 : info.mountCount = 0 := by omega
    simp only [hpos, if_false] at hok ⊢
    generalize s.mapImageToRbdDevice X info = r at hok ⊢
    obtain ⟨o, info1, s1⟩ := r
    cases o with
    | some e => simp at hok
    | none =>
      simp only at hok ⊢
      cases hm : X.Mount s1.calls info1.Device mountPoint with
      | some e => simp [hm] at hok
      | none =>
        simp only [hm]
        exact ⟨_, store_get _ _ _, by simp [h0], rfl⟩

/-- C29 (amended): for a device of the set whose count is not negative,
`UnmountDevice` never panics and never leaves a negative count. With the count at
0 it returns the not-mounted error and leaves the set as it was. With the count
above 1 it returns nil, the count is one less and the mount path is kept. With the
count at 1 and an unmount system call that succeeds, the count is 0 and the mount
path is cleared afterwards, and the call returns the error of the unmapping, if
any, and nil otherwise. With the count at 1 and an unmount system call that fails,
it returns the error of the system call. -/
theorem C29_unmount_refcount (X : RbdEnv) (s : RbdSet) (hash : String) (info : DevInfo)
    (hfound : mapGet s.Devices hash = some info) (hcount : 0 ≤ info.mountCount) :
    (info.mountCount = 0 →
      s.UnmountDevice X hash =
        (.err ("UnmountDevice: device not-mounted id " ++ hash ++ "\n"), s)) ∧
    (1 < info.mountCount →
      (s.UnmountDevice X hash).1 = .ok () ∧
      ∃ info1, mapGet (s.UnmountDevice X hash).2.Devices hash = some info1 ∧
        info1.mountCount = info.mountCount - 1 ∧ info1.mountPath = info.mountPath) ∧
    (info.mountCount = 1 → X.Unmount s.calls info.mountPath = none →
      ((s.UnmountDevice X hash).1 =
        match ((s.call (.Unmount info.mountPath)).unmapImageFromRbdDevice X
            { info with mountCount := 0, mountPath := "" }).1 with
        | some e => .err e
        | none => .ok ()) ∧
      ∃ info1, mapGet (s.UnmountDevice X hash).2.Devices hash = some info1 ∧
        info1.mountCount = 0 ∧ info1.mountPath = "") ∧
    (∀ e, info.mountCount = 1 → X.Unmount s.calls info.mountPath = some e →
      (s.UnmountDevice X hash).1 = .err e) ∧
    (∃ info1, mapGet (s.UnmountDevice X hash).2.Devices hash = some info1 ∧
      0 ≤ info1.mountCount) ∧
    (s.UnmountDevice X hash).1.isPanic = false := by
  have hl := lookupDevice_found X s hash info hfound
  have hgen : info.mountCount = 1 → X.Unmount s.calls info.mountPath = none →
      ((s.UnmountDevice X hash).1 =
        match ((s.call (.Unmount info.mountPath)).unmapImageFromRbdDevice X
            { info with mountCount := 0, mountPath := "" }).1 with
        | some e => .err e
        | none => .ok ()) ∧
      ∃ info1, mapGet (s.UnmountDevice X hash).2.Devices hash = some info1 ∧
        info1.mountCount = 0 ∧ info1.mountPath = "" := by
    intro h1 hu
    have hk := unmapImageFromRbdDevice_keeps X (s.call (.Unmount info.mountPath))
      { info with mountCount := 0, mountPath := "" }
    simp only [RbdSet.UnmountDevice, hl, h1, hu]
    simp only [one_ne_zero, if_false, sub_self, gt_iff_lt, lt_self_iff_false]
    generalize (s.call (.Unmount info.mountPath)).unmapImageFromRbdDevice X
      { info with mountCount := 0, mountPath := "" } = r at hk
    obtain ⟨o, info3, s3⟩ := r
    simp only at hk
    cases o <;> exact ⟨rfl, info3, store_get _ _ _, hk.1, hk.2⟩
  have hmany : 1 < info.mountCount →
      (s.UnmountDevice X hash).1 = .ok () ∧
      ∃ info1, mapGet (s.UnmountDevice X hash).2.Devices hash = some info1 ∧
        info1.mountCount = info.mountCount - 1 ∧ info1.mountPath = info.mountPath := by
    intro h1
    have hne : info.mountCount ≠ 0 := by omega
    have hgt : info.mountCount - 1 > 0 := by omega
    refine ⟨by simp [RbdSet.UnmountDevice, hl, hne, hgt],
      { info with mountCount := info.mountCount - 1 }, ?_, rfl, rfl⟩
    simp [RbdSet.UnmountDevice, hl, hne, hgt, store_get]
  have hbusy : ∀ e, info.mountCount = 1 → X.Unmount s.calls info.mountPath = some e →
      (s.UnmountDevice X hash).1 = .err e ∧
      mapGet (s.UnmountDevice X hash).2.Devices hash =
        some { info with mountCount := info.mountCount - 1 } := by
    intro e h1 hu
    refine ⟨by simp [RbdSet.UnmountDevice, hl, h1, hu], ?_⟩
    simp [RbdSet.UnmountDevice, hl, h1, hu, store_get]
  have hzero : info.mountCount = 0 →
      s.UnmountDevice X hash =
        (.err ("UnmountDevice: device not-mounted id " ++ hash ++ "\n"), s) := by
    intro h0
    simp [RbdSet.UnmountDevice, hl, h0]
  refine ⟨hzero, hmany, hgen, fun e h1 hu => (hbusy e h1 hu).1, ?_, ?_⟩
  · by_cases h0 : info.mountCount = 0
    · rw [hzero h0]
      exact ⟨info, hfound, hcount⟩
    · by_cases h1 : info.mountCount = 1
      · cases hu : X.Unmount s.calls info.mountPath with
        | some e => exact ⟨_, (hbusy e h1 hu).2, by simp; omega⟩
        | none =>
          obtain ⟨_, info1, g1, g2, _⟩ := hgen h1 hu
          exact ⟨info1, g1, by omega⟩
      · obtain ⟨_, info1, g1, g2, _⟩ := hmany (by omega)
        exact ⟨info1, g1, by omega⟩
  · by_cases h0 : info.mountCount = 0
    · rw [hzero h0]; rfl
    · by_cases h1 : info.mountCount = 1
      · cases hu : X.Unmount s.calls info.mountPath with
        | some e => rw [(hbusy e h1 hu).1]; rfl
        | none =>
          rw [(hgen h1 hu).1]
          split <;> rfl
      · rw [(hmany (by omega)).1]; rfl

/-- C29 (amended), at a device mounted once whose unmapping fails after the unmount
system call succeeded: the count is 0 and the mount path is cleared. -/
theorem C29_unmount_refcount_witness :
    ∃ info1, mapGet ((sampleRbdSet 1).UnmountDevice stuckRbdEnv "layer1").2.Devices "layer1" =
        some info1 ∧
      info1.mountCount = 0 ∧ info1.mountPath = "" :=
  ((C29_unmount_refcount stuckRbdEnv (sampleRbdSet 1) "layer1" (mountedDevice 1) rfl
    (by decide)).2.2.1 (by decide) rfl).2

/-- C29: a device mounted once at `/mnt/layer1` whose image stays mapped because
`rbd unmap` fails. `UnmountDevice` returns that error, and afterwards the count of
the device is 0 and its mount path is empty, not 1 and `/mnt/layer1` as before the
call. -/
theorem C29_counterexample :
    mapGet (sampleRbdSet 1).Devices "layer1" = some (mountedDevice 1) ∧
    ((sampleRbdSet 1).UnmountDevice stuckRbdEnv "layer1").1 = .err "exit status 16" ∧
    mapGet ((sampleRbdSet 1).UnmountDevice stuckRbdEnv "layer1").2.Devices "layer1" =
      some { mountedDevice 1 with mountCount := 0, mountPath := "" } ∧
    (mountedDevice 1).mountCount = 1 ∧ (mountedDevice 1).mountPath = "/mnt/layer1" :=
  ⟨rfl, rfl, rfl, rfl, rfl⟩

/-- With an unmount system call that fails on a device mounted once, the error is
returned after the count was decremented: it is 0 afterwards and the mount path is
kept. -/
theorem UnmountDevice_busy :
    ((sampleRbdSet 1).UnmountDevice busyRbdEnv "layer1").1 = .err "device or resource busy" ∧
    mapGet ((sampleRbdSet 1).UnmountDevice busyRbdEnv "layer1").2.Devices "layer1" =
      some (mountedDevice 0) :=
  ⟨rfl, rfl⟩

/-! ### C16: an existing pod id with arguments that do not parse -/

/-- C16: the pod id `pod-7` exists locally. When the received pod arguments do not
parse, so that the specification is nil, `ListenPod` does not reject the pod id
with an error: it reads `spec.Containers[0]` before it looks the pod id up, and
panics. The same read is out of range when the specification has no container.
With arguments that parse the same pod id is rejected with the error. -/
theorem C16_existing_pod_panics :
    (mapGet sampleDaemon.PodList "pod-7").isSome = true ∧
    (sampleDaemon.ListenPod unparsedDaemonEnv "pod-7" "pod-args" "c1" "10.0.0.2" "4444" ""
        true false 0).1 = .panic "nil pointer dereference" ∧
    (sampleDaemon.ListenPod emptySpecDaemonEnv "pod-7" "pod-args" "c1" "10.0.0.2" "4444" ""
        true false 0).1 = .panic "index out of range" ∧
    (sampleDaemon.ListenPod sampleDaemonEnv "pod-7" "pod-args" "c1" "10.0.0.2" "4444" ""
        true false 0).1 = .ok (-1, "", some "The pos has existed(pod-7)") :=
  ⟨rfl, rfl, rfl, rfl⟩

/-! ### C18: the next address on a network whose addresses start with a zero byte -/

/-- C18: on the network 0.0.0.0/29 the address 0.0.0.1, at position 1, is requested
and granted. The request for the next available address that follows returns the
one-byte slice [1]: it is `bigIntToIP` of position 1 again, the position that was
allocated before the call, and it is not an address (`ipToBigInt` is nil on it). -/
theorem C18_next_ip_allocated_before :
    (IPAllocator.RequestIP sampleNetLib ⟨[]⟩ zeroNet [0, 0, 0, 1]).1 = .ok [0, 0, 0, 1] ∧
    ipToBigInt [0, 0, 0, 1] = some 1 ∧
    (IPAllocator.RequestIP sampleNetLib
      (IPAllocator.RequestIP sampleNetLib ⟨[]⟩ zeroNet [0, 0, 0, 1]).2 zeroNet []).1 =
      .ok [1] ∧
    (mapGet (IPAllocator.RequestIP sampleNetLib
      (IPAllocator.RequestIP sampleNetLib ⟨[]⟩ zeroNet [0, 0, 0, 1]).2 zeroNet []).2.allocatedIPs
      (sampleNetLib.netString zeroNet)).map (fun al => al.last) = some 1 ∧
    bigIntToIP 1 = [1] ∧
    ipToBigInt [1] = none :=
  ⟨rfl, by decide, rfl, by decide, by decide, by decide⟩

/-! ### C19: a request for an address that was handed out -/

/-- C19: on the network 0.0.0.0/29 two requests for the next available address hand
out the positions 1 and 2, as the slices [1] and [2]. The request for 0.0.0.2, the
address at position 2, which is allocated at that time, is then granted instead of
being refused with ErrIPAlreadyAllocated. -/
theorem C19_allocated_ip_granted :
    (IPAllocator.RequestIP sampleNetLib ⟨[]⟩ zeroNet []).1 = .ok [1] ∧
    (IPAllocator.RequestIP sampleNetLib
      (IPAllocator.RequestIP sampleNetLib ⟨[]⟩ zeroNet []).2 zeroNet []).1 = .ok [2] ∧
    (mapGet (IPAllocator.RequestIP sampleNetLib
      (IPAllocator.RequestIP sampleNetLib ⟨[]⟩ zeroNet []).2 zeroNet []).2.allocatedIPs
      (sampleNetLib.netString zeroNet)).map (fun al => al.last) = some 2 ∧
    ipToBigInt [0, 0, 0, 2] = some 2 ∧
    (IPAllocator.RequestIP sampleNetLib
      (IPAllocator.RequestIP sampleNetLib
        (IPAllocator.RequestIP sampleNetLib ⟨[]⟩ zeroNet []).2 zeroNet []).2
      zeroNet [0, 0, 0, 2]).1 = .ok [0, 0, 0, 2] :=
  ⟨rfl, rfl, by decide, by decide, rfl⟩

/-! ### C24: a destination that refuses the connections -/

/-- C24: the pod `pod-7` runs in a live VM and the destination refuses every
connection. Each `sendMata` returns the error of the dial and `MigratePod` discards
it: no connection is opened and no blob is sent, yet the VM-level migrate primitive
is invoked, the VM bookkeeping is deleted and the pod is cleaned, and the call
returns code 0 and a nil error. -/
theorem C24_migrate_unreachable :
    sendMata refusedDaemonEnv [] "pod-7" "10.0.0.2" "4444" =
      some (some "connection refused", []) ∧
    (liveDaemon.MigratePod refusedDaemonEnv "pod-7" "10.0.0.2" "4444").map
      (fun r => (r.1, r.2.conns, r.2.calls, r.2.VmList, r.2.db)) =
      some ((0, "", none), [], [.vmMigratePod "vm-1" "10.0.0.2" "4444", .CleanPod "pod-7"], [],
        [("pod-pod-7", "pod-args"), ("pod-container-pod-7", "c1")]) :=
  ⟨rfl, rfl⟩

/-! ### C25: a network whose addresses are all allocated -/

/-- C25: on the network 0.0.0.0/29 each of the six addresses from `begin` to `end`,
0.0.0.1 to 0.0.0.6, is requested and granted, which leaves the allocated set
`fullZeroMap`, with all six recorded. `getNextIP` on that set does not return
ErrNoAvailableIPs: it returns the one-byte slice [1], position 1 again. -/
theorem C25_full_network_hands_out :
    zeroHosts.map ipToBigInt = [some 1, some 2, some 3, some 4, some 5, some 6] ∧
    mapGet fullZeroAllocator.allocatedIPs (sampleNetLib.netString zeroNet) = some fullZeroMap ∧
    fullZeroMap.begin = 1 ∧ fullZeroMap.end = 6 ∧
    zeroHosts.all (fun ip => (mapGet fullZeroMap.p (sampleNetLib.ipString ip)).isSome) = true ∧
    (fullZeroMap.getNextIP sampleNetLib).1 = .ok [1] ∧
    (IPAllocator.RequestIP sampleNetLib fullZeroAllocator zeroNet []).1 = .ok [1] :=
  ⟨by decide, by decide, rfl, rfl, by decide, rfl, rfl⟩

end Growth
